import Mathlib

/-!
# Multicluster global hub

Hybrid sync manager, conflation priorities, status syncers, resource deployer,
hub cluster claim.

Embedding of five source files of the repository:

* `agent/pkg/status/controller/generic/hybrid_sync_manager.go`
* `pkg/conflator/conflation_priority.go`
* `manager/pkg/statussyncer/syncers.go`
* `operator/pkg/deployer/hoh_deployer.go`
* `agent/pkg/controllers/utils.go`

The hybrid sync manager keeps two bundle collection entries (one wrapping a
complete-state bundle, one wrapping a delta-state bundle) and switches between
the two sync modes from the delivery callbacks of the transport.  Every handler
of the Go code takes `manager.lock` for its whole body, so each handler is one
atomic step on the manager state; the lock itself carries no data and is left
out.  Effects on collaborators are recorded: the logger as the list of messages
written, the delta-state bundle as the list of calls it received.
-/

namespace GlobalHub

/-! ## Go machine integers -/

/-- Largest value of a Go `int` on the 64-bit platforms the agent is built for. -/
def maxInt : Int := 2 ^ 63 - 1

/-- Smallest value of a Go `int` (64 bits). -/
def minInt : Int := -(2 ^ 63)

/-- Two's complement wrap-around of a mathematical integer into the Go `int` range. -/
def wrapInt (x : Int) : Int := (x + 2 ^ 63) % 2 ^ 64 - 2 ^ 63

/-! ## Data model -/

/-- Modelled from the spec: `bundle.BundleSyncMode` (package `pkg/bundle`), the
sync-mode tag of a bundle, `complete` or `delta`. -/
inductive BundleSyncMode where
  | CompleteStateMode
  | DeltaStateMode
  deriving DecidableEq, Repr

/-- The two methods of `statusbundle.DeltaStateBundle` the manager calls. -/
inductive DeltaCall where
  | Reset
  | SyncState
  deriving DecidableEq, Repr

/-- Modelled from the spec: a bundle held by a collection entry.  Its dynamic
type either exposes the `Reset` and `SyncState` capability of a delta-state
bundle or it does not. -/
structure Bundle where
  name : String
  exposesReset : Bool
  exposesSyncState : Bool
  deriving DecidableEq, Repr

/-- Handle on a bundle seen through the `DeltaStateBundle` interface together
with the calls made through the handle, oldest first. -/
structure DeltaStateBundle where
  bundle : Bundle
  received : List DeltaCall
  deriving DecidableEq, Repr

/-- The Go type assertion `b.(statusbundle.DeltaStateBundle)`. -/
def Bundle.asDeltaStateBundle (b : Bundle) : Option DeltaStateBundle :=
  if b.exposesReset && b.exposesSyncState then some { bundle := b, received := [] } else none

/-- Call of `Reset()` on the delta-state bundle. -/
def DeltaStateBundle.Reset (b : DeltaStateBundle) : DeltaStateBundle :=
  { b with received := b.received ++ [DeltaCall.Reset] }

/-- Call of `SyncState()` on the delta-state bundle. -/
def DeltaStateBundle.SyncState (b : DeltaStateBundle) : DeltaStateBundle :=
  { b with received := b.received ++ [DeltaCall.SyncState] }

/-- Address of a `BundleCollectionEntry` (the Go code passes `*BundleCollectionEntry`). -/
abbrev EntryPtr := Nat

/-- A Go `func() bool` predicate of a collection entry.  Its result may depend
on the sync mode that is active in the hybrid sync manager when it is called
and on the rest of the program state, of type `W`. -/
abbrev Predicate (W : Type) := BundleSyncMode → W → Bool

/-- Modelled from the spec: `BundleCollectionEntry`, of which the manager uses
the transport key, the wrapped bundle and the gating predicate. -/
structure BundleCollectionEntry (W : Type) where
  transportBundleKey : String
  bundle : Bundle
  predicate : Predicate W

/-- The entries of the program, by address. -/
abbrev Heap (W : Type) := EntryPtr → BundleCollectionEntry W

/-- Go error value created by `errors.New`. -/
structure GoError where
  msg : String
  deriving DecidableEq, Repr

/-- Error of `NewHybridSyncManager` when the delta entry wraps no delta-state bundle. -/
def errExpectingDeltaStateBundle : GoError :=
  { msg := "expecting a BundleCollectionEntry that wraps a DeltaStateBundle bundle" }

/-- State of a `HybridSyncManager` (the mutex is left out). -/
structure HybridSyncManager where
  log : List String
  activeSyncMode : BundleSyncMode
  bundleCollectionEntryMap : List (BundleSyncMode × EntryPtr)
  deltaStateBundle : DeltaStateBundle
  sentDeltaCountSwitchFactor : Int
  sentDeltaCount : Int
  deriving DecidableEq, Repr

/-- Order in which a Go `range` loop visits a map of two keys: the runtime picks
one of the two orders, `reversed` says which. -/
def rangeMap {α : Type} (reversed : Bool) (m : List α) : List α :=
  if reversed then m.reverse else m

/-! ## State transitions -/

/-- Go method `switchToCompleteStateMode`. -/
def switchToCompleteStateMode (manager : HybridSyncManager) : HybridSyncManager :=
  let manager := { manager with log := manager.log ++ ["switched to complete-state mode"] }
  { manager with activeSyncMode := BundleSyncMode.CompleteStateMode }

/-- Go method `switchToDeltaStateMode`. -/
def switchToDeltaStateMode (manager : HybridSyncManager) : HybridSyncManager :=
  let manager := { manager with log := manager.log ++ ["switched to delta-state mode"] }
  let manager := { manager with activeSyncMode := BundleSyncMode.DeltaStateMode }
  let manager := { manager with sentDeltaCount := 0 }
  let manager := { manager with deltaStateBundle := manager.deltaStateBundle.Reset }
  { manager with deltaStateBundle := manager.deltaStateBundle.SyncState }

/-- Go method `handleTransportationAttempt`. -/
def handleTransportationAttempt (manager : HybridSyncManager) : HybridSyncManager :=
  if manager.activeSyncMode = BundleSyncMode.CompleteStateMode then
    switchToDeltaStateMode manager
  else
    -- else we are in delta
    let manager := { manager with sentDeltaCount := wrapInt (manager.sentDeltaCount + 1) }
    if manager.sentDeltaCount = manager.sentDeltaCountSwitchFactor then
      switchToCompleteStateMode manager
    else
      -- reset delta bundle objects
      { manager with deltaStateBundle := manager.deltaStateBundle.Reset }

/-- Go method `handleTransportationSuccess`. -/
def handleTransportationSuccess (manager : HybridSyncManager) : HybridSyncManager :=
  if manager.activeSyncMode = BundleSyncMode.DeltaStateMode then
    manager
  else
    switchToDeltaStateMode manager

/-- Go method `handleTransportationFailure`. -/
def handleTransportationFailure (manager : HybridSyncManager) : HybridSyncManager :=
  if manager.activeSyncMode = BundleSyncMode.CompleteStateMode then
    manager
  else
    let manager := { manager with log := manager.log ++ ["transportation failure callback invoked"] }
    switchToCompleteStateMode manager

/-! ## Construction and registration -/

/-- Go method `appendPredicates`: every entry of the map gets its predicate
replaced by a closure that reads the active sync mode of the manager when it
is called and then calls the predicate the entry had before. -/
def appendPredicates {W : Type} (reversed : Bool) (manager : HybridSyncManager)
    (heap : Heap W) : Heap W :=
  (rangeMap reversed manager.bundleCollectionEntryMap).foldl
    (fun heap kv =>
      let entry := kv.2
      let mode := kv.1
      let originalPredicate := (heap entry).predicate
      Function.update heap entry
        { heap entry with
          predicate := fun activeSyncMode w =>
            decide (activeSyncMode = mode) && originalPredicate activeSyncMode w })
    heap

/-- Go function `NewHybridSyncManager`.  The result is the Go pair
(manager or nil, error or nil) together with the entries after the call. -/
def NewHybridSyncManager {W : Type} (reversed : Bool) (log : List String)
    (completeStateBundleCollectionEntry deltaStateBundleCollectionEntry : EntryPtr)
    (heap : Heap W) : (Option HybridSyncManager × Option GoError) × Heap W :=
  -- check that the delta state collection does indeed wrap a delta bundle
  match (heap deltaStateBundleCollectionEntry).bundle.asDeltaStateBundle with
  | none => ((none, some errExpectingDeltaStateBundle), heap)
  | some deltaStateBundle =>
    let hybridSyncManager : HybridSyncManager :=
      { log := log
        activeSyncMode := BundleSyncMode.CompleteStateMode
        bundleCollectionEntryMap :=
          [(BundleSyncMode.CompleteStateMode, completeStateBundleCollectionEntry),
           (BundleSyncMode.DeltaStateMode, deltaStateBundleCollectionEntry)]
        deltaStateBundle := deltaStateBundle
        sentDeltaCountSwitchFactor := 0
        sentDeltaCount := 0 }
    ((some hybridSyncManager, none), appendPredicates reversed hybridSyncManager heap)

/-- Go method `GetBundleCollectionEntry`: the map lookup, `none` for Go's nil. -/
def GetBundleCollectionEntry (manager : HybridSyncManager) (syncMode : BundleSyncMode) :
    Option EntryPtr :=
  manager.bundleCollectionEntryMap.lookup syncMode

/-- The three delivery events of `producer.EventType`. -/
inductive EventType where
  | DeliveryAttempt
  | DeliverySuccess
  | DeliveryFailure
  deriving DecidableEq, Repr

/-- A `producer.EventCallback` (a Go `func()`) bound to the manager, by its
effect on the manager state. -/
abbrev EventCallback := HybridSyncManager → HybridSyncManager

/-- Modelled from the spec: the transport `producer.Producer`.  It advertises
whether it supports delta bundles and keeps the subscriptions made through
`Subscribe`, oldest first: a transport key with its callbacks by event type. -/
structure Producer where
  supportsDeltaBundles : Bool
  subscriptions : List (String × List (EventType × EventCallback))

/-- Transport method `SupportsDeltaBundles`. -/
def Producer.SupportsDeltaBundles (transportObj : Producer) : Bool :=
  transportObj.supportsDeltaBundles

/-- Transport method `Subscribe`. -/
def Producer.Subscribe (transportObj : Producer) (key : String)
    (callbacks : List (EventType × EventCallback)) : Producer :=
  { transportObj with subscriptions := transportObj.subscriptions ++ [(key, callbacks)] }

/-- Modelled from the spec: delivery of one transport event.  The transport
invokes the callback subscribed for the key and the event type (the latest
subscription of the key), and nothing when there is none. -/
def Producer.invokeCallback (transportObj : Producer) (eventType : EventType) (key : String)
    (manager : HybridSyncManager) : HybridSyncManager :=
  match transportObj.subscriptions.reverse.lookup key with
  | none => manager
  | some callbacks =>
    match callbacks.lookup eventType with
    | none => manager
    | some callback => callback manager

/-- Delivery of a sequence of transport events, first event first. -/
def Producer.invokeCallbacks (transportObj : Producer) (events : List (EventType × String))
    (manager : HybridSyncManager) : HybridSyncManager :=
  events.foldl (fun manager e => transportObj.invokeCallback e.1 e.2 manager) manager

/-- Go method `SetHybridModeCallBack`; the result is the manager and the
transport after the call. -/
def SetHybridModeCallBack {W : Type} (reversed : Bool) (manager : HybridSyncManager)
    (deltaCountSwitchFactor : Int) (transportObj : Producer) (heap : Heap W) :
    HybridSyncManager × Producer :=
  let manager := { manager with sentDeltaCountSwitchFactor := deltaCountSwitchFactor }
  -- hybrid mode may be disabled in some different scenarios.
  if decide (manager.sentDeltaCountSwitchFactor ≤ 0) || !transportObj.SupportsDeltaBundles then
    (manager, transportObj)
  else
    (manager,
      (rangeMap reversed manager.bundleCollectionEntryMap).foldl
        (fun transportObj kv =>
          transportObj.Subscribe (heap kv.2).transportBundleKey
            [(EventType.DeliveryAttempt, handleTransportationAttempt),
             (EventType.DeliverySuccess, handleTransportationSuccess),
             (EventType.DeliveryFailure, handleTransportationFailure)])
        transportObj)

/-! ## Callback sequences -/

/-- Handler the manager subscribes for an event type. -/
def handlerOf : EventType → EventCallback
  | EventType.DeliveryAttempt => handleTransportationAttempt
  | EventType.DeliverySuccess => handleTransportationSuccess
  | EventType.DeliveryFailure => handleTransportationFailure

/-- The manager after a sequence of callbacks, first callback first. -/
def runCallbacks (events : List EventType) (manager : HybridSyncManager) : HybridSyncManager :=
  events.foldl (fun manager e => handlerOf e manager) manager

/-- The manager after `n` consecutive delivery-attempt callbacks. -/
def attempts (n : Nat) (manager : HybridSyncManager) : HybridSyncManager :=
  runCallbacks (List.replicate n EventType.DeliveryAttempt) manager

/-! ## A concrete program state, for evaluation -/

/-- Complete-state bundle of the sample program. -/
def sampleCompleteBundle : Bundle :=
  { name := "CompleteComplianceStatus", exposesReset := false, exposesSyncState := false }

/-- Delta-state bundle of the sample program. -/
def sampleDeltaBundle : Bundle :=
  { name := "DeltaComplianceStatus", exposesReset := true, exposesSyncState := true }

/-- Sample entries: address 0 holds the complete entry, whose own predicate is
the flag `w.1`; every other address holds the delta entry, with flag `w.2`. -/
def sampleHeap : Heap (Bool × Bool) := fun p =>
  if p = 0 then
    { transportBundleKey := "hub1.CompleteComplianceStatus", bundle := sampleCompleteBundle,
      predicate := fun _ w => w.1 }
  else
    { transportBundleKey := "hub1.DeltaComplianceStatus", bundle := sampleDeltaBundle,
      predicate := fun _ w => w.2 }

/-- Sample transport that supports delta bundles and has no subscription yet. -/
def sampleProducer : Producer := { supportsDeltaBundles := true, subscriptions := [] }

/-- The manager state `NewHybridSyncManager` builds for the entries at the
addresses `c` and `d` when the delta entry wraps `deltaStateBundle`. -/
def newManager (log : List String) (c d : EntryPtr) (deltaStateBundle : DeltaStateBundle) :
    HybridSyncManager :=
  { log := log
    activeSyncMode := BundleSyncMode.CompleteStateMode
    bundleCollectionEntryMap :=
      [(BundleSyncMode.CompleteStateMode, c), (BundleSyncMode.DeltaStateMode, d)]
    deltaStateBundle := deltaStateBundle
    sentDeltaCountSwitchFactor := 0
    sentDeltaCount := 0 }

/-- A manager in complete-state mode: the sample manager right after construction. -/
def sampleManager : HybridSyncManager :=
  newManager [] 0 1 { bundle := sampleDeltaBundle, received := [] }

/-- A manager in delta-state mode with switch factor 3 that has sent one delta. -/
def sampleDeltaManager : HybridSyncManager :=
  { sampleManager with
    activeSyncMode := BundleSyncMode.DeltaStateMode
    sentDeltaCountSwitchFactor := 3
    sentDeltaCount := 1 }

/-- The sample manager as the program builds it: constructed over the sample
entries and then given switch factor 3 on the sample transport. -/
def sampleHybridManager : HybridSyncManager :=
  match NewHybridSyncManager false [] 0 1 sampleHeap with
  | ((some manager, _), heap) => (SetHybridModeCallBack false manager 3 sampleProducer heap).1
  | ((none, _), _) => sampleManager

/-! ## Conflation priorities

Embedding of `pkg/conflator/conflation_priority.go`.  `ConflationPriority` is a
Go `uint8`; every constant of the block is declared `= iota`, so its value is
the index of its line in the block, counted from 0. -/

/-- Go type `ConflationPriority` (`uint8`). -/
abbrev ConflationPriority := Nat

/-- Constant 0 of the priority block. -/
def ManagedClustersPriority : ConflationPriority := 0

/-- Constant 1 of the priority block. -/
def ClustersPerPolicyPriority : ConflationPriority := 1

/-- Constant 2 of the priority block. -/
def CompleteComplianceStatusPriority : ConflationPriority := 2

/-- Constant 3 of the priority block. -/
def DeltaComplianceStatusPriority : ConflationPriority := 3

/-- Constant 4 of the priority block. -/
def MinimalComplianceStatusPriority : ConflationPriority := 4

/-- Constant 5 of the priority block. -/
def HubClusterInfoStatusPriority : ConflationPriority := 5

/-- Constant 6 of the priority block. -/
def ControlInfoPriority : ConflationPriority := 6

/-- Constant 7 of the priority block. -/
def LocalPolicySpecPriority : ConflationPriority := 7

/-- Constant 8 of the priority block. -/
def LocalClustersPerPolicyPriority : ConflationPriority := 8

/-- Constant 9 of the priority block. -/
def LocalCompleteComplianceStatusPriority : ConflationPriority := 9

/-- Constant 10 of the priority block. -/
def LocalPolicyStatusEventPriority : ConflationPriority := 10

/-- Constant 11 of the priority block, the first one under the source comment
`enable global resource`. -/
def PlacementRulePriority : ConflationPriority := 11

/-- Constant 12 of the priority block. -/
def PlacementPriority : ConflationPriority := 12

/-- Constant 13 of the priority block. -/
def PlacementDecisionPriority : ConflationPriority := 13

/-- Constant 14 of the priority block. -/
def SubscriptionStatusPriority : ConflationPriority := 14

/-- Constant 15 of the priority block. -/
def SubscriptionReportPriority : ConflationPriority := 15

/-- Constant 16 of the priority block, the last one under `enable global resource`. -/
def LocalPlacementRulesSpecPriority : ConflationPriority := 16

/-- The seventeen constants in the order in which the priority order lists them. -/
def conflationPriorities : List ConflationPriority :=
  [ManagedClustersPriority, ClustersPerPolicyPriority, CompleteComplianceStatusPriority,
   DeltaComplianceStatusPriority, MinimalComplianceStatusPriority, HubClusterInfoStatusPriority,
   ControlInfoPriority, LocalPolicySpecPriority, LocalClustersPerPolicyPriority,
   LocalCompleteComplianceStatusPriority, LocalPolicyStatusEventPriority, PlacementRulePriority,
   PlacementPriority, PlacementDecisionPriority, SubscriptionStatusPriority,
   SubscriptionReportPriority, LocalPlacementRulesSpecPriority]

/-- Priorities of the bundle types whose name starts with `Local`. -/
def localPriorities : List ConflationPriority :=
  [LocalPolicySpecPriority, LocalClustersPerPolicyPriority, LocalCompleteComplianceStatusPriority,
   LocalPolicyStatusEventPriority, LocalPlacementRulesSpecPriority]

/-- Priorities of the `Local` bundle types declared before the `enable global
resource` part of the block. -/
def baseLocalPriorities : List ConflationPriority :=
  [LocalPolicySpecPriority, LocalClustersPerPolicyPriority, LocalCompleteComplianceStatusPriority,
   LocalPolicyStatusEventPriority]

/-- Priorities of the global-only extension types: placements and subscriptions. -/
def globalOnlyPriorities : List ConflationPriority :=
  [PlacementRulePriority, PlacementPriority, PlacementDecisionPriority,
   SubscriptionStatusPriority, SubscriptionReportPriority]

/-! ## The counter invariant of the hybrid sync manager -/

/-- The invariant of the delta counter for switch factor `k`: the manager holds
switch factor `k`, `sentDeltaCount` lies between 0 and `k`, and it is below `k`
while the mode is delta. -/
def CounterInv (k : Int) (manager : HybridSyncManager) : Prop :=
  manager.sentDeltaCountSwitchFactor = k ∧
  0 ≤ manager.sentDeltaCount ∧
  manager.sentDeltaCount ≤ k ∧
  (manager.activeSyncMode = BundleSyncMode.DeltaStateMode → manager.sentDeltaCount < k)

/-! ## Status syncers of the manager

Embedding of `manager/pkg/statussyncer/syncers.go`.  The collaborators built
here (statistics, conflation manager, DB worker pool, consumers, dispatchers,
DB syncers) live in other packages; they are records of what the code passes
to their constructors and setters.  Whether a constructor or `mgr.Add` fails
is decided outside this file, so the outcome of every fallible call is read
from an environment. -/

/-- Go `error` values of the initialisation code: an error reported by a
collaborator, or `fmt.Errorf` with a format ending in `%w` around another
error. -/
inductive InitError where
  | reported (e : GoError)
  | Errorf (format : String) (err : InitError)
  deriving DecidableEq, Repr

/-- The error itself followed by the errors reached through repeated `Unwrap`. -/
def InitError.chain : InitError → List InitError
  | InitError.reported e => [InitError.reported e]
  | InitError.Errorf format err => InitError.Errorf format err :: err.chain

/-- The error `outer` is `cause` or wraps it (what `errors.Is` follows). -/
def InitError.wraps (outer cause : InitError) : Prop := cause ∈ outer.chain

/-- The part of `config.ManagerConfig.TransportConfig` the code reads. -/
structure TransportConfig where
  TransportFormat : String
  CommitterInterval : Nat
  ConsumerTopic : String
  deriving DecidableEq, Repr

/-- The part of `config.ManagerConfig` the code reads. -/
structure ManagerConfig where
  EnableGlobalResource : Bool
  TransportConfig : TransportConfig
  deriving DecidableEq, Repr

/-- The statistics object, built over a list of bundle type names. -/
structure Statistics where
  bundleTypes : List String
  deriving DecidableEq, Repr

/-- The conflation ready queue, built over the statistics. -/
structure ConflationReadyQueue where
  stats : Statistics
  deriving DecidableEq, Repr

/-- The conflation manager, built over the ready queue and the statistics. -/
structure ConflationManager where
  readyQueue : ConflationReadyQueue
  stats : Statistics
  deriving DecidableEq, Repr

/-- The committer of the Kafka consumer: interval, topic, and the conflation
manager whose `GetBundlesMetadata` method it is given. -/
structure Committer where
  committerInterval : Nat
  topic : String
  getBundlesMetadata : ConflationManager
  deriving DecidableEq, Repr

/-- The Kafka consumer with what its setters attached so far. -/
structure KafkaConsumer where
  conflationManager : Option ConflationManager
  committer : Option Committer
  statistics : Option Statistics
  deriving DecidableEq, Repr

/-- The generic consumer, built from the transport configuration. -/
structure GenericConsumer where
  transportConfig : TransportConfig
  deriving DecidableEq, Repr

/-- The transport dispatcher that forwards the messages of a generic consumer
to a conflation manager. -/
structure TransportDispatcher where
  consumer : GenericConsumer
  conflationManager : ConflationManager
  stats : Statistics
  deriving DecidableEq, Repr

/-- A `dbsyncer.BundleRegisterable`: the two implementations the code returns. -/
inductive BundleRegisterable where
  | kafkaConsumer (k : KafkaConsumer)
  | transportDispatcher (t : TransportDispatcher)
  deriving DecidableEq, Repr

/-- What the code hands to `mgr.Add`. -/
inductive Runnable where
  | statistics (stats : Statistics)
  | dbWorkerPool
  | kafkaConsumer (k : KafkaConsumer)
  | genericConsumer (c : GenericConsumer)
  | transportDispatcher (t : TransportDispatcher)
  | conflationDispatcher (logName : String) (queue : ConflationReadyQueue)
  deriving DecidableEq, Repr

/-- The runtime manager `ctrl.Manager`: the runnables added so far, oldest first. -/
structure Manager where
  runnables : List Runnable
  deriving DecidableEq, Repr

/-- Outcome of every fallible call of the initialisation: the error, if any,
that `mgr.Add` returns for a runnable and that each constructor returns. -/
structure InitEnv where
  addError : Runnable → Option GoError
  newDBWorkerPoolError : Option GoError
  newKafkaConsumerError : Option GoError
  newGenericConsumerError : Option GoError

/-- Call of `mgr.Add`: the error it returns and the manager after the call. -/
def Manager.Add (env : InitEnv) (mgr : Manager) (r : Runnable) : Option GoError × Manager :=
  match env.addError r with
  | some err => (some err, mgr)
  | none => (none, { mgr with runnables := mgr.runnables ++ [r] })

/-- The twelve DB syncers, each named by its constructor and holding the name
of its logger. -/
inductive DBSyncer where
  | NewHubClusterHeartbeatDBSyncer (logName : String)
  | NewHubClusterInfoDBSyncer (logName : String)
  | NewManagedClustersDBSyncer (logName : String)
  | NewCompliancesDBSyncer (logName : String)
  | NewLocalPolicySpecSyncer (logName : String)
  | NewLocalPolicyEventSyncer (logName : String)
  | NewPlacementRulesDBSyncer (logName : String)
  | NewPlacementsDBSyncer (logName : String)
  | NewPlacementDecisionsDBSyncer (logName : String)
  | NewSubscriptionStatusesDBSyncer (logName : String)
  | NewSubscriptionReportsDBSyncer (logName : String)
  | NewLocalSpecPlacementruleSyncer (logName : String)
  deriving DecidableEq, Repr

/-- The two registration calls made on a DB syncer. -/
inductive Registration where
  | RegisterCreateBundleFunctions (syncer : DBSyncer) (transportDispatcher : BundleRegisterable)
  | RegisterBundleHandlerFunctions (syncer : DBSyncer) (conflationManager : ConflationManager)
  deriving DecidableEq, Repr

/-- Result of `AddStatusSyncers`: what the function returns (the registerable,
or the error with a nil registerable), the manager after the call and the
registration calls made, oldest first. -/
structure SyncersResult where
  result : Except InitError BundleRegisterable
  mgr : Manager
  registrations : List Registration

/-- The bundle type names `addStatisticController` collects. -/
def statisticsBundleTypes (managerConfig : ManagerConfig) : List String :=
  let bundleTypes :=
    ["HubClusterInfoBundle", "HubClusterHeartbeatBundle", "ManagedClustersStatusBundle",
     "LocalPolicySpecBundle", "ClusterPolicyEventBundle", "LocalClustersPerPolicyBundle",
     "LocalCompleteComplianceStatusBundle"]
  if managerConfig.EnableGlobalResource then
    bundleTypes ++
      ["LocalPlacementRulesBundle", "PlacementsBundle", "PlacementDecisionsBundle",
       "ClustersPerPolicyBundle", "CompleteComplianceStatusBundle"]
  else
    bundleTypes

/-- Go function `addStatisticController`; the result is what the function
returns and the manager after the call. -/
def addStatisticController (env : InitEnv) (mgr : Manager) (managerConfig : ManagerConfig) :
    Except InitError Statistics × Manager :=
  -- create statistics
  let stats : Statistics := { bundleTypes := statisticsBundleTypes managerConfig }
  match mgr.Add env (Runnable.statistics stats) with
  | (some err, mgr) =>
    (Except.error (InitError.Errorf "failed to add statistics to manager - %w"
      (InitError.reported err)), mgr)
  | (none, mgr) => (Except.ok stats, mgr)

/-- Go function `getTransportDispatcher`; the result is what the function
returns and the manager after the call.  `KafkaMessageFormat` is the string of
the constant `transport.KafkaMessageFormat`, declared in another package. -/
def getTransportDispatcher (KafkaMessageFormat : String) (env : InitEnv) (mgr : Manager)
    (conflationManager : ConflationManager) (managerConfig : ManagerConfig)
    (stats : Statistics) : Except InitError BundleRegisterable × Manager :=
  if managerConfig.TransportConfig.TransportFormat = KafkaMessageFormat then
    match env.newKafkaConsumerError with
    | some err =>
      (Except.error (InitError.Errorf "failed to create kafka-consumer: %w"
        (InitError.reported err)), mgr)
    | none =>
      let kafkaConsumer : KafkaConsumer :=
        { conflationManager := none, committer := none, statistics := none }
      let kafkaConsumer := { kafkaConsumer with conflationManager := some conflationManager }
      let kafkaConsumer := { kafkaConsumer with
        committer := some
          { committerInterval := managerConfig.TransportConfig.CommitterInterval
            topic := managerConfig.TransportConfig.ConsumerTopic
            getBundlesMetadata := conflationManager } }
      let kafkaConsumer := { kafkaConsumer with statistics := some stats }
      match mgr.Add env (Runnable.kafkaConsumer kafkaConsumer) with
      | (some err, mgr) =>
        (Except.error (InitError.Errorf "failed to add status transport bridge: %w"
          (InitError.reported err)), mgr)
      | (none, mgr) => (Except.ok (BundleRegisterable.kafkaConsumer kafkaConsumer), mgr)
  else
    match env.newGenericConsumerError with
    | some err =>
      (Except.error (InitError.Errorf "failed to initialize transport consumer: %w"
        (InitError.reported err)), mgr)
    | none =>
      let consumer : GenericConsumer := { transportConfig := managerConfig.TransportConfig }
      match mgr.Add env (Runnable.genericConsumer consumer) with
      | (some err, mgr) =>
        (Except.error (InitError.Errorf "failed to add transport consumer to manager: %w"
          (InitError.reported err)), mgr)
      | (none, mgr) =>
        -- consume message from consumer and dispatcher it to conflation manager
        let transportDispatcher : TransportDispatcher :=
          { consumer := consumer, conflationManager := conflationManager, stats := stats }
        match mgr.Add env (Runnable.transportDispatcher transportDispatcher) with
        | (some err, mgr) =>
          (Except.error (InitError.Errorf
            "failed to add transport dispatcher to runtime manager: %w"
            (InitError.reported err)), mgr)
        | (none, mgr) =>
          (Except.ok (BundleRegisterable.transportDispatcher transportDispatcher), mgr)

/-- The six DB syncers `AddStatusSyncers` always builds. -/
def baseDBSyncers : List DBSyncer :=
  [DBSyncer.NewHubClusterHeartbeatDBSyncer "hub-heartbeat-syncer",
   DBSyncer.NewHubClusterInfoDBSyncer "hub-info-syncer",
   DBSyncer.NewManagedClustersDBSyncer "managed-cluster-syncer",
   DBSyncer.NewCompliancesDBSyncer "compliances-syncer",
   DBSyncer.NewLocalPolicySpecSyncer "local-policy-spec-syncer",
   DBSyncer.NewLocalPolicyEventSyncer "local-policy-event-syncer"]

/-- The six DB syncers `AddStatusSyncers` appends when global resources are enabled. -/
def globalResourceDBSyncers : List DBSyncer :=
  [DBSyncer.NewPlacementRulesDBSyncer "placement-rules-db-syncer",
   DBSyncer.NewPlacementsDBSyncer "placements-db-syncer",
   DBSyncer.NewPlacementDecisionsDBSyncer "placement-decisions-db-syncer",
   DBSyncer.NewSubscriptionStatusesDBSyncer "subscription-statuses-db-syncer",
   DBSyncer.NewSubscriptionReportsDBSyncer "subscription-reports-db-syncer",
   DBSyncer.NewLocalSpecPlacementruleSyncer "local-spec-placementrule-syncer"]

/-- Go function `AddStatusSyncers`. -/
def AddStatusSyncers (KafkaMessageFormat : String) (env : InitEnv) (mgr : Manager)
    (managerConfig : ManagerConfig) : SyncersResult :=
  -- register statistics within the runtime manager
  match addStatisticController env mgr managerConfig with
  | (Except.error err, mgr) =>
    { result := Except.error
        (InitError.Errorf "failed to add statistics to manager - %w" err)
      mgr := mgr, registrations := [] }
  | (Except.ok stats, mgr) =>
    -- conflationReadyQueue is shared between conflation manager and dispatcher
    let conflationReadyQueue : ConflationReadyQueue := { stats := stats }
    -- manage all Conflation Units
    let conflationManager : ConflationManager :=
      { readyQueue := conflationReadyQueue, stats := stats }
    -- database layer initialization - worker pool + connection pool
    match env.newDBWorkerPoolError with
    | some err =>
      { result := Except.error
          (InitError.Errorf "failed to initialize DBWorkerPool: %w" (InitError.reported err))
        mgr := mgr, registrations := [] }
    | none =>
      match mgr.Add env Runnable.dbWorkerPool with
      | (some err, mgr) =>
        { result := Except.error
            (InitError.Errorf "failed to add DB worker pool: %w" (InitError.reported err))
          mgr := mgr, registrations := [] }
      | (none, mgr) =>
        match getTransportDispatcher KafkaMessageFormat env mgr conflationManager
            managerConfig stats with
        | (Except.error err, mgr) =>
          { result := Except.error
              (InitError.Errorf "failed to get transport dispatcher: %w" err)
            mgr := mgr, registrations := [] }
        | (Except.ok transportDispatcher, mgr) =>
          -- add ConflationDispatcher to the runtime manager
          match mgr.Add env
              (Runnable.conflationDispatcher "conflation-dispatcher" conflationReadyQueue) with
          | (some err, mgr) =>
            { result := Except.error
                (InitError.Errorf "failed to add conflation dispatcher to runtime manager: %w"
                  (InitError.reported err))
              mgr := mgr, registrations := [] }
          | (none, mgr) =>
            -- register db syncers create bundle functions within transport and handler
            -- functions within dispatcher
            let dbSyncers := baseDBSyncers
            let dbSyncers :=
              if managerConfig.EnableGlobalResource then
                dbSyncers ++ globalResourceDBSyncers
              else dbSyncers
            { result := Except.ok transportDispatcher
              mgr := mgr
              registrations := dbSyncers.flatMap fun dbsyncerObj =>
                [Registration.RegisterCreateBundleFunctions dbsyncerObj transportDispatcher,
                 Registration.RegisterBundleHandlerFunctions dbsyncerObj conflationManager] }

/-! ### A concrete configuration, for evaluation -/

/-- An environment in which every constructor and every `mgr.Add` succeeds. -/
def okEnv : InitEnv :=
  { addError := fun _ => none
    newDBWorkerPoolError := none
    newKafkaConsumerError := none
    newGenericConsumerError := none }

/-- An environment in which only the construction of the Kafka consumer fails. -/
def kafkaDownEnv : InitEnv :=
  { okEnv with newKafkaConsumerError := some { msg := "kafka: client has run out of brokers" } }

/-- A runtime manager without runnables. -/
def emptyManager : Manager := { runnables := [] }

/-- A configuration that selects the Kafka consumer, global resources disabled. -/
def kafkaConfig : ManagerConfig :=
  { EnableGlobalResource := false
    TransportConfig :=
      { TransportFormat := "kafkaMessage", CommitterInterval := 40, ConsumerTopic := "status" } }

/-- A configuration that selects the generic consumer, global resources enabled. -/
def cloudeventsConfig : ManagerConfig :=
  { EnableGlobalResource := true
    TransportConfig :=
      { TransportFormat := "cloudEvents", CommitterInterval := 40, ConsumerTopic := "status" } }

/-- The statistics object `addStatisticController` builds for a configuration. -/
def statisticsOf (managerConfig : ManagerConfig) : Statistics :=
  { bundleTypes := statisticsBundleTypes managerConfig }

/-- The conflation manager `AddStatusSyncers` builds for a configuration. -/
def conflationManagerOf (managerConfig : ManagerConfig) : ConflationManager :=
  { readyQueue := { stats := statisticsOf managerConfig }, stats := statisticsOf managerConfig }

/-- The Kafka consumer once the three setters of `getTransportDispatcher` ran:
conflation manager, committer over the conflation manager's
`GetBundlesMetadata`, and statistics attached. -/
def attachedKafkaConsumer (conflationManager : ConflationManager)
    (managerConfig : ManagerConfig) (stats : Statistics) : KafkaConsumer :=
  { conflationManager := some conflationManager
    committer := some
      { committerInterval := managerConfig.TransportConfig.CommitterInterval
        topic := managerConfig.TransportConfig.ConsumerTopic
        getBundlesMetadata := conflationManager }
    statistics := some stats }

/-- The transport dispatcher `getTransportDispatcher` builds over the generic consumer. -/
def forwardingDispatcher (conflationManager : ConflationManager)
    (managerConfig : ManagerConfig) (stats : Statistics) : TransportDispatcher :=
  { consumer := { transportConfig := managerConfig.TransportConfig }
    conflationManager := conflationManager
    stats := stats }

/-- The DB syncer a registration call is made on. -/
def Registration.syncer : Registration → DBSyncer
  | Registration.RegisterCreateBundleFunctions syncer _ => syncer
  | Registration.RegisterBundleHandlerFunctions syncer _ => syncer

/-- The registration calls for a list of DB syncers: for each syncer in turn,
its create-bundle functions with the transport dispatcher, then its handler
functions with the conflation manager. -/
def registrationsOf (dbSyncers : List DBSyncer) (transportDispatcher : BundleRegisterable)
    (conflationManager : ConflationManager) : List Registration :=
  dbSyncers.flatMap fun dbsyncerObj =>
    [Registration.RegisterCreateBundleFunctions dbsyncerObj transportDispatcher,
     Registration.RegisterBundleHandlerFunctions dbsyncerObj conflationManager]

/-- The registerable `getTransportDispatcher` returns for a configuration when
no step fails: the Kafka consumer for the Kafka format, the transport
dispatcher otherwise. -/
def registerableOf (KafkaMessageFormat : String) (managerConfig : ManagerConfig) :
    BundleRegisterable :=
  if managerConfig.TransportConfig.TransportFormat = KafkaMessageFormat then
    BundleRegisterable.kafkaConsumer
      (attachedKafkaConsumer (conflationManagerOf managerConfig) managerConfig
        (statisticsOf managerConfig))
  else
    BundleRegisterable.transportDispatcher
      (forwardingDispatcher (conflationManagerOf managerConfig) managerConfig
        (statisticsOf managerConfig))

/-- The runtime manager once `AddStatusSyncers` added the statistics and the DB
worker pool to it. -/
def managerWithPool (mgr : Manager) (managerConfig : ManagerConfig) : Manager :=
  { runnables := (mgr.runnables ++ [Runnable.statistics (statisticsOf managerConfig)]) ++
      [Runnable.dbWorkerPool] }

/-! ## The resource deployer of the operator

Embedding of `operator/pkg/deployer/hoh_deployer.go`.  An unstructured object
is a tree of values; the cluster client, `apiequality.Semantic.DeepDerivative`
and the JSON decoding into the typed API structs belong to libraries and are
parameters.  The calls made on the client are recorded. -/

/-- A value held by an `interface{}` of an unstructured object (or a field of
a typed API object rendered the same way): nil, a boolean, a number, a string,
a slice, or a map with string keys. -/
inductive Value where
  | null : Value
  | bool (b : Bool) : Value
  | number (n : Int) : Value
  | string (s : String) : Value
  | slice (items : List Value) : Value
  | object (fields : List (String × Value)) : Value
  deriving Repr

/-- Go map index `m[key]` on a value: the entry when the value is a map that
has the key, nil otherwise. -/
def Value.get (v : Value) (key : String) : Value :=
  match v with
  | Value.object fields => (fields.lookup key).getD Value.null
  | _ => Value.null

/-- The field reached from a value by a path of keys. -/
def Value.getPath (v : Value) : List String → Value
  | [] => v
  | key :: rest => (v.get key).getPath rest

/-- Go map assignment `m[key] = v` on the entries of a map. -/
def setField (key : String) (v : Value) : List (String × Value) → List (String × Value)
  | [] => [(key, v)]
  | (k, x) :: rest => if k = key then (key, v) :: rest else (k, x) :: setField key v rest

/-- Assignment of the field reached by a path of keys; maps missing on the way
are created. -/
def Value.setPath : List String → Value → Value → Value
  | [], _, new => new
  | key :: rest, Value.object fields, new =>
    Value.object (setField key
      (Value.setPath rest ((fields.lookup key).getD (Value.object [])) new) fields)
  | key :: rest, _, new => Value.object [(key, Value.setPath rest (Value.object []) new)]

/-- An `unstructured.Unstructured`: its `Object` map. -/
structure Unstructured where
  Object : List (String × Value)
  deriving Repr

/-- The string under a path of the object, the empty string when the path
holds no string (`unstructured.NestedString`). -/
def Unstructured.nestedString (u : Unstructured) (path : List String) : String :=
  match (Value.object u.Object).getPath path with
  | Value.string s => s
  | _ => ""

/-- Accessor `GetKind`. -/
def Unstructured.GetKind (u : Unstructured) : String := u.nestedString ["kind"]

/-- Accessor `GetAPIVersion`. -/
def Unstructured.GetAPIVersion (u : Unstructured) : String := u.nestedString ["apiVersion"]

/-- Accessor `GetName`. -/
def Unstructured.GetName (u : Unstructured) : String := u.nestedString ["metadata", "name"]

/-- Accessor `GetNamespace`. -/
def Unstructured.GetNamespace (u : Unstructured) : String :=
  u.nestedString ["metadata", "namespace"]

/-- Accessor `GetResourceVersion`. -/
def Unstructured.GetResourceVersion (u : Unstructured) : String :=
  u.nestedString ["metadata", "resourceVersion"]

/-- The group-version-kind of an object, as the pair of its `apiVersion` and `kind`. -/
def Unstructured.GroupVersionKind (u : Unstructured) : String × String :=
  (u.GetAPIVersion, u.GetKind)

/-- Setter `SetGroupVersionKind`. -/
def Unstructured.SetGroupVersionKind (u : Unstructured) (gvk : String × String) : Unstructured :=
  { Object := setField "kind" (Value.string gvk.2)
      (setField "apiVersion" (Value.string gvk.1) u.Object) }

/-- Setter `SetResourceVersion`. -/
def Unstructured.SetResourceVersion (u : Unstructured) (version : String) : Unstructured :=
  match Value.setPath ["metadata", "resourceVersion"] (Value.object u.Object)
      (Value.string version) with
  | Value.object fields => { Object := fields }
  | _ => u

/-- A Go `error` value as the deployer sees it: its message and the status
reason `errors.ReasonForError` reports for it (the empty string for an error
that is not an API status error). -/
structure DeployError where
  reason : String
  message : String
  deriving DecidableEq, Repr

/-- Library function `errors.IsNotFound`. -/
def IsNotFound (err : DeployError) : Bool := err.reason = "NotFound"

/-- The library functions the deployer calls on objects:
`apiequality.Semantic.DeepDerivative`, and the decoding of an unstructured
object into the typed API struct of a kind (`MarshalJSON` followed by
`json.Unmarshal`), whose result is rendered as a value tree with the JSON
field names. -/
structure Library where
  DeepDerivative : Value → Value → Bool
  decode : String → Unstructured → Except DeployError Value

/-- The cluster client `client.Client`: the answer of the cluster to each call. -/
structure Client where
  Get : String × String → String × String → Except DeployError Unstructured
  Create : Unstructured → Option DeployError
  Update : Value → Option DeployError

/-- A call made on the cluster client. -/
inductive ClientCall where
  | Get (gvk : String × String) (namespacedName : String × String)
  | Create (obj : Unstructured)
  | Update (obj : Value)
  deriving Repr

/-- How a Go function ends: it returns its `error` result (nil or an error),
or it terminates with a runtime panic. -/
inductive Outcome where
  | returned (err : Option DeployError)
  | panicked (message : String)
  deriving DecidableEq, Repr

/-- What a deploy function does: the client calls it makes, oldest first, and
how it ends. -/
structure DeployResult where
  calls : List ClientCall
  outcome : Outcome
  deriving Repr

/-- The statement `return d.client.Update(context.TODO(), obj)`. -/
def Client.returnUpdate (client : Client) (obj : Value) : DeployResult :=
  { calls := [ClientCall.Update obj], outcome := Outcome.returned (client.Update obj) }

/-- Label map of a typed object (`GetLabels`). -/
def GetLabels (typed : Value) : Value := typed.getPath ["metadata", "labels"]

/-- Annotation map of a typed object (`GetAnnotations`). -/
def GetAnnotations (typed : Value) : Value := typed.getPath ["metadata", "annotations"]

/-- The head shared by the ten deploy functions: decode the existing object,
then the desired object, into the typed struct of the kind, returning the
first decoding error; `body` is the rest of the function, given the desired
and the existing typed object. -/
def decodeBoth (lib : Library) (kind : String) (desiredObj existingObj : Unstructured)
    (body : Value → Value → DeployResult) : DeployResult :=
  match lib.decode kind existingObj with
  | Except.error err => { calls := [], outcome := Outcome.returned (some err) }
  | Except.ok existing =>
    match lib.decode kind desiredObj with
    | Except.error err => { calls := [], outcome := Outcome.returned (some err) }
    | Except.ok desired => body desired existing

/-- The statement `return nil`. -/
def returnNil : DeployResult := { calls := [], outcome := Outcome.returned none }

/-- Go method `deployDeployment`. -/
def deployDeployment (lib : Library) (client : Client) (desiredObj existingObj : Unstructured) :
    DeployResult :=
  decodeBoth lib "Deployment" desiredObj existingObj fun desiredDepoly existingDepoly =>
    if !lib.DeepDerivative (desiredDepoly.getPath ["spec"]) (existingDepoly.getPath ["spec"]) ||
        !lib.DeepDerivative (GetLabels desiredDepoly) (GetLabels existingDepoly) ||
        !lib.DeepDerivative (GetAnnotations desiredDepoly) (GetAnnotations existingDepoly) then
      client.returnUpdate desiredDepoly
    else returnNil

/-- Go method `deployStatefulSet`. -/
def deployStatefulSet (lib : Library) (client : Client) (desiredObj existingObj : Unstructured) :
    DeployResult :=
  decodeBoth lib "StatefulSet" desiredObj existingObj fun desiredSTS existingSTS =>
    if !lib.DeepDerivative (desiredSTS.getPath ["spec"]) (existingSTS.getPath ["spec"]) ||
        !lib.DeepDerivative (GetLabels desiredSTS) (GetLabels existingSTS) ||
        !lib.DeepDerivative (GetAnnotations desiredSTS) (GetAnnotations existingSTS) then
      client.returnUpdate desiredSTS
    else returnNil

/-- Go method `deployService`. -/
def deployService (lib : Library) (client : Client) (desiredObj existingObj : Unstructured) :
    DeployResult :=
  decodeBoth lib "Service" desiredObj existingObj fun desiredService existingService =>
    if !lib.DeepDerivative (desiredService.getPath ["spec"])
          (existingService.getPath ["spec"]) ||
        !lib.DeepDerivative (GetLabels desiredService) (GetLabels existingService) ||
        !lib.DeepDerivative (GetAnnotations desiredService)
          (GetAnnotations existingService) then
      let desiredService := Value.setPath ["metadata", "resourceVersion"] desiredService
        (existingService.getPath ["metadata", "resourceVersion"])
      let desiredService := Value.setPath ["spec", "clusterIP"] desiredService
        (existingService.getPath ["spec", "clusterIP"])
      client.returnUpdate desiredService
    else returnNil

/-- Go method `deployServiceAccount`. -/
def deployServiceAccount (lib : Library) (client : Client)
    (desiredObj existingObj : Unstructured) : DeployResult :=
  decodeBoth lib "ServiceAccount" desiredObj existingObj fun desiredSA existingSA =>
    if !lib.DeepDerivative (desiredSA.getPath ["secrets"]) (existingSA.getPath ["secrets"]) ||
        !lib.DeepDerivative (desiredSA.getPath ["imagePullSecrets"])
          (existingSA.getPath ["imagePullSecrets"]) ||
        !lib.DeepDerivative (GetLabels desiredSA) (GetLabels existingSA) ||
        !lib.DeepDerivative (GetAnnotations desiredSA) (GetAnnotations existingSA) then
      client.returnUpdate desiredSA
    else returnNil

/-- Go method `deployConfigMap`. -/
def deployConfigMap (lib : Library) (client : Client) (desiredObj existingObj : Unstructured) :
    DeployResult :=
  decodeBoth lib "ConfigMap" desiredObj existingObj fun desiredConfigMap existingConfigMap =>
    if !lib.DeepDerivative (desiredConfigMap.getPath ["data"])
          (existingConfigMap.getPath ["data"]) ||
        !lib.DeepDerivative (GetLabels desiredConfigMap) (GetLabels existingConfigMap) ||
        !lib.DeepDerivative (GetAnnotations desiredConfigMap)
          (GetAnnotations existingConfigMap) then
      client.returnUpdate desiredConfigMap
    else returnNil

/-- The map `existingStrData` of `deploySecret`: the entries of the `data` of
the existing secret, each byte string converted by `string(value)`; an empty
map when there is no data.  Byte strings and strings are both rendered as
`Value.string`, so the conversion keeps the entries. -/
def existingStrData (existingSecret : Value) : Value :=
  match existingSecret.getPath ["data"] with
  | Value.object fields => Value.object fields
  | _ => Value.object []

/-- Go method `deploySecret`. -/
def deploySecret (lib : Library) (client : Client) (desiredObj existingObj : Unstructured) :
    DeployResult :=
  decodeBoth lib "Secret" desiredObj existingObj fun desiredSecret existingSecret =>
    -- handle secret stringData and data
    if !lib.DeepDerivative (desiredSecret.getPath ["stringData"])
          (existingStrData existingSecret) ||
        !lib.DeepDerivative (desiredSecret.getPath ["data"]) (existingSecret.getPath ["data"]) ||
        !lib.DeepDerivative (GetLabels desiredSecret) (GetLabels existingSecret) ||
        !lib.DeepDerivative (GetAnnotations desiredSecret) (GetAnnotations existingSecret) then
      client.returnUpdate desiredSecret
    else returnNil

/-- Go method `deployRole`. -/
def deployRole (lib : Library) (client : Client) (desiredObj existingObj : Unstructured) :
    DeployResult :=
  decodeBoth lib "Role" desiredObj existingObj fun desiredRole existingRole =>
    if !lib.DeepDerivative (desiredRole.getPath ["rules"]) (existingRole.getPath ["rules"]) ||
        !lib.DeepDerivative (GetLabels desiredRole) (GetLabels existingRole) ||
        !lib.DeepDerivative (GetAnnotations desiredRole) (GetAnnotations existingRole) then
      client.returnUpdate desiredRole
    else returnNil

/-- Go method `deployRoleBinding`. -/
def deployRoleBinding (lib : Library) (client : Client) (desiredObj existingObj : Unstructured) :
    DeployResult :=
  decodeBoth lib "RoleBinding" desiredObj existingObj fun desiredRB existingRB =>
    if !lib.DeepDerivative (desiredRB.getPath ["subjects"]) (existingRB.getPath ["subjects"]) ||
        !lib.DeepDerivative (desiredRB.getPath ["roleRef"]) (existingRB.getPath ["roleRef"]) ||
        !lib.DeepDerivative (GetLabels desiredRB) (GetLabels existingRB) ||
        !lib.DeepDerivative (GetAnnotations desiredRB) (GetAnnotations existingRB) then
      client.returnUpdate desiredRB
    else returnNil

/-- Go method `deployClusterRole`. -/
def deployClusterRole (lib : Library) (client : Client) (desiredObj existingObj : Unstructured) :
    DeployResult :=
  decodeBoth lib "ClusterRole" desiredObj existingObj fun desiredCB existingCB =>
    if !lib.DeepDerivative (desiredCB.getPath ["rules"]) (existingCB.getPath ["rules"]) ||
        !lib.DeepDerivative (desiredCB.getPath ["aggregationRule"])
          (existingCB.getPath ["aggregationRule"]) ||
        !lib.DeepDerivative (GetLabels desiredCB) (GetLabels existingCB) ||
        !lib.DeepDerivative (GetAnnotations desiredCB) (GetAnnotations existingCB) then
      client.returnUpdate desiredCB
    else returnNil

/-- Go method `deployClusterRoleBinding`. -/
def deployClusterRoleBinding (lib : Library) (client : Client)
    (desiredObj existingObj : Unstructured) : DeployResult :=
  decodeBoth lib "ClusterRoleBinding" desiredObj existingObj fun desiredCRB existingCRB =>
    if !lib.DeepDerivative (desiredCRB.getPath ["subjects"])
          (existingCRB.getPath ["subjects"]) ||
        !lib.DeepDerivative (desiredCRB.getPath ["roleRef"]) (existingCRB.getPath ["roleRef"]) ||
        !lib.DeepDerivative (GetLabels desiredCRB) (GetLabels existingCRB) ||
        !lib.DeepDerivative (GetAnnotations desiredCRB) (GetAnnotations existingCRB) then
      client.returnUpdate desiredCRB
    else returnNil

/-- The map `deployFuncs` built by `NewHoHDeployer`: the deploy function
registered for a kind, if any. -/
def deployFuncs (lib : Library) (client : Client) (kind : String) :
    Option (Unstructured → Unstructured → DeployResult) :=
  if kind = "Deployment" then some (deployDeployment lib client)
  else if kind = "StatefulSet" then some (deployStatefulSet lib client)
  else if kind = "Service" then some (deployService lib client)
  else if kind = "ServiceAccount" then some (deployServiceAccount lib client)
  else if kind = "ConfigMap" then some (deployConfigMap lib client)
  else if kind = "Secret" then some (deploySecret lib client)
  else if kind = "Role" then some (deployRole lib client)
  else if kind = "RoleBinding" then some (deployRoleBinding lib client)
  else if kind = "ClusterRole" then some (deployClusterRole lib client)
  else if kind = "ClusterRoleBinding" then some (deployClusterRoleBinding lib client)
  else none

/-- Library function `strings.ToLower`, on the letters A to Z.  Go also lowers
the upper-case letters outside ASCII; none of them is lowered to one of the
letters of "true", so the comparison of the result with "true" is the same. -/
def ToLower (s : String) : String := String.mk (s.data.map Char.toLower)

/-- How the check of the annotation `skip-creation-if-exist` in `Deploy` ends. -/
inductive SkipCheck where
  | skip
  | proceed
  | panicked
  deriving DecidableEq, Repr

/-- The annotation check of `Deploy` (the statements after the lookup of the
object): `skip` when the function returns nil there, `proceed` when it goes on,
`panicked` when the type assertion `.(string)` on the annotation value fails. -/
def skipCreationIfExist (unsObj : Unstructured) : SkipCheck :=
  match (Value.object unsObj.Object).get "metadata" with
  | Value.object metadata =>
    match (Value.object metadata).get "annotations" with
    | Value.object annotations =>
      match (Value.object annotations).get "skip-creation-if-exist" with
      | Value.null => SkipCheck.proceed
      | Value.string s => if ToLower s = "true" then SkipCheck.skip else SkipCheck.proceed
      | _ => SkipCheck.panicked
    | _ => SkipCheck.proceed
  | _ => SkipCheck.proceed

/-- Go method `HoHDeployer.Deploy`.  The object `foundObj` is the one the
client's `Get` fills in. -/
def Deploy (lib : Library) (client : Client) (unsObj : Unstructured) : DeployResult :=
  let gvk := unsObj.GroupVersionKind
  let namespacedName := (unsObj.GetNamespace, unsObj.GetName)
  match client.Get gvk namespacedName with
  | Except.error err =>
    if IsNotFound err then
      { calls := [ClientCall.Get gvk namespacedName, ClientCall.Create unsObj]
        outcome := Outcome.returned (client.Create unsObj) }
    else
      { calls := [ClientCall.Get gvk namespacedName], outcome := Outcome.returned (some err) }
  | Except.ok foundObj =>
    -- if resource has annotation skip-creation-if-exist: true, then it will not be updated
    match skipCreationIfExist unsObj with
    | SkipCheck.panicked =>
      { calls := [ClientCall.Get gvk namespacedName]
        outcome := Outcome.panicked "interface conversion: interface {} is not string" }
    | SkipCheck.skip =>
      { calls := [ClientCall.Get gvk namespacedName], outcome := Outcome.returned none }
    | SkipCheck.proceed =>
      match deployFuncs lib client foundObj.GetKind with
      | some deployFunction =>
        let r := deployFunction unsObj foundObj
        { calls := ClientCall.Get gvk namespacedName :: r.calls, outcome := r.outcome }
      | none =>
        if !lib.DeepDerivative (Value.object unsObj.Object) (Value.object foundObj.Object) then
          let unsObj := unsObj.SetGroupVersionKind unsObj.GroupVersionKind
          let unsObj := unsObj.SetResourceVersion foundObj.GetResourceVersion
          { calls := [ClientCall.Get gvk namespacedName,
              ClientCall.Update (Value.object unsObj.Object)]
            outcome := Outcome.returned (client.Update (Value.object unsObj.Object)) }
        else
          { calls := [ClientCall.Get gvk namespacedName], outcome := Outcome.returned none }

/-- A call that writes to the cluster: `Create` or `Update`. -/
def ClientCall.isWrite : ClientCall → Bool
  | ClientCall.Get _ _ => false
  | ClientCall.Create _ => true
  | ClientCall.Update _ => true

/-- The ten kinds with a deploy function of their own. -/
def dedicatedKinds : List String :=
  ["Deployment", "StatefulSet", "Service", "ServiceAccount", "ConfigMap", "Secret", "Role",
   "RoleBinding", "ClusterRole", "ClusterRoleBinding"]

/-- The fields the idempotence claim names for the ten dedicated kinds:
spec, data, rules, subjects, roleRef, labels and annotations. -/
def claimedComparedFields : List (List String) :=
  [["spec"], ["data"], ["rules"], ["subjects"], ["roleRef"], ["metadata", "labels"],
   ["metadata", "annotations"]]

/-- The pairs (desired value, existing value) the deploy function of a
dedicated kind compares, given the typed desired and existing objects. -/
def comparedPairs (kind : String) (desired existing : Value) : List (Value × Value) :=
  let labelsAndAnnotations :=
    [(GetLabels desired, GetLabels existing), (GetAnnotations desired, GetAnnotations existing)]
  if kind = "Deployment" ∨ kind = "StatefulSet" ∨ kind = "Service" then
    (desired.getPath ["spec"], existing.getPath ["spec"]) :: labelsAndAnnotations
  else if kind = "ServiceAccount" then
    (desired.getPath ["secrets"], existing.getPath ["secrets"]) ::
      (desired.getPath ["imagePullSecrets"], existing.getPath ["imagePullSecrets"]) ::
      labelsAndAnnotations
  else if kind = "ConfigMap" then
    (desired.getPath ["data"], existing.getPath ["data"]) :: labelsAndAnnotations
  else if kind = "Secret" then
    (desired.getPath ["stringData"], existingStrData existing) ::
      (desired.getPath ["data"], existing.getPath ["data"]) :: labelsAndAnnotations
  else if kind = "Role" then
    (desired.getPath ["rules"], existing.getPath ["rules"]) :: labelsAndAnnotations
  else if kind = "RoleBinding" ∨ kind = "ClusterRoleBinding" then
    (desired.getPath ["subjects"], existing.getPath ["subjects"]) ::
      (desired.getPath ["roleRef"], existing.getPath ["roleRef"]) :: labelsAndAnnotations
  else if kind = "ClusterRole" then
    (desired.getPath ["rules"], existing.getPath ["rules"]) ::
      (desired.getPath ["aggregationRule"], existing.getPath ["aggregationRule"]) ::
      labelsAndAnnotations
  else []

/-- A cluster with a state: the client through which a state answers, and the
state a write call (a `Create` or an `Update`) leaves behind.  A lookup leaves
the state as it is. -/
structure Cluster (σ : Type) where
  client : σ → Client
  write : σ → ClientCall → σ

/-- The state of a cluster that nothing else changes, once the write calls
among the given calls were made on it, oldest first. -/
def Cluster.after {σ : Type} (cluster : Cluster σ) (s : σ) (calls : List ClientCall) : σ :=
  (calls.filter ClientCall.isWrite).foldl cluster.write s

/-- Deploying the same manifest twice against a cluster that nothing else
changes: the result of the first and of the second call of `Deploy`.  The
second call runs on the state the first one left behind, with the manifest as
it was given to the first. -/
def deployTwice {σ : Type} (lib : Library) (cluster : Cluster σ) (s : σ)
    (unsObj : Unstructured) : DeployResult × DeployResult :=
  let first := Deploy lib (cluster.client s) unsObj
  (first, Deploy lib (cluster.client (cluster.after s first.calls)) unsObj)

/-! ### A concrete cluster, for evaluation -/

mutual
/-- A stand-in for `Semantic.DeepDerivative` on value trees.  A desired nil is
a derivative of anything.  An existing nil stands for the unset value of the
type of the desired value: only an unset desired value (false, 0, the empty
string, an empty slice, an empty map) is a derivative of it.  Values of two
different types are no derivatives.  An empty desired string, slice or map is
a derivative of any value of its type; a desired slice must not be longer than
the existing one and is compared element by element; a desired map is compared
on its own keys, each of which the existing map must have; booleans, numbers
and strings that are set must be equal. -/
def derivative : Value → Value → Bool
  | Value.null, _ => true
  | Value.bool a, Value.bool b => a == b
  | Value.bool a, Value.null => a == false
  | Value.number a, Value.number b => a == b
  | Value.number a, Value.null => a == 0
  | Value.string a, Value.string b => a == "" || a == b
  | Value.string a, Value.null => a == ""
  | Value.slice [], Value.slice _ => true
  | Value.slice [], Value.null => true
  | Value.slice (x :: xs), Value.slice ys => derivativeItems (x :: xs) ys
  | Value.object [], Value.object _ => true
  | Value.object [], Value.null => true
  | Value.object (f :: fs), Value.object gs => derivativeFields (f :: fs) gs
  | _, _ => false
/-- Element by element comparison of a desired slice with an existing one. -/
def derivativeItems : List Value → List Value → Bool
  | [], _ => true
  | _ :: _, [] => false
  | x :: xs, y :: ys => derivative x y && derivativeItems xs ys
/-- Comparison of the fields of a desired map with an existing map. -/
def derivativeFields : List (String × Value) → List (String × Value) → Bool
  | [], _ => true
  | (k, x) :: fs, gs =>
    (match gs.lookup k with
      | some y => derivative x y
      | none => false) && derivativeFields fs gs
end

/-- A library whose typed objects are the trees of the unstructured objects. -/
def sampleLibrary : Library :=
  { DeepDerivative := derivative
    decode := fun _ obj => Except.ok (Value.object obj.Object) }

/-- A service account manifest that names a secret. -/
def desiredServiceAccount : Unstructured :=
  { Object :=
      [("apiVersion", Value.string "v1"), ("kind", Value.string "ServiceAccount"),
       ("metadata", Value.object
          [("name", Value.string "hub-operator"), ("namespace", Value.string "hub")]),
       ("secrets", Value.slice [Value.object [("name", Value.string "hub-token")]])] }

/-- The service account of the cluster: the same object without any secret. -/
def existingServiceAccount : Unstructured :=
  { Object :=
      [("apiVersion", Value.string "v1"), ("kind", Value.string "ServiceAccount"),
       ("metadata", Value.object
          [("name", Value.string "hub-operator"), ("namespace", Value.string "hub"),
           ("resourceVersion", Value.string "7")])] }

/-- A cluster that holds `existingServiceAccount` and accepts every write. -/
def sampleClient : Client :=
  { Get := fun _ _ => Except.ok existingServiceAccount
    Create := fun _ => none
    Update := fun _ => none }

/-- A cluster that holds nothing and accepts every write. -/
def emptyClient : Client :=
  { Get := fun _ _ => Except.error { reason := "NotFound", message := "not found" }
    Create := fun _ => none
    Update := fun _ => none }

/-- A cluster whose lookups fail with a server error. -/
def brokenClient : Client :=
  { Get := fun _ _ => Except.error { reason := "InternalError", message := "etcd unavailable" }
    Create := fun _ => none
    Update := fun _ => none }

/-- The service account manifest with the annotation that asks to leave an
object that exists alone. -/
def skippedServiceAccount : Unstructured :=
  { Object :=
      [("apiVersion", Value.string "v1"), ("kind", Value.string "ServiceAccount"),
       ("metadata", Value.object
          [("name", Value.string "hub-operator"), ("namespace", Value.string "hub"),
           ("annotations", Value.object [("skip-creation-if-exist", Value.string "True")])]),
       ("secrets", Value.slice [Value.object [("name", Value.string "hub-token")]])] }

/-- A cluster that holds at most one object, accepts every write and stores
what is written: the state is the object held, if any. -/
def storingCluster : Cluster (Option Unstructured) :=
  { client := fun s =>
      { Get := fun _ _ =>
          match s with
          | some obj => Except.ok obj
          | none => Except.error { reason := "NotFound", message := "not found" }
        Create := fun _ => none
        Update := fun _ => none }
    write := fun s call =>
      match call with
      | ClientCall.Create obj => some obj
      | ClientCall.Update (Value.object fields) => some { Object := fields }
      | _ => s }

/-- A namespace manifest whose annotation `skip-creation-if-exist` is the
boolean `true`: the manifest writes it without quotes. -/
def boolAnnotatedNamespace : Unstructured :=
  { Object :=
      [("apiVersion", Value.string "v1"), ("kind", Value.string "Namespace"),
       ("metadata", Value.object
          [("name", Value.string "hub"),
           ("annotations", Value.object [("skip-creation-if-exist", Value.bool true)])])] }

/-- A cluster that holds that namespace as the manifest gives it, and accepts
every write. -/
def namespaceClient : Client :=
  { Get := fun _ _ => Except.ok boolAnnotatedNamespace
    Create := fun _ => none
    Update := fun _ => none }

/-! ## The hub cluster claim of the agent

Embedding of `agent/pkg/controllers/utils.go`.  The cluster client and the
error predicates `errors.IsNotFound` and `meta.IsNoMatchError` belong to
libraries: a client is the answer of the cluster to each call, and an error
carries what the two predicates report for it.  The strings of the package
`constants` are declared outside the embedded files and are parameters.  The
calls made on the client are recorded. -/

/-- The strings of the package `constants` the code reads. -/
structure Constants where
  HubClusterClaimName : String
  HubNotInstalled : String
  HubInstalledByUser : String
  HubInstalledByGlobalHub : String
  GlobalHubOwnerLabelKey : String
  GlobalHubOwnerLabelVal : String
  GHAgentOwnerLabelValue : String
  deriving DecidableEq, Repr

/-- A `types.NamespacedName`. -/
structure NamespacedName where
  Namespace : String
  Name : String
  deriving DecidableEq, Repr

/-- A Go `error` returned by the cluster client, with what `errors.IsNotFound`
and `meta.IsNoMatchError` report for it. -/
structure ClusterError where
  isNotFound : Bool
  isNoMatch : Bool
  message : String
  deriving DecidableEq, Repr

/-- Library function `errors.IsNotFound` on a Go `error` that may be nil. -/
def errorsIsNotFound : Option ClusterError → Bool
  | none => false
  | some err => err.isNotFound

/-- Library function `meta.IsNoMatchError` on a Go `error` that may be nil. -/
def metaIsNoMatchError : Option ClusterError → Bool
  | none => false
  | some err => err.isNoMatch

/-- The part of a `MultiClusterHub` the code reads. -/
structure MultiClusterHub where
  Name : String
  Namespace : String
  Labels : List (String × String)
  deriving DecidableEq, Repr

/-- Go expression `mch.GetLabels()[key]`: the label, the empty string when absent. -/
def MultiClusterHub.label (mch : MultiClusterHub) (key : String) : String :=
  (mch.Labels.lookup key).getD ""

/-- The part of a `ClusterManager` the code reads. -/
structure ClusterManager where
  Name : String
  deriving DecidableEq, Repr

/-- A `ClusterClaim`: name, labels and `Spec.Value`. -/
structure ClusterClaim where
  Name : String
  Labels : List (String × String)
  Value : String
  deriving DecidableEq, Repr

/-- The cluster as the functions of `utils.go` see it: the answer to each call.
A lookup answers with the object or with the error; a write with nil or the
error. -/
structure HubClient where
  GetMultiClusterHub : NamespacedName → Except ClusterError MultiClusterHub
  ListMultiClusterHub : Except ClusterError (List MultiClusterHub)
  GetClusterManager : NamespacedName → Except ClusterError ClusterManager
  GetClusterClaim : String → Except ClusterError ClusterClaim
  Create : ClusterClaim → Option ClusterError
  Update : ClusterClaim → Option ClusterError

/-- A call made on the cluster client by the functions of `utils.go`. -/
inductive HubCall where
  | GetMultiClusterHub (namespacedName : NamespacedName)
  | ListMultiClusterHub
  | GetClusterManager (namespacedName : NamespacedName)
  | GetClusterClaim (name : String)
  | Create (claim : ClusterClaim)
  | Update (claim : ClusterClaim)
  deriving DecidableEq, Repr

/-- The `error` result of `updateHubClusterClaim`: an error of the client
passed on as it is, or a new error made by `fmt.Errorf` with the verb `%v`
from the text of an error of the client. -/
inductive HubClaimError where
  | passed (err : ClusterError)
  | Errorf (format : String) (err : ClusterError)
  deriving DecidableEq, Repr

/-- The error of a lookup answer, nil when the lookup succeeded. -/
def lookupError {α : Type} : Except ClusterError α → Option ClusterError
  | Except.error err => some err
  | Except.ok _ => none

/-- Go function `listMCH`: the result and the client calls made. -/
def listMCH (k8sClient : HubClient) :
    (Option MultiClusterHub × Option ClusterError) × List HubCall :=
  let err := k8sClient.ListMultiClusterHub
  if errorsIsNotFound (lookupError err) then ((none, none), [HubCall.ListMultiClusterHub])
  else if metaIsNoMatchError (lookupError err) then ((none, none), [HubCall.ListMultiClusterHub])
  else
    match err with
    | Except.error err => ((none, some err), [HubCall.ListMultiClusterHub])
    | Except.ok items =>
      match items with
      | [] => ((none, none), [HubCall.ListMultiClusterHub])
      | first :: _ => ((some first, none), [HubCall.ListMultiClusterHub])

/-- Go function `getMCH`: the result and the client calls made. -/
def getMCH (client : HubClient) (namespacedName : NamespacedName) :
    (Option MultiClusterHub × Option ClusterError) × List HubCall :=
  if namespacedName.Name = "" ∨ namespacedName.Namespace = "" then
    listMCH client
  else
    let err := client.GetMultiClusterHub namespacedName
    if errorsIsNotFound (lookupError err) then
      ((none, none), [HubCall.GetMultiClusterHub namespacedName])
    else if metaIsNoMatchError (lookupError err) then
      ((none, none), [HubCall.GetMultiClusterHub namespacedName])
    else
      match err with
      | Except.error err => ((none, some err), [HubCall.GetMultiClusterHub namespacedName])
      | Except.ok mch => ((some mch, none), [HubCall.GetMultiClusterHub namespacedName])

/-- Go function `getClusterManager`: the result and the client calls made. -/
def getClusterManager (client : HubClient) :
    (Option ClusterManager × Option ClusterError) × List HubCall :=
  let namespacedName : NamespacedName := { Namespace := "", Name := "cluster-manager" }
  let err := client.GetClusterManager namespacedName
  if errorsIsNotFound (lookupError err) then
    ((none, none), [HubCall.GetClusterManager namespacedName])
  else if metaIsNoMatchError (lookupError err) then
    ((none, none), [HubCall.GetClusterManager namespacedName])
  else
    match err with
    | Except.error err => ((none, some err), [HubCall.GetClusterManager namespacedName])
    | Except.ok clusterManager =>
      ((some clusterManager, none), [HubCall.GetClusterManager namespacedName])

/-- Go function `newClusterClaim`. -/
def newClusterClaim (c : Constants) (name value : String) : ClusterClaim :=
  { Name := name
    Labels :=
      [("velero.io/exclude-from-backup", "true"),
       (c.GlobalHubOwnerLabelKey, c.GHAgentOwnerLabelValue)]
    Value := value }

/-- Go function `getClusterClaim`: the result and the client calls made. -/
def getClusterClaim (k8sClient : HubClient) (name : String) :
    (Option ClusterClaim × Option ClusterError) × List HubCall :=
  let err := k8sClient.GetClusterClaim name
  if errorsIsNotFound (lookupError err) then ((none, none), [HubCall.GetClusterClaim name])
  else
    match err with
    | Except.error err => ((none, some err), [HubCall.GetClusterClaim name])
    | Except.ok clusterClaim => ((some clusterClaim, none), [HubCall.GetClusterClaim name])

/-- Go function `updateClusterClaim`: the `error` result and the client calls made. -/
def updateClusterClaim (c : Constants) (k8sClient : HubClient) (name value : String) :
    Option ClusterError × List HubCall :=
  match getClusterClaim k8sClient name with
  | ((_, some err), calls) => (some err, calls)
  | ((none, none), calls) =>
    (k8sClient.Create (newClusterClaim c name value),
      calls ++ [HubCall.Create (newClusterClaim c name value)])
  | ((some clusterClaim, none), calls) =>
    let clusterClaim := { clusterClaim with Value := value }
    (k8sClient.Update clusterClaim, calls ++ [HubCall.Update clusterClaim])

/-- Go function `updateHubClusterClaim`: the Go pair it returns and the client
calls made, oldest first. -/
def updateHubClusterClaim (c : Constants) (k8sClient : HubClient)
    (namespacedName : NamespacedName) :
    (Option MultiClusterHub × Option HubClaimError) × List HubCall :=
  match getMCH k8sClient namespacedName with
  | ((_, some err), calls) =>
    ((none, some (HubClaimError.Errorf "failed to get MCH instance. err = %v" err)), calls)
  | ((none, none), calls) =>
    let hubValue := c.HubNotInstalled
    match getClusterManager k8sClient with
    | ((_, some err), calls') =>
      ((none, some (HubClaimError.Errorf "failed to get clusterManager instance. err = %v" err)),
        calls ++ calls')
    | ((clusterManager, none), calls') =>
      let hubValue := if clusterManager.isSome then c.HubInstalledByUser else hubValue
      let r := updateClusterClaim c k8sClient c.HubClusterClaimName hubValue
      ((none, r.1.map HubClaimError.passed), calls ++ calls' ++ r.2)
  | ((some mch, none), calls) =>
    let hubValue := c.HubInstalledByUser
    let hubValue :=
      if mch.label c.GlobalHubOwnerLabelKey = c.GlobalHubOwnerLabelVal then
        c.HubInstalledByGlobalHub
      else hubValue
    let r := updateClusterClaim c k8sClient c.HubClusterClaimName hubValue
    ((some mch, r.1.map HubClaimError.passed), calls ++ r.2)

/-- A call that writes to the cluster: a Create or an Update. -/
def HubCall.isWrite : HubCall → Bool
  | HubCall.Create _ => true
  | HubCall.Update _ => true
  | _ => false

/-- The Create and Update calls among the recorded calls, oldest first. -/
def writeCalls (calls : List HubCall) : List HubCall :=
  calls.filter HubCall.isWrite

/-! ### A concrete cluster of the agent, for evaluation -/

/-- Values for the strings of the package `constants`. -/
def sampleConstants : Constants :=
  { HubClusterClaimName := "hub.open-cluster-management.io"
    HubNotInstalled := "NotInstalled"
    HubInstalledByUser := "InstalledByUser"
    HubInstalledByGlobalHub := "InstalledByGlobalHub"
    GlobalHubOwnerLabelKey := "global-hub.open-cluster-management.io/managed-by"
    GlobalHubOwnerLabelVal := "global-hub"
    GHAgentOwnerLabelValue := "global-hub-agent" }

/-- The error of a lookup that finds nothing. -/
def notFoundError : ClusterError :=
  { isNotFound := true, isNoMatch := false, message := "not found" }

/-- The error of a cluster that cannot answer. -/
def serverError : ClusterError :=
  { isNotFound := false, isNoMatch := false, message := "the server is currently unable" }

/-- A MultiClusterHub installed by the global hub. -/
def ownedHub : MultiClusterHub :=
  { Name := "multiclusterhub", Namespace := "open-cluster-management"
    Labels := [("global-hub.open-cluster-management.io/managed-by", "global-hub")] }

/-- The name under which the sample MultiClusterHub is looked up. -/
def hubName : NamespacedName :=
  { Namespace := "open-cluster-management", Name := "multiclusterhub" }

/-- A cluster that holds the owned MultiClusterHub and no claim, and accepts writes. -/
def ownedHubClient : HubClient :=
  { GetMultiClusterHub := fun _ => Except.ok ownedHub
    ListMultiClusterHub := Except.ok [ownedHub]
    GetClusterManager := fun _ => Except.error notFoundError
    GetClusterClaim := fun _ => Except.error notFoundError
    Create := fun _ => none
    Update := fun _ => none }

/-- The same cluster when the lookup of the cluster claim fails. -/
def claimLookupDownClient : HubClient :=
  { ownedHubClient with GetClusterClaim := fun _ => Except.error serverError }

/-- A cluster without hub, cluster manager and claim. -/
def bareClient : HubClient :=
  { GetMultiClusterHub := fun _ => Except.error notFoundError
    ListMultiClusterHub := Except.ok []
    GetClusterManager := fun _ => Except.error notFoundError
    GetClusterClaim := fun _ => Except.error notFoundError
    Create := fun _ => none
    Update := fun _ => none }

/-- A hub cluster claim left in the cluster by an earlier run, when no hub was
installed. -/
def staleClaim : ClusterClaim :=
  { Name := "hub.open-cluster-management.io"
    Labels := [("velero.io/exclude-from-backup", "true")]
    Value := "NotInstalled" }

/-- The cluster of the owned MultiClusterHub when it holds the stale claim. -/
def claimedHubClient : HubClient :=
  { ownedHubClient with GetClusterClaim := fun _ => Except.ok staleClaim }

/-- A boolean where the annotation `skip-creation-if-exist` expects a string:
the manifest writes `true` without quotes. -/
def boolAnnotatedServiceAccount : Unstructured :=
  { Object :=
      [("apiVersion", Value.string "v1"), ("kind", Value.string "ServiceAccount"),
       ("metadata", Value.object
          [("name", Value.string "hub-operator"), ("namespace", Value.string "hub"),
           ("annotations", Value.object [("skip-creation-if-exist", Value.bool true)])])] }

/-- What a lookup finds in the cluster: an object, nothing, or no answer
because the lookup failed. -/
inductive Found (α : Type) where
  | object (obj : α)
  | nothing
  | failed (err : ClusterError)

/-- Reading of a lookup answer for which NotFound and NoMatch both mean that
nothing exists. -/
def foundOrNoMatch {α : Type} : Except ClusterError α → Found α
  | Except.ok obj => Found.object obj
  | Except.error err =>
    if err.isNotFound || err.isNoMatch then Found.nothing else Found.failed err

/-- What exists as MultiClusterHub: the object of the given name when name and
namespace are both given, else the first object of the list of all of them. -/
def foundMultiClusterHub (client : HubClient) (namespacedName : NamespacedName) :
    Found MultiClusterHub :=
  if namespacedName.Name = "" ∨ namespacedName.Namespace = "" then
    match foundOrNoMatch client.ListMultiClusterHub with
    | Found.object [] => Found.nothing
    | Found.object (first :: _) => Found.object first
    | Found.nothing => Found.nothing
    | Found.failed err => Found.failed err
  else foundOrNoMatch (client.GetMultiClusterHub namespacedName)

/-- What exists as the ClusterManager named `cluster-manager`. -/
def foundClusterManager (client : HubClient) : Found ClusterManager :=
  foundOrNoMatch (client.GetClusterManager { Namespace := "", Name := "cluster-manager" })

/-- What exists as cluster claim of a name; here only NotFound means that
nothing exists. -/
def foundClusterClaim (client : HubClient) (name : String) : Found ClusterClaim :=
  match client.GetClusterClaim name with
  | Except.ok claim => Found.object claim
  | Except.error err => if err.isNotFound then Found.nothing else Found.failed err

/-- The value the hub cluster claim is to get from what exists in the cluster. -/
def hubValueFor (c : Constants) (hub : Option MultiClusterHub)
    (clusterManager : Option ClusterManager) : String :=
  match hub with
  | some mch =>
    if mch.label c.GlobalHubOwnerLabelKey = c.GlobalHubOwnerLabelVal then
      c.HubInstalledByGlobalHub
    else c.HubInstalledByUser
  | none =>
    match clusterManager with
    | some _ => c.HubInstalledByUser
    | none => c.HubNotInstalled

/-- The DB syncers of the global resources: the placement-rule, placement,
placement-decision, subscription-status, subscription-report and local
placement-rule syncers. -/
def DBSyncer.isGlobalResource : DBSyncer → Bool
  | DBSyncer.NewPlacementRulesDBSyncer _ => true
  | DBSyncer.NewPlacementsDBSyncer _ => true
  | DBSyncer.NewPlacementDecisionsDBSyncer _ => true
  | DBSyncer.NewSubscriptionStatusesDBSyncer _ => true
  | DBSyncer.NewSubscriptionReportsDBSyncer _ => true
  | DBSyncer.NewLocalSpecPlacementruleSyncer _ => true
  | _ => false

/-! ## Arithmetic of the counter -/

theorem wrapInt_of_inRange (x : Int) (hlo : minInt ≤ x) (hhi : x ≤ maxInt) : wrapInt x = x := by
  unfold wrapInt
  unfold minInt at hlo
  unfold maxInt at hhi
  omega

theorem wrapInt_succ (c : Int) (hlo : minInt ≤ c) (hhi : c < maxInt) : wrapInt (c + 1) = c + 1 := by
  apply wrapInt_of_inRange
  · unfold minInt at *; omega
  · unfold maxInt at *; omega

/-! ## Runs of delivery-attempt callbacks -/

theorem attempts_zero (manager : HybridSyncManager) : attempts 0 manager = manager := rfl

theorem attempts_succ (n : Nat) (manager : HybridSyncManager) :
    attempts (n + 1) manager = handleTransportationAttempt (attempts n manager) := by
  simp [attempts, runCallbacks, List.replicate_succ', List.foldl_append, handlerOf]

theorem attempts_succ_left (n : Nat) (manager : HybridSyncManager) :
    attempts (n + 1) manager = attempts n (handleTransportationAttempt manager) := by
  simp [attempts, runCallbacks, List.replicate_succ, handlerOf]

/-- One delivery attempt in complete-state mode: mode, counter and switch factor after it. -/
theorem attempt_complete_switch (manager : HybridSyncManager)
    (hm : manager.activeSyncMode = BundleSyncMode.CompleteStateMode) :
    (handleTransportationAttempt manager).activeSyncMode = BundleSyncMode.DeltaStateMode ∧
    (handleTransportationAttempt manager).sentDeltaCount = 0 ∧
    (handleTransportationAttempt manager).sentDeltaCountSwitchFactor =
      manager.sentDeltaCountSwitchFactor := by
  simp [handleTransportationAttempt, hm, switchToDeltaStateMode]

/-- The mode after a delivery-success callback is delta, whatever the state. -/
theorem success_mode (manager : HybridSyncManager) :
    (handleTransportationSuccess manager).activeSyncMode = BundleSyncMode.DeltaStateMode := by
  cases hm : manager.activeSyncMode <;>
    simp [handleTransportationSuccess, hm, switchToDeltaStateMode]

/-- One delivery attempt in delta-state mode that does not reach the switch factor. -/
theorem attempt_delta_below (manager : HybridSyncManager)
    (hm : manager.activeSyncMode = BundleSyncMode.DeltaStateMode)
    (h0 : 0 ≤ manager.sentDeltaCount)
    (hlt : manager.sentDeltaCount + 1 < manager.sentDeltaCountSwitchFactor)
    (hk : manager.sentDeltaCountSwitchFactor ≤ maxInt) :
    (handleTransportationAttempt manager).activeSyncMode = BundleSyncMode.DeltaStateMode ∧
    (handleTransportationAttempt manager).sentDeltaCount = manager.sentDeltaCount + 1 ∧
    (handleTransportationAttempt manager).sentDeltaCountSwitchFactor =
      manager.sentDeltaCountSwitchFactor := by
  have hw : wrapInt (manager.sentDeltaCount + 1) = manager.sentDeltaCount + 1 :=
    wrapInt_succ _ (by unfold minInt; omega) (by omega)
  have hne : ¬ manager.sentDeltaCount + 1 = manager.sentDeltaCountSwitchFactor := by omega
  simp [handleTransportationAttempt, hm, hw, hne]

/-- One delivery attempt in delta-state mode that reaches the switch factor. -/
theorem attempt_delta_reach (manager : HybridSyncManager)
    (hm : manager.activeSyncMode = BundleSyncMode.DeltaStateMode)
    (h0 : 0 ≤ manager.sentDeltaCount)
    (heq : manager.sentDeltaCount + 1 = manager.sentDeltaCountSwitchFactor)
    (hk : manager.sentDeltaCountSwitchFactor ≤ maxInt) :
    (handleTransportationAttempt manager).activeSyncMode = BundleSyncMode.CompleteStateMode ∧
    (handleTransportationAttempt manager).sentDeltaCount = manager.sentDeltaCountSwitchFactor ∧
    (handleTransportationAttempt manager).sentDeltaCountSwitchFactor =
      manager.sentDeltaCountSwitchFactor := by
  have hw : wrapInt (manager.sentDeltaCount + 1) = manager.sentDeltaCountSwitchFactor := by
    rw [wrapInt_succ _ (by unfold minInt; omega) (by omega), heq]
  simp [handleTransportationAttempt, hm, hw, switchToCompleteStateMode]

/-- In delta-state mode, `n` delivery attempts that stay below the switch factor
keep the mode and add `n` to the counter. -/
theorem attempts_delta_below (n : Nat) : ∀ manager : HybridSyncManager,
    manager.activeSyncMode = BundleSyncMode.DeltaStateMode →
    0 ≤ manager.sentDeltaCount →
    manager.sentDeltaCount + n < manager.sentDeltaCountSwitchFactor →
    manager.sentDeltaCountSwitchFactor ≤ maxInt →
    (attempts n manager).activeSyncMode = BundleSyncMode.DeltaStateMode ∧
    (attempts n manager).sentDeltaCount = manager.sentDeltaCount + n ∧
    (attempts n manager).sentDeltaCountSwitchFactor = manager.sentDeltaCountSwitchFactor := by
  induction n with
  | zero => intro manager hm _ _ _; simp [attempts_zero, hm]
  | succ n ih =>
    intro manager hm h0 hlt hk
    obtain ⟨im, ic, ik⟩ := ih manager hm h0 (by push_cast at hlt; omega) hk
    rw [attempts_succ]
    obtain ⟨sm, sc, sk⟩ := attempt_delta_below (attempts n manager) im (by omega)
      (by rw [ic, ik]; push_cast at hlt; omega) (by rw [ik]; exact hk)
    refine ⟨sm, ?_, ?_⟩
    · rw [sc, ic]; push_cast; omega
    · rw [sk, ik]

/-- In delta-state mode with the counter at zero, `k` delivery attempts for
switch factor `k` end in complete-state mode with the counter at `k`. -/
theorem attempts_delta_full (k : Nat) (hk1 : 1 ≤ k) (hk : (k : Int) ≤ maxInt)
    (manager : HybridSyncManager)
    (hm : manager.activeSyncMode = BundleSyncMode.DeltaStateMode)
    (h0 : manager.sentDeltaCount = 0)
    (hf : manager.sentDeltaCountSwitchFactor = k) :
    (attempts k manager).activeSyncMode = BundleSyncMode.CompleteStateMode ∧
    (attempts k manager).sentDeltaCount = k ∧
    (attempts k manager).sentDeltaCountSwitchFactor = k := by
  obtain ⟨j, rfl⟩ : ∃ j, k = j + 1 := ⟨k - 1, by omega⟩
  obtain ⟨im, ic, ik⟩ := attempts_delta_below j manager hm (by omega)
    (by rw [h0, hf]; push_cast; omega) (by rw [hf]; exact hk)
  rw [attempts_succ]
  obtain ⟨sm, sc, sk⟩ := attempt_delta_reach (attempts j manager) im (by omega)
    (by rw [ic, ik, h0, hf]; push_cast; omega) (by rw [ik, hf]; exact hk)
  refine ⟨sm, ?_, ?_⟩
  · rw [sc, ik, hf]
  · rw [sk, ik, hf]

/-! ## What the constructor and the registration leave in the manager -/

/-- A successful `NewHybridSyncManager` returns the initial manager state, no
error, and the entries after `appendPredicates`. -/
theorem NewHybridSyncManager_some {W : Type} (reversed : Bool) (log : List String)
    (c d : EntryPtr) (heap heap' : Heap W) (manager : HybridSyncManager) (err : Option GoError)
    (hnew : NewHybridSyncManager reversed log c d heap = ((some manager, err), heap')) :
    ∃ b, (heap d).bundle.asDeltaStateBundle = some b ∧ manager = newManager log c d b ∧
      err = none ∧ heap' = appendPredicates reversed manager heap := by
  unfold NewHybridSyncManager at hnew
  cases hb : (heap d).bundle.asDeltaStateBundle with
  | none => rw [hb] at hnew; simp at hnew
  | some b =>
    rw [hb] at hnew
    simp only [Prod.mk.injEq, Option.some.injEq] at hnew
    obtain ⟨⟨hm, he⟩, hh⟩ := hnew
    exact ⟨b, rfl, hm.symm, he.symm, by rw [← hh, ← hm]⟩

/-- The entry map of a new manager: the complete mode is bound to the first entry. -/
theorem GetBundleCollectionEntry_newManager_complete (log : List String) (c d : EntryPtr)
    (b : DeltaStateBundle) :
    GetBundleCollectionEntry (newManager log c d b) BundleSyncMode.CompleteStateMode = some c :=
  rfl

/-- The entry map of a new manager: the delta mode is bound to the second entry. -/
theorem GetBundleCollectionEntry_newManager_delta (log : List String) (c d : EntryPtr)
    (b : DeltaStateBundle) :
    GetBundleCollectionEntry (newManager log c d b) BundleSyncMode.DeltaStateMode = some d :=
  rfl

/-- The manager after `SetHybridModeCallBack` differs only in the switch factor. -/
theorem SetHybridModeCallBack_manager {W : Type} (reversed : Bool) (manager : HybridSyncManager)
    (k : Int) (transportObj : Producer) (heap : Heap W) :
    (SetHybridModeCallBack reversed manager k transportObj heap).1 =
      { manager with sentDeltaCountSwitchFactor := k } := by
  simp only [SetHybridModeCallBack]
  split <;> rfl

/-- With hybrid mode disabled `SetHybridModeCallBack` only stores the switch factor. -/
theorem SetHybridModeCallBack_disabled {W : Type} (reversed : Bool) (manager : HybridSyncManager)
    (k : Int) (transportObj : Producer) (heap : Heap W)
    (h : k ≤ 0 ∨ transportObj.SupportsDeltaBundles = false) :
    SetHybridModeCallBack reversed manager k transportObj heap =
      ({ manager with sentDeltaCountSwitchFactor := k }, transportObj) := by
  simp only [SetHybridModeCallBack]
  rw [if_pos]
  rcases h with h | h
  · simp [h]
  · simp [h]

/-- With hybrid mode enabled `SetHybridModeCallBack` on a new manager subscribes
the three handlers once per entry, in the order the map is visited. -/
theorem SetHybridModeCallBack_enabled {W : Type} (reversed : Bool) (log : List String)
    (c d : EntryPtr) (b : DeltaStateBundle)
    (k : Int) (transportObj : Producer) (heap : Heap W)
    (hk : 0 < k) (hs : transportObj.SupportsDeltaBundles = true) :
    (SetHybridModeCallBack reversed (newManager log c d b) k transportObj heap).2.subscriptions =
      transportObj.subscriptions ++ rangeMap reversed
        [((heap c).transportBundleKey,
            [(EventType.DeliveryAttempt, handleTransportationAttempt),
             (EventType.DeliverySuccess, handleTransportationSuccess),
             (EventType.DeliveryFailure, handleTransportationFailure)]),
         ((heap d).transportBundleKey,
            [(EventType.DeliveryAttempt, handleTransportationAttempt),
             (EventType.DeliverySuccess, handleTransportationSuccess),
             (EventType.DeliveryFailure, handleTransportationFailure)])] := by
  have hnk : ¬ k ≤ 0 := by omega
  cases reversed <;>
    simp [SetHybridModeCallBack, hnk, hs, rangeMap, newManager, Producer.Subscribe]

/-- A transport without subscriptions delivers no event to the manager. -/
theorem invokeCallbacks_no_subscription (transportObj : Producer)
    (hs : transportObj.subscriptions = []) (events : List (EventType × String)) :
    ∀ manager : HybridSyncManager, transportObj.invokeCallbacks events manager = manager := by
  induction events with
  | nil => intro manager; rfl
  | cons e es ih =>
    intro manager
    have h1 : transportObj.invokeCallback e.1 e.2 manager = manager := by
      simp [Producer.invokeCallback, hs]
    simp only [Producer.invokeCallbacks, List.foldl_cons, h1]
    exact ih manager

/-- An event for a key is delivered to the handlers of the latest subscription of the key. -/
theorem invokeCallback_latest (transportObj : Producer) (key key' : String)
    (e : EventType) (manager : HybridSyncManager)
    (earlier : List (String × List (EventType × EventCallback)))
    (hs : transportObj.subscriptions = earlier ++
      [(key',
          [(EventType.DeliveryAttempt, handleTransportationAttempt),
           (EventType.DeliverySuccess, handleTransportationSuccess),
           (EventType.DeliveryFailure, handleTransportationFailure)]),
       (key,
          [(EventType.DeliveryAttempt, handleTransportationAttempt),
           (EventType.DeliverySuccess, handleTransportationSuccess),
           (EventType.DeliveryFailure, handleTransportationFailure)])]) :
    transportObj.invokeCallback e key manager = handlerOf e manager ∧
    transportObj.invokeCallback e key' manager = handlerOf e manager := by
  constructor
  · simp [Producer.invokeCallback, hs, List.lookup]
    cases e <;> rfl
  · by_cases hkk : key' = key
    · subst hkk
      simp [Producer.invokeCallback, hs, List.lookup]
      cases e <;> rfl
    · have hb : (key' == key) = false := by simpa using hkk
      simp [Producer.invokeCallback, hs, List.lookup, hb]
      cases e <;> rfl

/-! ## The three delivery callbacks -/

/-- C1: in complete-state mode the delivery-attempt callback switches to
delta-state mode, zeroes `sentDeltaCount`, and calls on the delta bundle `Reset`
once and then `SyncState` once; the switch factor, the bundle behind the handle
and the entry map are unchanged. -/
theorem handleTransportationAttempt_complete (manager : HybridSyncManager)
    (h : manager.activeSyncMode = BundleSyncMode.CompleteStateMode) :
    (handleTransportationAttempt manager).activeSyncMode = BundleSyncMode.DeltaStateMode ∧
    (handleTransportationAttempt manager).sentDeltaCount = 0 ∧
    (handleTransportationAttempt manager).deltaStateBundle.received =
      manager.deltaStateBundle.received ++ [DeltaCall.Reset, DeltaCall.SyncState] ∧
    (handleTransportationAttempt manager).sentDeltaCountSwitchFactor =
      manager.sentDeltaCountSwitchFactor ∧
    (handleTransportationAttempt manager).deltaStateBundle.bundle =
      manager.deltaStateBundle.bundle ∧
    (handleTransportationAttempt manager).bundleCollectionEntryMap =
      manager.bundleCollectionEntryMap := by
  simp [handleTransportationAttempt, h, switchToDeltaStateMode, DeltaStateBundle.Reset,
    DeltaStateBundle.SyncState]

theorem handleTransportationAttempt_complete_witness :
    sampleManager.activeSyncMode = BundleSyncMode.CompleteStateMode ∧
    (handleTransportationAttempt sampleManager).activeSyncMode = BundleSyncMode.DeltaStateMode ∧
    (handleTransportationAttempt sampleManager).sentDeltaCount = 0 ∧
    (handleTransportationAttempt sampleManager).deltaStateBundle.received =
      sampleManager.deltaStateBundle.received ++ [DeltaCall.Reset, DeltaCall.SyncState] ∧
    (handleTransportationAttempt sampleManager).sentDeltaCountSwitchFactor =
      sampleManager.sentDeltaCountSwitchFactor ∧
    (handleTransportationAttempt sampleManager).deltaStateBundle.bundle =
      sampleManager.deltaStateBundle.bundle ∧
    (handleTransportationAttempt sampleManager).bundleCollectionEntryMap =
      sampleManager.bundleCollectionEntryMap :=
  ⟨rfl, handleTransportationAttempt_complete sampleManager rfl⟩

/-- C2: in delta-state mode, with `sentDeltaCount = c` and switch factor `k`,
the delivery-attempt callback sets `sentDeltaCount` to `c+1` (the Go increment,
which is the integer `c+1` for every `c` below the largest `int`); if `c+1 = k`
it switches to complete-state mode and makes no call on the delta bundle; if
`c+1 ≠ k` it stays in delta-state mode and calls `Reset` once and `SyncState`
not at all.  The switch factor is unchanged. -/
theorem handleTransportationAttempt_delta (manager : HybridSyncManager)
    (h : manager.activeSyncMode = BundleSyncMode.DeltaStateMode) :
    (handleTransportationAttempt manager).sentDeltaCount = wrapInt (manager.sentDeltaCount + 1) ∧
    (minInt ≤ manager.sentDeltaCount → manager.sentDeltaCount < maxInt →
      (handleTransportationAttempt manager).sentDeltaCount = manager.sentDeltaCount + 1) ∧
    ((handleTransportationAttempt manager).sentDeltaCount = manager.sentDeltaCountSwitchFactor →
      (handleTransportationAttempt manager).activeSyncMode = BundleSyncMode.CompleteStateMode ∧
      (handleTransportationAttempt manager).deltaStateBundle = manager.deltaStateBundle) ∧
    ((handleTransportationAttempt manager).sentDeltaCount ≠ manager.sentDeltaCountSwitchFactor →
      (handleTransportationAttempt manager).activeSyncMode = BundleSyncMode.DeltaStateMode ∧
      (handleTransportationAttempt manager).deltaStateBundle.received =
        manager.deltaStateBundle.received ++ [DeltaCall.Reset] ∧
      (handleTransportationAttempt manager).deltaStateBundle.bundle =
        manager.deltaStateBundle.bundle) ∧
    (handleTransportationAttempt manager).sentDeltaCountSwitchFactor =
      manager.sentDeltaCountSwitchFactor := by
  have hcount : (handleTransportationAttempt manager).sentDeltaCount =
      wrapInt (manager.sentDeltaCount + 1) := by
    by_cases hk : wrapInt (manager.sentDeltaCount + 1) = manager.sentDeltaCountSwitchFactor <;>
      simp [handleTransportationAttempt, h, hk, switchToCompleteStateMode]
  refine ⟨hcount, ?_, ?_, ?_, ?_⟩
  · intro hlo hhi
    rw [hcount, wrapInt_succ _ hlo hhi]
  · intro hk
    rw [hcount] at hk
    simp [handleTransportationAttempt, h, hk, switchToCompleteStateMode]
  · intro hk
    rw [hcount] at hk
    simp [handleTransportationAttempt, h, hk, DeltaStateBundle.Reset]
  · by_cases hk : wrapInt (manager.sentDeltaCount + 1) = manager.sentDeltaCountSwitchFactor <;>
      simp [handleTransportationAttempt, h, hk, switchToCompleteStateMode]

theorem handleTransportationAttempt_delta_witness :
    sampleDeltaManager.activeSyncMode = BundleSyncMode.DeltaStateMode ∧
    (handleTransportationAttempt sampleDeltaManager).sentDeltaCount = 1 + 1 ∧
    (handleTransportationAttempt sampleDeltaManager).activeSyncMode =
      BundleSyncMode.DeltaStateMode ∧
    (handleTransportationAttempt sampleDeltaManager).deltaStateBundle.received =
      [DeltaCall.Reset] ∧
    (handleTransportationAttempt sampleDeltaManager).sentDeltaCountSwitchFactor = 3 := by
  obtain ⟨_, hsucc, _, hne, hk⟩ := handleTransportationAttempt_delta sampleDeltaManager rfl
  have hc : (handleTransportationAttempt sampleDeltaManager).sentDeltaCount = 1 + 1 :=
    hsucc (by decide) (by decide)
  have hne3 : (handleTransportationAttempt sampleDeltaManager).sentDeltaCount ≠
      sampleDeltaManager.sentDeltaCountSwitchFactor := by
    rw [hc]; decide
  exact ⟨rfl, hc, (hne hne3).1, (hne hne3).2.1, hk⟩

/-- C3: the delivery-failure callback always ends in complete-state mode.  From
delta-state mode it switches to complete-state mode, leaves `sentDeltaCount`
and the switch factor unchanged and makes no call on the delta bundle; from
complete-state mode it leaves the whole state unchanged. -/
theorem handleTransportationFailure_spec (manager : HybridSyncManager) :
    (handleTransportationFailure manager).activeSyncMode = BundleSyncMode.CompleteStateMode ∧
    (manager.activeSyncMode = BundleSyncMode.DeltaStateMode →
      (handleTransportationFailure manager).sentDeltaCount = manager.sentDeltaCount ∧
      (handleTransportationFailure manager).deltaStateBundle = manager.deltaStateBundle ∧
      (handleTransportationFailure manager).sentDeltaCountSwitchFactor =
        manager.sentDeltaCountSwitchFactor) ∧
    (manager.activeSyncMode = BundleSyncMode.CompleteStateMode →
      handleTransportationFailure manager = manager) := by
  cases hm : manager.activeSyncMode <;>
    simp [handleTransportationFailure, hm, switchToCompleteStateMode]

theorem handleTransportationFailure_spec_witness :
    ((handleTransportationFailure sampleDeltaManager).activeSyncMode =
        BundleSyncMode.CompleteStateMode ∧
      (handleTransportationFailure sampleDeltaManager).sentDeltaCount = 1 ∧
      (handleTransportationFailure sampleDeltaManager).deltaStateBundle.received = []) ∧
    handleTransportationFailure sampleManager = sampleManager := by
  have hd := handleTransportationFailure_spec sampleDeltaManager
  have hc := handleTransportationFailure_spec sampleManager
  refine ⟨⟨hd.1, ?_, ?_⟩, hc.2.2 rfl⟩
  · rw [(hd.2.1 rfl).1]; rfl
  · rw [(hd.2.1 rfl).2.1]; rfl

/-- C4: the delivery-success callback always ends in delta-state mode.  From
complete-state mode it switches to delta-state mode with `sentDeltaCount = 0`
and calls on the delta bundle `Reset` once and then `SyncState` once; from
delta-state mode it leaves the state unchanged, so the mode and
`sentDeltaCount` stay and no call is made on the delta bundle. -/
theorem handleTransportationSuccess_spec (manager : HybridSyncManager) :
    (handleTransportationSuccess manager).activeSyncMode = BundleSyncMode.DeltaStateMode ∧
    (manager.activeSyncMode = BundleSyncMode.CompleteStateMode →
      (handleTransportationSuccess manager).sentDeltaCount = 0 ∧
      (handleTransportationSuccess manager).deltaStateBundle.received =
        manager.deltaStateBundle.received ++ [DeltaCall.Reset, DeltaCall.SyncState] ∧
      (handleTransportationSuccess manager).deltaStateBundle.bundle =
        manager.deltaStateBundle.bundle ∧
      (handleTransportationSuccess manager).sentDeltaCountSwitchFactor =
        manager.sentDeltaCountSwitchFactor) ∧
    (manager.activeSyncMode = BundleSyncMode.DeltaStateMode →
      handleTransportationSuccess manager = manager) := by
  cases hm : manager.activeSyncMode <;>
    simp [handleTransportationSuccess, hm, switchToDeltaStateMode, DeltaStateBundle.Reset,
      DeltaStateBundle.SyncState]

theorem handleTransportationSuccess_spec_witness :
    ((handleTransportationSuccess sampleManager).activeSyncMode =
        BundleSyncMode.DeltaStateMode ∧
      (handleTransportationSuccess sampleManager).sentDeltaCount = 0 ∧
      (handleTransportationSuccess sampleManager).deltaStateBundle.received =
        [DeltaCall.Reset, DeltaCall.SyncState]) ∧
    handleTransportationSuccess sampleDeltaManager = sampleDeltaManager := by
  have hc := handleTransportationSuccess_spec sampleManager
  have hd := handleTransportationSuccess_spec sampleDeltaManager
  exact ⟨⟨hc.1, (hc.2.1 rfl).1, (hc.2.1 rfl).2.1⟩, hd.2.2 rfl⟩

/-! ## Cycles of the state machine -/

/-- C5, as stated, fails on the newly constructed manager with hybrid mode
enabled and switch factor 3: after 3 consecutive delivery-attempt callbacks the
mode is delta, not complete (the first attempt switches to delta, the next two
count to 2). -/
theorem convergence_from_new_manager_fails :
    sampleProducer.SupportsDeltaBundles = true ∧
    sampleHybridManager.sentDeltaCountSwitchFactor = 3 ∧
    sampleHybridManager.activeSyncMode = BundleSyncMode.CompleteStateMode ∧
    (attempts 3 sampleHybridManager).activeSyncMode ≠ BundleSyncMode.CompleteStateMode ∧
    (attempts 3 sampleHybridManager).sentDeltaCount = 2 := by
  decide

/-- C5 (amended): for switch factor `k ≥ 1`, from every state in delta-state
mode with `sentDeltaCount = 0` (the state right after a switch to delta), `k`
consecutive delivery-attempt callbacks end in complete-state mode; from every
state in complete-state mode `k+1` of them do, the first one switching to
delta.  A delivery-success callback after them ends in delta-state mode. -/
theorem hybrid_mode_convergence (k : Nat) (hk1 : 1 ≤ k) (hk : (k : Int) ≤ maxInt)
    (manager : HybridSyncManager) (hf : manager.sentDeltaCountSwitchFactor = k) :
    (manager.activeSyncMode = BundleSyncMode.DeltaStateMode → manager.sentDeltaCount = 0 →
      (attempts k manager).activeSyncMode = BundleSyncMode.CompleteStateMode ∧
      (handleTransportationSuccess (attempts k manager)).activeSyncMode =
        BundleSyncMode.DeltaStateMode) ∧
    (manager.activeSyncMode = BundleSyncMode.CompleteStateMode →
      (attempts (k + 1) manager).activeSyncMode = BundleSyncMode.CompleteStateMode ∧
      (handleTransportationSuccess (attempts (k + 1) manager)).activeSyncMode =
        BundleSyncMode.DeltaStateMode) := by
  constructor
  · intro hm h0
    exact ⟨(attempts_delta_full k hk1 hk manager hm h0 hf).1, success_mode _⟩
  · intro hm
    obtain ⟨am, ac, ak⟩ := attempt_complete_switch manager hm
    rw [attempts_succ_left]
    exact ⟨(attempts_delta_full k hk1 hk _ am ac (by rw [ak, hf])).1, success_mode _⟩

theorem hybrid_mode_convergence_witness :
    ((attempts 3 (handleTransportationAttempt sampleHybridManager)).activeSyncMode =
        BundleSyncMode.CompleteStateMode ∧
      (handleTransportationSuccess
        (attempts 3 (handleTransportationAttempt sampleHybridManager))).activeSyncMode =
        BundleSyncMode.DeltaStateMode) ∧
    (attempts (3 + 1) sampleHybridManager).activeSyncMode = BundleSyncMode.CompleteStateMode ∧
    (handleTransportationSuccess (attempts (3 + 1) sampleHybridManager)).activeSyncMode =
      BundleSyncMode.DeltaStateMode :=
  ⟨(hybrid_mode_convergence 3 (by decide) (by decide)
      (handleTransportationAttempt sampleHybridManager) rfl).1 rfl rfl,
    (hybrid_mode_convergence 3 (by decide) (by decide) sampleHybridManager rfl).2 rfl⟩

/-- C6: for switch factor `k ≥ 1`, on a newly constructed manager (mode
complete) the first delivery-attempt callback gives mode delta with
`sentDeltaCount = 0`; after `j < k` further attempts the mode is still delta
and `sentDeltaCount = j`; after the `k`-th further attempt `sentDeltaCount = k`
and the mode is complete. -/
theorem hybrid_sync_cycle {W : Type} (k : Nat) (hk1 : 1 ≤ k) (hk : (k : Int) ≤ maxInt)
    (reversed reversed' : Bool) (log : List String) (c d : EntryPtr) (heap heap' : Heap W)
    (transportObj : Producer) (manager : HybridSyncManager)
    (hnew : NewHybridSyncManager reversed log c d heap = ((some manager, none), heap')) :
    (SetHybridModeCallBack reversed' manager k transportObj heap').1.activeSyncMode =
      BundleSyncMode.CompleteStateMode ∧
    (handleTransportationAttempt
      (SetHybridModeCallBack reversed' manager k transportObj heap').1).activeSyncMode =
      BundleSyncMode.DeltaStateMode ∧
    (handleTransportationAttempt
      (SetHybridModeCallBack reversed' manager k transportObj heap').1).sentDeltaCount = 0 ∧
    (∀ j : Nat, j < k →
      (attempts j (handleTransportationAttempt
        (SetHybridModeCallBack reversed' manager k transportObj heap').1)).activeSyncMode =
        BundleSyncMode.DeltaStateMode ∧
      (attempts j (handleTransportationAttempt
        (SetHybridModeCallBack reversed' manager k transportObj heap').1)).sentDeltaCount = j) ∧
    (attempts k (handleTransportationAttempt
      (SetHybridModeCallBack reversed' manager k transportObj heap').1)).sentDeltaCount = k ∧
    (attempts k (handleTransportationAttempt
      (SetHybridModeCallBack reversed' manager k transportObj heap').1)).activeSyncMode =
      BundleSyncMode.CompleteStateMode := by
  obtain ⟨b, _, rfl, _, _⟩ := NewHybridSyncManager_some reversed log c d heap heap' manager none hnew
  rw [SetHybridModeCallBack_manager]
  have hm0 : ({ newManager log c d b with sentDeltaCountSwitchFactor := (k : Int) } :
      HybridSyncManager).activeSyncMode = BundleSyncMode.CompleteStateMode := rfl
  obtain ⟨am, ac, ak⟩ := attempt_complete_switch _ hm0
  have hf : (handleTransportationAttempt
      { newManager log c d b with sentDeltaCountSwitchFactor := (k : Int) }
      ).sentDeltaCountSwitchFactor = k := by rw [ak]
  refine ⟨hm0, am, ac, ?_, ?_, ?_⟩
  · intro j hj
    obtain ⟨jm, jc, _⟩ := attempts_delta_below j _ am (by omega) (by rw [ac, hf]; omega)
      (by rw [hf]; exact hk)
    exact ⟨jm, by rw [jc, ac]; simp⟩
  · exact (attempts_delta_full k hk1 hk _ am ac hf).2.1
  · exact (attempts_delta_full k hk1 hk _ am ac hf).1

theorem hybrid_sync_cycle_witness :
    sampleHybridManager.activeSyncMode = BundleSyncMode.CompleteStateMode ∧
    (handleTransportationAttempt sampleHybridManager).activeSyncMode =
      BundleSyncMode.DeltaStateMode ∧
    (handleTransportationAttempt sampleHybridManager).sentDeltaCount = 0 ∧
    ((attempts 2 (handleTransportationAttempt sampleHybridManager)).activeSyncMode =
        BundleSyncMode.DeltaStateMode ∧
      (attempts 2 (handleTransportationAttempt sampleHybridManager)).sentDeltaCount = 2) ∧
    (attempts 3 (handleTransportationAttempt sampleHybridManager)).sentDeltaCount = 3 ∧
    (attempts 3 (handleTransportationAttempt sampleHybridManager)).activeSyncMode =
      BundleSyncMode.CompleteStateMode := by
  obtain ⟨h0, h1, h2, hj, hk, hm⟩ :=
    hybrid_sync_cycle 3 (by decide) (by decide) false false [] 0 1 sampleHeap
      (appendPredicates false sampleManager sampleHeap) sampleProducer sampleManager rfl
  exact ⟨h0, h1, h2, hj 2 (by decide), hk, hm⟩

/-! ## Gating predicates -/

/-- C7: after construction over two entries (distinct objects `c` and `d`),
for each mode `m` the predicate of the entry registered for `m` returns true
exactly when the active sync mode is `m` and the predicate the entry had before
construction returns true; so the entries registered for two different modes are
never both eligible, and an entry whose mode is not active is not eligible. -/
theorem appendPredicates_gate {W : Type} (reversed : Bool) (log : List String)
    (c d : EntryPtr) (hcd : c ≠ d) (heap heap' : Heap W) (manager : HybridSyncManager)
    (hnew : NewHybridSyncManager reversed log c d heap = ((some manager, none), heap'))
    (activeSyncMode : BundleSyncMode) (w : W) :
    (∀ m p, GetBundleCollectionEntry manager m = some p →
      ((heap' p).predicate activeSyncMode w = true ↔
        activeSyncMode = m ∧ (heap p).predicate activeSyncMode w = true)) ∧
    (∀ m₁ m₂ p₁ p₂, GetBundleCollectionEntry manager m₁ = some p₁ →
      GetBundleCollectionEntry manager m₂ = some p₂ → m₁ ≠ m₂ →
      ¬ ((heap' p₁).predicate activeSyncMode w = true ∧
         (heap' p₂).predicate activeSyncMode w = true)) ∧
    (∀ m p, GetBundleCollectionEntry manager m = some p → m ≠ activeSyncMode →
      (heap' p).predicate activeSyncMode w = false) := by
  obtain ⟨b, _, rfl, _, rfl⟩ := NewHybridSyncManager_some reversed log c d heap heap' _ none hnew
  have hdc : d ≠ c := fun h => hcd h.symm
  have key : ∀ m p, GetBundleCollectionEntry (newManager log c d b) m = some p →
      ((appendPredicates reversed (newManager log c d b) heap p).predicate activeSyncMode w = true ↔
        activeSyncMode = m ∧ (heap p).predicate activeSyncMode w = true) := by
    intro m p hp
    cases m
    · rw [GetBundleCollectionEntry_newManager_complete] at hp
      cases hp
      cases reversed <;>
        simp [appendPredicates, rangeMap, newManager, Function.update, hcd, hdc]
    · rw [GetBundleCollectionEntry_newManager_delta] at hp
      cases hp
      cases reversed <;>
        simp [appendPredicates, rangeMap, newManager, Function.update, hcd, hdc]
  refine ⟨key, ?_, ?_⟩
  · intro m₁ m₂ p₁ p₂ h₁ h₂ hne hboth
    have e₁ := ((key m₁ p₁ h₁).mp hboth.1).1
    have e₂ := ((key m₂ p₂ h₂).mp hboth.2).1
    exact hne (e₁.symm.trans e₂)
  · intro m p hp hne
    cases hv : (appendPredicates reversed (newManager log c d b) heap p).predicate activeSyncMode w
    · rfl
    · exact absurd ((key m p hp).mp hv).1.symm hne

theorem appendPredicates_gate_witness :
    (0 : EntryPtr) ≠ 1 ∧
    (appendPredicates false sampleManager sampleHeap 1).predicate
      BundleSyncMode.DeltaStateMode (true, true) = true ∧
    (appendPredicates false sampleManager sampleHeap 0).predicate
      BundleSyncMode.DeltaStateMode (true, true) = false := by
  obtain ⟨h1, _, h3⟩ := appendPredicates_gate false [] 0 1 (by decide) sampleHeap
    (appendPredicates false sampleManager sampleHeap) sampleManager rfl
    BundleSyncMode.DeltaStateMode (true, true)
  exact ⟨by decide, (h1 BundleSyncMode.DeltaStateMode 1 rfl).mpr ⟨rfl, rfl⟩,
    h3 BundleSyncMode.CompleteStateMode 0 rfl (by decide)⟩

/-! ## Registration of the callbacks -/

/-- C8: on a newly constructed manager `SetHybridModeCallBack k transport`
makes no `Subscribe` call if and only if `k ≤ 0` or the transport does not
support delta bundles.  In that case a transport that holds no subscription
delivers no event to the manager: after every sequence of transport events the
state is unchanged and the mode is complete.  Otherwise it subscribes, for the
transport key of each of the two entries, the delivery-attempt, -success and
-failure handlers, and an event for either key runs the handler of its type.
The switch factor is stored in both cases. -/
theorem SetHybridModeCallBack_spec {W : Type} (reversed reversed' : Bool) (log : List String)
    (c d : EntryPtr) (heap heap' : Heap W) (manager : HybridSyncManager)
    (hnew : NewHybridSyncManager reversed log c d heap = ((some manager, none), heap'))
    (k : Int) (transportObj : Producer) :
    ((SetHybridModeCallBack reversed' manager k transportObj heap').2.subscriptions =
        transportObj.subscriptions ↔
      (k ≤ 0 ∨ transportObj.SupportsDeltaBundles = false)) ∧
    (SetHybridModeCallBack reversed' manager k transportObj heap').1 =
      { manager with sentDeltaCountSwitchFactor := k } ∧
    ((k ≤ 0 ∨ transportObj.SupportsDeltaBundles = false) → transportObj.subscriptions = [] →
      ∀ events : List (EventType × String),
        (SetHybridModeCallBack reversed' manager k transportObj heap').2.invokeCallbacks events
          (SetHybridModeCallBack reversed' manager k transportObj heap').1 =
          (SetHybridModeCallBack reversed' manager k transportObj heap').1 ∧
        ((SetHybridModeCallBack reversed' manager k transportObj heap').2.invokeCallbacks events
          (SetHybridModeCallBack reversed' manager k transportObj heap').1).activeSyncMode =
          BundleSyncMode.CompleteStateMode) ∧
    (0 < k → transportObj.SupportsDeltaBundles = true →
      (SetHybridModeCallBack reversed' manager k transportObj heap').2.subscriptions =
        transportObj.subscriptions ++ rangeMap reversed'
          [((heap' c).transportBundleKey,
              [(EventType.DeliveryAttempt, handleTransportationAttempt),
               (EventType.DeliverySuccess, handleTransportationSuccess),
               (EventType.DeliveryFailure, handleTransportationFailure)]),
           ((heap' d).transportBundleKey,
              [(EventType.DeliveryAttempt, handleTransportationAttempt),
               (EventType.DeliverySuccess, handleTransportationSuccess),
               (EventType.DeliveryFailure, handleTransportationFailure)])] ∧
      ∀ (e : EventType) (current : HybridSyncManager),
        (SetHybridModeCallBack reversed' manager k transportObj heap').2.invokeCallback e
          (heap' c).transportBundleKey current = handlerOf e current ∧
        (SetHybridModeCallBack reversed' manager k transportObj heap').2.invokeCallback e
          (heap' d).transportBundleKey current = handlerOf e current) := by
  obtain ⟨b, _, rfl, _, _⟩ := NewHybridSyncManager_some reversed log c d heap heap' manager none hnew
  have henabled : 0 < k → transportObj.SupportsDeltaBundles = true →
      (SetHybridModeCallBack reversed' (newManager log c d b) k transportObj heap').2.subscriptions =
        transportObj.subscriptions ++ rangeMap reversed'
          [((heap' c).transportBundleKey,
              [(EventType.DeliveryAttempt, handleTransportationAttempt),
               (EventType.DeliverySuccess, handleTransportationSuccess),
               (EventType.DeliveryFailure, handleTransportationFailure)]),
           ((heap' d).transportBundleKey,
              [(EventType.DeliveryAttempt, handleTransportationAttempt),
               (EventType.DeliverySuccess, handleTransportationSuccess),
               (EventType.DeliveryFailure, handleTransportationFailure)])] :=
    fun hk hs => SetHybridModeCallBack_enabled reversed' log c d b k transportObj heap' hk hs
  refine ⟨?_, SetHybridModeCallBack_manager _ _ _ _ _, ?_, ?_⟩
  · by_cases hdis : k ≤ 0 ∨ transportObj.SupportsDeltaBundles = false
    · rw [SetHybridModeCallBack_disabled _ _ _ _ _ hdis]
      simp [hdis]
    · have hk : 0 < k := by
        by_contra hneg
        exact hdis (Or.inl (by omega))
      have hs : transportObj.SupportsDeltaBundles = true := by
        cases hsup : transportObj.SupportsDeltaBundles
        · exact absurd (Or.inr hsup) hdis
        · rfl
      rw [henabled hk hs]
      cases reversed' <;> simp [rangeMap, hdis]
  · intro hdis hempty events
    rw [SetHybridModeCallBack_disabled _ _ _ _ _ hdis]
    rw [invokeCallbacks_no_subscription transportObj hempty events]
    exact ⟨rfl, rfl⟩
  · intro hk hs
    refine ⟨henabled hk hs, ?_⟩
    intro e current
    cases reversed'
    · have h := invokeCallback_latest
        (SetHybridModeCallBack false (newManager log c d b) k transportObj heap').2
        (heap' d).transportBundleKey (heap' c).transportBundleKey e current
        transportObj.subscriptions (henabled hk hs)
      exact ⟨h.2, h.1⟩
    · exact invokeCallback_latest
        (SetHybridModeCallBack true (newManager log c d b) k transportObj heap').2
        (heap' c).transportBundleKey (heap' d).transportBundleKey e current
        transportObj.subscriptions (henabled hk hs)

theorem SetHybridModeCallBack_spec_witness :
    ((SetHybridModeCallBack false sampleManager 0 sampleProducer
        (appendPredicates false sampleManager sampleHeap)).2.subscriptions =
        sampleProducer.subscriptions ∧
      ((SetHybridModeCallBack false sampleManager 0 sampleProducer
          (appendPredicates false sampleManager sampleHeap)).2.invokeCallbacks
          [(EventType.DeliveryAttempt, "hub1.DeltaComplianceStatus")]
          (SetHybridModeCallBack false sampleManager 0 sampleProducer
            (appendPredicates false sampleManager sampleHeap)).1).activeSyncMode =
        BundleSyncMode.CompleteStateMode) ∧
    (SetHybridModeCallBack false sampleManager 3 sampleProducer
        (appendPredicates false sampleManager sampleHeap)).2.invokeCallback
        EventType.DeliveryAttempt
        (appendPredicates false sampleManager sampleHeap 1).transportBundleKey sampleManager =
      handlerOf EventType.DeliveryAttempt sampleManager := by
  obtain ⟨hiff, _, hoff, _⟩ := SetHybridModeCallBack_spec false false [] 0 1 sampleHeap
    (appendPredicates false sampleManager sampleHeap) sampleManager rfl 0 sampleProducer
  obtain ⟨_, _, _, hon⟩ := SetHybridModeCallBack_spec false false [] 0 1 sampleHeap
    (appendPredicates false sampleManager sampleHeap) sampleManager rfl 3 sampleProducer
  exact ⟨⟨hiff.mpr (Or.inl (by decide)),
      (hoff (Or.inl (by decide)) rfl
        [(EventType.DeliveryAttempt, "hub1.DeltaComplianceStatus")]).2⟩,
    ((hon (by decide) rfl).2 EventType.DeliveryAttempt sampleManager).2⟩

/-! ## Construction -/

/-- C9: `NewHybridSyncManager` returns a nil manager with the error
`errExpectingDeltaStateBundle` if and only if the bundle wrapped by the delta
entry does not expose both `Reset` and `SyncState`; when it fails the entries
(their predicates included) are as before the call; otherwise it returns a
manager and a nil error. -/
theorem NewHybridSyncManager_error_iff {W : Type} (reversed : Bool) (log : List String)
    (c d : EntryPtr) (heap : Heap W) :
    ((NewHybridSyncManager reversed log c d heap).1 = (none, some errExpectingDeltaStateBundle) ↔
      ((heap d).bundle.exposesReset && (heap d).bundle.exposesSyncState) = false) ∧
    (((heap d).bundle.exposesReset && (heap d).bundle.exposesSyncState) = false →
      (NewHybridSyncManager reversed log c d heap).2 = heap) ∧
    (((heap d).bundle.exposesReset && (heap d).bundle.exposesSyncState) = true →
      (NewHybridSyncManager reversed log c d heap).1.2 = none ∧
      ∃ manager, (NewHybridSyncManager reversed log c d heap).1.1 = some manager) := by
  cases hb : ((heap d).bundle.exposesReset && (heap d).bundle.exposesSyncState) <;>
    simp [NewHybridSyncManager, Bundle.asDeltaStateBundle, hb]

theorem NewHybridSyncManager_error_iff_witness :
    ((NewHybridSyncManager false [] 1 0 sampleHeap).1 =
        (none, some errExpectingDeltaStateBundle) ∧
      (NewHybridSyncManager false [] 1 0 sampleHeap).2 = sampleHeap) ∧
    (NewHybridSyncManager false [] 0 1 sampleHeap).1.2 = none ∧
    ∃ manager, (NewHybridSyncManager false [] 0 1 sampleHeap).1.1 = some manager := by
  have hbad := NewHybridSyncManager_error_iff false [] 1 0 sampleHeap
  have hgood := NewHybridSyncManager_error_iff false [] 0 1 sampleHeap
  exact ⟨⟨hbad.1.mpr rfl, hbad.2.1 rfl⟩, hgood.2.2 rfl⟩

/-- C10: a successfully constructed manager starts in complete-state mode with
`sentDeltaCount = 0`, and `GetBundleCollectionEntry` returns the entry passed
as complete entry for the complete mode and the entry passed as delta entry for
the delta mode; the transport key and the bundle of every entry are as they
were passed. -/
theorem NewHybridSyncManager_initial {W : Type} (reversed : Bool) (log : List String)
    (c d : EntryPtr) (heap heap' : Heap W) (manager : HybridSyncManager) (err : Option GoError)
    (hnew : NewHybridSyncManager reversed log c d heap = ((some manager, err), heap')) :
    manager.activeSyncMode = BundleSyncMode.CompleteStateMode ∧
    manager.sentDeltaCount = 0 ∧
    GetBundleCollectionEntry manager BundleSyncMode.CompleteStateMode = some c ∧
    GetBundleCollectionEntry manager BundleSyncMode.DeltaStateMode = some d ∧
    (∀ p, (heap' p).transportBundleKey = (heap p).transportBundleKey ∧
      (heap' p).bundle = (heap p).bundle) := by
  obtain ⟨b, _, rfl, _, rfl⟩ := NewHybridSyncManager_some reversed log c d heap heap' _ err hnew
  refine ⟨rfl, rfl, rfl, rfl, ?_⟩
  intro p
  cases reversed <;>
    simp only [appendPredicates, rangeMap, newManager, List.reverse_cons, List.reverse_nil,
      List.nil_append, List.cons_append, List.foldl_cons, List.foldl_nil, Function.update,
      Bool.false_eq_true, if_false, if_true] <;>
    split_ifs <;> simp_all

theorem NewHybridSyncManager_initial_witness :
    sampleManager.activeSyncMode = BundleSyncMode.CompleteStateMode ∧
    sampleManager.sentDeltaCount = 0 ∧
    GetBundleCollectionEntry sampleManager BundleSyncMode.CompleteStateMode = some 0 ∧
    GetBundleCollectionEntry sampleManager BundleSyncMode.DeltaStateMode = some 1 ∧
    (appendPredicates false sampleManager sampleHeap 1).bundle = sampleDeltaBundle := by
  obtain ⟨h1, h2, h3, h4, h5⟩ := NewHybridSyncManager_initial false [] 0 1 sampleHeap
    (appendPredicates false sampleManager sampleHeap) sampleManager none rfl
  exact ⟨h1, h2, h3, h4, (h5 1).2⟩

/-! ## Conflation priorities -/

/-- C11: the seventeen priority constants, in the order ManagedClusters,
ClustersPerPolicy, CompleteComplianceStatus, DeltaComplianceStatus,
MinimalComplianceStatus, HubClusterInfoStatus, ControlInfo, LocalPolicySpec,
LocalClustersPerPolicy, LocalCompleteComplianceStatus, LocalPolicyStatusEvent,
PlacementRule, Placement, PlacementDecision, SubscriptionStatus,
SubscriptionReport, LocalPlacementRulesSpec, are strictly increasing: each is
below every later one.  So they are pairwise distinct, all fit a `uint8`,
ManagedClusters is the least and precedes SubscriptionReport. -/
theorem conflationPriorities_increasing :
    conflationPriorities.length = 17 ∧
    List.Chain' (fun a b => a < b) conflationPriorities ∧
    List.Pairwise (fun a b => a < b) conflationPriorities ∧
    conflationPriorities.Nodup ∧
    conflationPriorities.all (fun p => decide (ManagedClustersPriority ≤ p ∧ p < 2 ^ 8)) = true ∧
    ManagedClustersPriority < SubscriptionReportPriority := by
  have hpair : List.Pairwise (fun a b => a < b) conflationPriorities := by decide
  exact ⟨by decide, hpair.chain', hpair, by decide, by decide, by decide⟩

/-- C12, as stated, fails: `LocalPlacementRulesSpecPriority` belongs to a local
bundle type and is not below `PlacementRulePriority`; it is the largest
constant of the block. -/
theorem local_before_global_fails :
    LocalPlacementRulesSpecPriority ∈ localPriorities ∧
    PlacementRulePriority ∈ globalOnlyPriorities ∧
    ¬ LocalPlacementRulesSpecPriority < PlacementRulePriority := by
  decide

/-- C12 (amended): every priority of a local bundle type declared before the
`enable global resource` part (LocalPolicySpec, LocalClustersPerPolicy,
LocalCompleteComplianceStatus, LocalPolicyStatusEvent) is below every priority
of the global-only extension types (PlacementRule, Placement,
PlacementDecision, SubscriptionStatus, SubscriptionReport), and
LocalPlacementRulesSpec is above all of these. -/
theorem base_local_before_global :
    (∀ l ∈ baseLocalPriorities, ∀ g ∈ globalOnlyPriorities, l < g) ∧
    (∀ g ∈ globalOnlyPriorities, g < LocalPlacementRulesSpecPriority) := by
  decide

theorem base_local_before_global_witness :
    LocalPolicyStatusEventPriority < PlacementRulePriority ∧
    SubscriptionReportPriority < LocalPlacementRulesSpecPriority :=
  ⟨base_local_before_global.1 LocalPolicyStatusEventPriority (by decide)
      PlacementRulePriority (by decide),
    base_local_before_global.2 SubscriptionReportPriority (by decide)⟩

/-! ## Invariant and cycle length of the hybrid sync manager -/

/-- A delivery-attempt callback keeps the counter invariant. -/
theorem CounterInv_attempt (k : Int) (hk1 : 1 ≤ k) (hk : k ≤ maxInt)
    (manager : HybridSyncManager) (h : CounterInv k manager) :
    CounterInv k (handleTransportationAttempt manager) := by
  obtain ⟨hf, h0, hle, hd⟩ := h
  cases hm : manager.activeSyncMode with
  | CompleteStateMode =>
    obtain ⟨am, ac, ak⟩ := attempt_complete_switch manager hm
    exact ⟨by rw [ak, hf], by rw [ac], by rw [ac]; omega, fun _ => by rw [ac]; omega⟩
  | DeltaStateMode =>
    have hlt := hd hm
    by_cases hreach : manager.sentDeltaCount + 1 = manager.sentDeltaCountSwitchFactor
    · obtain ⟨am, ac, ak⟩ := attempt_delta_reach manager hm h0 hreach (by rw [hf]; exact hk)
      refine ⟨by rw [ak, hf], by rw [ac, hf]; omega, by rw [ac, hf], ?_⟩
      intro hdelta
      rw [am] at hdelta
      exact absurd hdelta (by decide)
    · obtain ⟨am, ac, ak⟩ := attempt_delta_below manager hm h0
        (by rw [hf]; rw [hf] at hreach; omega) (by rw [hf]; exact hk)
      refine ⟨by rw [ak, hf], by rw [ac]; omega, by rw [ac]; omega, ?_⟩
      intro _
      rw [ac]
      rw [hf] at hreach
      omega

/-- A delivery-success callback keeps the counter invariant. -/
theorem CounterInv_success (k : Int) (hk1 : 1 ≤ k)
    (manager : HybridSyncManager) (h : CounterInv k manager) :
    CounterInv k (handleTransportationSuccess manager) := by
  obtain ⟨hf, h0, hle, hd⟩ := h
  cases hm : manager.activeSyncMode with
  | CompleteStateMode =>
    have hs : handleTransportationSuccess manager = switchToDeltaStateMode manager := by
      simp [handleTransportationSuccess, hm]
    rw [hs]
    refine ⟨?_, ?_, ?_, ?_⟩
    · simpa [switchToDeltaStateMode] using hf
    · simp [switchToDeltaStateMode]
    · simp only [switchToDeltaStateMode]; omega
    · intro _; simp only [switchToDeltaStateMode]; omega
  | DeltaStateMode =>
    have hs : handleTransportationSuccess manager = manager := by
      simp [handleTransportationSuccess, hm]
    rw [hs]
    exact ⟨hf, h0, hle, hd⟩

/-- A delivery-failure callback keeps the counter invariant. -/
theorem CounterInv_failure (k : Int)
    (manager : HybridSyncManager) (h : CounterInv k manager) :
    CounterInv k (handleTransportationFailure manager) := by
  obtain ⟨hf, h0, hle, hd⟩ := h
  cases hm : manager.activeSyncMode with
  | CompleteStateMode =>
    have hs : handleTransportationFailure manager = manager := by
      simp [handleTransportationFailure, hm]
    rw [hs]
    exact ⟨hf, h0, hle, hd⟩
  | DeltaStateMode =>
    refine ⟨?_, ?_, ?_, ?_⟩
    · simpa [handleTransportationFailure, hm, switchToCompleteStateMode] using hf
    · simpa [handleTransportationFailure, hm, switchToCompleteStateMode] using h0
    · simpa [handleTransportationFailure, hm, switchToCompleteStateMode] using hle
    · intro hdelta
      simp [handleTransportationFailure, hm, switchToCompleteStateMode] at hdelta

/-- Every sequence of callbacks keeps the counter invariant. -/
theorem CounterInv_runCallbacks (k : Int) (hk1 : 1 ≤ k) (hk : k ≤ maxInt)
    (events : List EventType) : ∀ manager : HybridSyncManager,
    CounterInv k manager → CounterInv k (runCallbacks events manager) := by
  induction events with
  | nil => intro manager h; exact h
  | cons e es ih =>
    intro manager h
    have hstep : CounterInv k (handlerOf e manager) := by
      cases e
      · exact CounterInv_attempt k hk1 hk manager h
      · exact CounterInv_success k hk1 manager h
      · exact CounterInv_failure k manager h
    exact ih (handlerOf e manager) hstep

/-- The manager `NewHybridSyncManager` returns, once `SetHybridModeCallBack`
stored switch factor `k ≥ 1`, satisfies the counter invariant and is in
complete-state mode. -/
theorem CounterInv_new {W : Type} (k : Int) (hk1 : 1 ≤ k)
    (reversed reversed' : Bool) (log : List String) (c d : EntryPtr) (heap heap' : Heap W)
    (transportObj : Producer) (manager : HybridSyncManager)
    (hnew : NewHybridSyncManager reversed log c d heap = ((some manager, none), heap')) :
    CounterInv k (SetHybridModeCallBack reversed' manager k transportObj heap').1 ∧
    (SetHybridModeCallBack reversed' manager k transportObj heap').1.activeSyncMode =
      BundleSyncMode.CompleteStateMode := by
  obtain ⟨b, _, rfl, _, _⟩ := NewHybridSyncManager_some reversed log c d heap heap' manager none hnew
  rw [SetHybridModeCallBack_manager]
  refine ⟨⟨rfl, ?_, ?_, ?_⟩, rfl⟩
  · show (0 : Int) ≤ 0
    omega
  · show (0 : Int) ≤ k
    omega
  · intro _
    show (0 : Int) < k
    omega

theorem attempts_add (a b : Nat) (manager : HybridSyncManager) :
    attempts (a + b) manager = attempts b (attempts a manager) := by
  unfold attempts runCallbacks
  rw [List.replicate_add, List.foldl_append]

/-- From complete-state mode, `k+1` delivery attempts for switch factor `k`
come back to complete-state mode. -/
theorem attempts_cycle (k : Nat) (hk1 : 1 ≤ k) (hk : (k : Int) ≤ maxInt)
    (manager : HybridSyncManager)
    (hm : manager.activeSyncMode = BundleSyncMode.CompleteStateMode)
    (hf : manager.sentDeltaCountSwitchFactor = k) :
    (attempts (k + 1) manager).activeSyncMode = BundleSyncMode.CompleteStateMode ∧
    (attempts (k + 1) manager).sentDeltaCountSwitchFactor = k := by
  obtain ⟨am, ac, ak⟩ := attempt_complete_switch manager hm
  rw [attempts_succ_left]
  obtain ⟨fm, _, fk⟩ := attempts_delta_full k hk1 hk _ am ac (by rw [ak, hf])
  exact ⟨fm, fk⟩

/-- From complete-state mode, any number of full cycles of `k+1` delivery
attempts comes back to complete-state mode. -/
theorem attempts_cycles (k : Nat) (hk1 : 1 ≤ k) (hk : (k : Int) ≤ maxInt)
    (manager : HybridSyncManager)
    (hm : manager.activeSyncMode = BundleSyncMode.CompleteStateMode)
    (hf : manager.sentDeltaCountSwitchFactor = k) (q : Nat) :
    (attempts (q * (k + 1)) manager).activeSyncMode = BundleSyncMode.CompleteStateMode ∧
    (attempts (q * (k + 1)) manager).sentDeltaCountSwitchFactor = k := by
  induction q with
  | zero => simpa [attempts_zero] using And.intro hm hf
  | succ q ih =>
    rw [Nat.succ_mul, attempts_add]
    exact attempts_cycle k hk1 hk _ ih.1 ih.2

/-- From complete-state mode, `r` delivery attempts with `1 ≤ r ≤ k` end in
delta-state mode with `r - 1` deltas counted. -/
theorem attempts_within_cycle (k : Nat) (hk : (k : Int) ≤ maxInt)
    (manager : HybridSyncManager)
    (hm : manager.activeSyncMode = BundleSyncMode.CompleteStateMode)
    (hf : manager.sentDeltaCountSwitchFactor = k) (r : Nat) (hr1 : 1 ≤ r) (hrk : r ≤ k) :
    (attempts r manager).activeSyncMode = BundleSyncMode.DeltaStateMode ∧
    (attempts r manager).sentDeltaCount = (r : Int) - 1 := by
  obtain ⟨j, rfl⟩ : ∃ j, r = j + 1 := ⟨r - 1, by omega⟩
  obtain ⟨am, ac, ak⟩ := attempt_complete_switch manager hm
  rw [attempts_succ_left]
  obtain ⟨jm, jc, _⟩ := attempts_delta_below j _ am (by omega)
    (by rw [ac, ak, hf]; omega) (by rw [ak, hf]; exact hk)
  exact ⟨jm, by rw [jc, ac]; push_cast; omega⟩

/-- C19: for switch factor `k ≥ 1`, after every finite sequence of
delivery-attempt, -success and -failure callbacks on a newly constructed
manager, `0 ≤ sentDeltaCount ≤ k`, and `sentDeltaCount < k` whenever the mode
is delta. -/
theorem hybrid_counter_invariant {W : Type} (k : Nat) (hk1 : 1 ≤ k) (hk : (k : Int) ≤ maxInt)
    (reversed reversed' : Bool) (log : List String) (c d : EntryPtr) (heap heap' : Heap W)
    (transportObj : Producer) (manager : HybridSyncManager)
    (hnew : NewHybridSyncManager reversed log c d heap = ((some manager, none), heap'))
    (events : List EventType) :
    0 ≤ (runCallbacks events
      (SetHybridModeCallBack reversed' manager k transportObj heap').1).sentDeltaCount ∧
    (runCallbacks events
      (SetHybridModeCallBack reversed' manager k transportObj heap').1).sentDeltaCount ≤ k ∧
    ((runCallbacks events
      (SetHybridModeCallBack reversed' manager k transportObj heap').1).activeSyncMode =
        BundleSyncMode.DeltaStateMode →
      (runCallbacks events
        (SetHybridModeCallBack reversed' manager k transportObj heap').1).sentDeltaCount < k) := by
  have hk1' : (1 : Int) ≤ k := by exact_mod_cast hk1
  have hinit := (CounterInv_new (k : Int) hk1' reversed reversed' log c d heap heap'
    transportObj manager hnew).1
  exact (CounterInv_runCallbacks (k : Int) hk1' hk events _ hinit).2

theorem hybrid_counter_invariant_witness :
    0 ≤ (runCallbacks
      [EventType.DeliveryAttempt, EventType.DeliveryAttempt, EventType.DeliveryFailure,
       EventType.DeliverySuccess, EventType.DeliveryAttempt]
      sampleHybridManager).sentDeltaCount ∧
    (runCallbacks
      [EventType.DeliveryAttempt, EventType.DeliveryAttempt, EventType.DeliveryFailure,
       EventType.DeliverySuccess, EventType.DeliveryAttempt]
      sampleHybridManager).sentDeltaCount ≤ 3 :=
  ⟨(hybrid_counter_invariant 3 (by decide) (by decide) false false [] 0 1 sampleHeap
      (appendPredicates false sampleManager sampleHeap) sampleProducer sampleManager rfl
      [EventType.DeliveryAttempt, EventType.DeliveryAttempt, EventType.DeliveryFailure,
       EventType.DeliverySuccess, EventType.DeliveryAttempt]).1,
    (hybrid_counter_invariant 3 (by decide) (by decide) false false [] 0 1 sampleHeap
      (appendPredicates false sampleManager sampleHeap) sampleProducer sampleManager rfl
      [EventType.DeliveryAttempt, EventType.DeliveryAttempt, EventType.DeliveryFailure,
       EventType.DeliverySuccess, EventType.DeliveryAttempt]).2.1⟩

/-- C20: for switch factor `k ≥ 1` and every `n`, after `n` delivery-attempt
callbacks (and no other callback) on a newly constructed manager the mode is
complete if and only if `n` is a multiple of `k+1`. -/
theorem attempt_cycle_length {W : Type} (k : Nat) (hk1 : 1 ≤ k) (hk : (k : Int) ≤ maxInt)
    (reversed reversed' : Bool) (log : List String) (c d : EntryPtr) (heap heap' : Heap W)
    (transportObj : Producer) (manager : HybridSyncManager)
    (hnew : NewHybridSyncManager reversed log c d heap = ((some manager, none), heap'))
    (n : Nat) :
    (attempts n (SetHybridModeCallBack reversed' manager k transportObj heap').1).activeSyncMode =
      BundleSyncMode.CompleteStateMode ↔ (k + 1) ∣ n := by
  have hk1' : (1 : Int) ≤ k := by exact_mod_cast hk1
  obtain ⟨hinv, hm0⟩ := CounterInv_new (k : Int) hk1' reversed reversed' log c d heap heap'
    transportObj manager hnew
  have hf0 := hinv.1
  have hn : n = (n / (k + 1)) * (k + 1) + n % (k + 1) := by
    rw [Nat.mul_comm]; exact (Nat.div_add_mod n (k + 1)).symm
  obtain ⟨qm, qf⟩ := attempts_cycles k hk1 hk _ hm0 hf0 (n / (k + 1))
  by_cases hr : n % (k + 1) = 0
  · constructor
    · intro _
      exact Nat.dvd_of_mod_eq_zero hr
    · intro _
      rw [hn, hr, Nat.add_zero]
      exact qm
  · have hrk : n % (k + 1) ≤ k := Nat.le_of_lt_succ (Nat.mod_lt n (Nat.succ_pos k))
    obtain ⟨rm, _⟩ := attempts_within_cycle k hk _ qm qf (n % (k + 1)) (by omega) hrk
    constructor
    · intro hcomplete
      rw [hn, attempts_add, rm] at hcomplete
      exact absurd hcomplete (by decide)
    · intro hdvd
      exact absurd (Nat.mod_eq_zero_of_dvd hdvd) hr

theorem attempt_cycle_length_witness :
    ((attempts 8 sampleHybridManager).activeSyncMode = BundleSyncMode.CompleteStateMode ↔
      (3 + 1) ∣ 8) ∧
    ((attempts 3 sampleHybridManager).activeSyncMode = BundleSyncMode.CompleteStateMode ↔
      (3 + 1) ∣ 3) :=
  ⟨attempt_cycle_length 3 (by decide) (by decide) false false [] 0 1 sampleHeap
      (appendPredicates false sampleManager sampleHeap) sampleProducer sampleManager rfl 8,
    attempt_cycle_length 3 (by decide) (by decide) false false [] 0 1 sampleHeap
      (appendPredicates false sampleManager sampleHeap) sampleProducer sampleManager rfl 3⟩

/-! ## Status syncers of the manager -/

theorem Manager.Add_ok (env : InitEnv) (mgr : Manager) (r : Runnable)
    (h : env.addError r = none) :
    mgr.Add env r = (none, { mgr with runnables := mgr.runnables ++ [r] }) := by
  simp [Manager.Add, h]

theorem Manager.Add_error (env : InitEnv) (mgr : Manager) (r : Runnable) (e : GoError)
    (h : env.addError r = some e) :
    mgr.Add env r = (some e, mgr) := by
  simp [Manager.Add, h]

/-- What `getTransportDispatcher` returns for the Kafka format when every step succeeds. -/
theorem getTransportDispatcher_kafka_ok (KafkaMessageFormat : String) (env : InitEnv)
    (mgr : Manager) (conflationManager : ConflationManager) (managerConfig : ManagerConfig)
    (stats : Statistics)
    (hf : managerConfig.TransportConfig.TransportFormat = KafkaMessageFormat)
    (hnew : env.newKafkaConsumerError = none)
    (hadd : env.addError (Runnable.kafkaConsumer
      (attachedKafkaConsumer conflationManager managerConfig stats)) = none) :
    (getTransportDispatcher KafkaMessageFormat env mgr conflationManager managerConfig stats).1 =
      Except.ok (BundleRegisterable.kafkaConsumer
        (attachedKafkaConsumer conflationManager managerConfig stats)) := by
  unfold attachedKafkaConsumer at hadd
  simp [getTransportDispatcher, hf, hnew, Manager.Add, hadd, attachedKafkaConsumer]

/-- What `getTransportDispatcher` returns for another format when every step succeeds. -/
theorem getTransportDispatcher_generic_ok (KafkaMessageFormat : String) (env : InitEnv)
    (mgr : Manager) (conflationManager : ConflationManager) (managerConfig : ManagerConfig)
    (stats : Statistics)
    (hf : managerConfig.TransportConfig.TransportFormat ≠ KafkaMessageFormat)
    (hnew : env.newGenericConsumerError = none)
    (hadd : env.addError (Runnable.genericConsumer
      { transportConfig := managerConfig.TransportConfig }) = none)
    (hadd' : env.addError (Runnable.transportDispatcher
      (forwardingDispatcher conflationManager managerConfig stats)) = none) :
    (getTransportDispatcher KafkaMessageFormat env mgr conflationManager managerConfig stats).1 =
      Except.ok (BundleRegisterable.transportDispatcher
        (forwardingDispatcher conflationManager managerConfig stats)) := by
  unfold forwardingDispatcher at hadd'
  simp [getTransportDispatcher, hf, hnew, Manager.Add, hadd, hadd', forwardingDispatcher]

/-- A Kafka consumer comes back only for the Kafka format, a transport
dispatcher only for another format, each built as the code builds it. -/
theorem getTransportDispatcher_ok_cases (KafkaMessageFormat : String) (env : InitEnv)
    (mgr : Manager) (conflationManager : ConflationManager) (managerConfig : ManagerConfig)
    (stats : Statistics) (r : BundleRegisterable)
    (h : (getTransportDispatcher KafkaMessageFormat env mgr conflationManager managerConfig
      stats).1 = Except.ok r) :
    (managerConfig.TransportConfig.TransportFormat = KafkaMessageFormat ∧
      r = BundleRegisterable.kafkaConsumer
        (attachedKafkaConsumer conflationManager managerConfig stats)) ∨
    (managerConfig.TransportConfig.TransportFormat ≠ KafkaMessageFormat ∧
      r = BundleRegisterable.transportDispatcher
        (forwardingDispatcher conflationManager managerConfig stats)) := by
  unfold getTransportDispatcher at h
  by_cases hf : managerConfig.TransportConfig.TransportFormat = KafkaMessageFormat
  · left
    refine ⟨hf, ?_⟩
    simp only [hf, if_true] at h
    cases hnew : env.newKafkaConsumerError with
    | some e => simp [hnew] at h
    | none =>
      simp only [hnew, Manager.Add] at h
      split at h
      · simp at h
      · simp only [Except.ok.injEq] at h
        rw [← h]
        rfl
  · right
    refine ⟨hf, ?_⟩
    simp only [hf, if_false] at h
    cases hnew : env.newGenericConsumerError with
    | some e => simp [hnew] at h
    | none =>
      simp only [hnew, Manager.Add] at h
      split at h
      · simp at h
      · split at h
        · simp at h
        · simp only [Except.ok.injEq] at h
          rw [← h]
          rfl

/-- C14, as stated, fails: with `TransportFormat` equal to the Kafka format
string and a Kafka consumer that cannot be built, `getTransportDispatcher`
returns an error and no Kafka consumer. -/
theorem getTransportDispatcher_kafka_not_returned :
    kafkaConfig.TransportConfig.TransportFormat = "kafkaMessage" ∧
    (getTransportDispatcher "kafkaMessage" kafkaDownEnv emptyManager
      (conflationManagerOf kafkaConfig) kafkaConfig (statisticsOf kafkaConfig)).1 =
      Except.error (InitError.Errorf "failed to create kafka-consumer: %w"
        (InitError.reported { msg := "kafka: client has run out of brokers" })) ∧
    ¬ ∃ k, (getTransportDispatcher "kafkaMessage" kafkaDownEnv emptyManager
      (conflationManagerOf kafkaConfig) kafkaConfig (statisticsOf kafkaConfig)).1 =
      Except.ok (BundleRegisterable.kafkaConsumer k) := by
  have h : (getTransportDispatcher "kafkaMessage" kafkaDownEnv emptyManager
      (conflationManagerOf kafkaConfig) kafkaConfig (statisticsOf kafkaConfig)).1 =
      Except.error (InitError.Errorf "failed to create kafka-consumer: %w"
        (InitError.reported { msg := "kafka: client has run out of brokers" })) := rfl
  refine ⟨rfl, h, ?_⟩
  rintro ⟨k, hk⟩
  rw [h] at hk
  cases hk

/-- C14 (amended): `getTransportDispatcher` selects one of two consumer
variants from `TransportFormat`.  It returns the Kafka consumer, with the
conflation manager, a committer over the conflation manager's
`GetBundlesMetadata` and the statistics attached, exactly when the format is
the Kafka format string and building and adding the consumer succeed; it
returns the transport dispatcher that forwards the generic consumer to the
conflation manager exactly when the format is another string and building the
generic consumer and adding it and the dispatcher succeed; it returns nothing
else.  When a step fails it returns no registerable and an error made by
`fmt.Errorf` with `%w` around the error of that step. -/
theorem getTransportDispatcher_selects (KafkaMessageFormat : String) (env : InitEnv)
    (mgr : Manager) (conflationManager : ConflationManager) (managerConfig : ManagerConfig)
    (stats : Statistics) :
    ((getTransportDispatcher KafkaMessageFormat env mgr conflationManager managerConfig stats).1 =
        Except.ok (BundleRegisterable.kafkaConsumer
          (attachedKafkaConsumer conflationManager managerConfig stats)) ↔
      managerConfig.TransportConfig.TransportFormat = KafkaMessageFormat ∧
      env.newKafkaConsumerError = none ∧
      env.addError (Runnable.kafkaConsumer
        (attachedKafkaConsumer conflationManager managerConfig stats)) = none) ∧
    ((getTransportDispatcher KafkaMessageFormat env mgr conflationManager managerConfig stats).1 =
        Except.ok (BundleRegisterable.transportDispatcher
          (forwardingDispatcher conflationManager managerConfig stats)) ↔
      managerConfig.TransportConfig.TransportFormat ≠ KafkaMessageFormat ∧
      env.newGenericConsumerError = none ∧
      env.addError (Runnable.genericConsumer
        { transportConfig := managerConfig.TransportConfig }) = none ∧
      env.addError (Runnable.transportDispatcher
        (forwardingDispatcher conflationManager managerConfig stats)) = none) ∧
    (∀ r, (getTransportDispatcher KafkaMessageFormat env mgr conflationManager managerConfig
        stats).1 = Except.ok r →
      (managerConfig.TransportConfig.TransportFormat = KafkaMessageFormat ∧
        r = BundleRegisterable.kafkaConsumer
          (attachedKafkaConsumer conflationManager managerConfig stats)) ∨
      (managerConfig.TransportConfig.TransportFormat ≠ KafkaMessageFormat ∧
        r = BundleRegisterable.transportDispatcher
          (forwardingDispatcher conflationManager managerConfig stats))) ∧
    (managerConfig.TransportConfig.TransportFormat = KafkaMessageFormat →
      ∀ e, env.newKafkaConsumerError = some e →
      (getTransportDispatcher KafkaMessageFormat env mgr conflationManager managerConfig stats).1 =
        Except.error (InitError.Errorf "failed to create kafka-consumer: %w"
          (InitError.reported e))) ∧
    (managerConfig.TransportConfig.TransportFormat = KafkaMessageFormat →
      env.newKafkaConsumerError = none →
      ∀ e, env.addError (Runnable.kafkaConsumer
        (attachedKafkaConsumer conflationManager managerConfig stats)) = some e →
      (getTransportDispatcher KafkaMessageFormat env mgr conflationManager managerConfig stats).1 =
        Except.error (InitError.Errorf "failed to add status transport bridge: %w"
          (InitError.reported e))) ∧
    (managerConfig.TransportConfig.TransportFormat ≠ KafkaMessageFormat →
      ∀ e, env.newGenericConsumerError = some e →
      (getTransportDispatcher KafkaMessageFormat env mgr conflationManager managerConfig stats).1 =
        Except.error (InitError.Errorf "failed to initialize transport consumer: %w"
          (InitError.reported e))) ∧
    (managerConfig.TransportConfig.TransportFormat ≠ KafkaMessageFormat →
      env.newGenericConsumerError = none →
      ∀ e, env.addError (Runnable.genericConsumer
        { transportConfig := managerConfig.TransportConfig }) = some e →
      (getTransportDispatcher KafkaMessageFormat env mgr conflationManager managerConfig stats).1 =
        Except.error (InitError.Errorf "failed to add transport consumer to manager: %w"
          (InitError.reported e))) ∧
    (managerConfig.TransportConfig.TransportFormat ≠ KafkaMessageFormat →
      env.newGenericConsumerError = none →
      env.addError (Runnable.genericConsumer
        { transportConfig := managerConfig.TransportConfig }) = none →
      ∀ e, env.addError (Runnable.transportDispatcher
        (forwardingDispatcher conflationManager managerConfig stats)) = some e →
      (getTransportDispatcher KafkaMessageFormat env mgr conflationManager managerConfig stats).1 =
        Except.error (InitError.Errorf
          "failed to add transport dispatcher to runtime manager: %w"
          (InitError.reported e))) := by
  refine ⟨⟨?_, ?_⟩, ⟨?_, ?_⟩, ?_, ?_, ?_, ?_, ?_, ?_⟩
  · intro h
    rcases getTransportDispatcher_ok_cases _ _ _ _ _ _ _ h with ⟨hf, _⟩ | ⟨_, hr⟩
    · refine ⟨hf, ?_, ?_⟩
      · cases hnew : env.newKafkaConsumerError with
        | none => rfl
        | some e => simp [getTransportDispatcher, hf, hnew] at h
      · cases hnew : env.newKafkaConsumerError with
        | some e => simp [getTransportDispatcher, hf, hnew] at h
        | none =>
          cases hadd : env.addError (Runnable.kafkaConsumer
            (attachedKafkaConsumer conflationManager managerConfig stats)) with
          | none => rfl
          | some e =>
            unfold attachedKafkaConsumer at hadd
            simp [getTransportDispatcher, hf, hnew, Manager.Add, hadd] at h
    · cases hr
  · rintro ⟨hf, hnew, hadd⟩
    exact getTransportDispatcher_kafka_ok _ _ _ _ _ _ hf hnew hadd
  · intro h
    rcases getTransportDispatcher_ok_cases _ _ _ _ _ _ _ h with ⟨_, hr⟩ | ⟨hf, _⟩
    · cases hr
    · refine ⟨hf, ?_⟩
      cases hnew : env.newGenericConsumerError with
      | some e => simp [getTransportDispatcher, hf, hnew] at h
      | none =>
        cases hadd : env.addError (Runnable.genericConsumer
          { transportConfig := managerConfig.TransportConfig }) with
        | some e => simp [getTransportDispatcher, hf, hnew, Manager.Add, hadd] at h
        | none =>
          cases hadd' : env.addError (Runnable.transportDispatcher
            (forwardingDispatcher conflationManager managerConfig stats)) with
          | none => exact ⟨rfl, rfl, rfl⟩
          | some e =>
            unfold forwardingDispatcher at hadd'
            simp [getTransportDispatcher, hf, hnew, Manager.Add, hadd, hadd'] at h
  · rintro ⟨hf, hnew, hadd, hadd'⟩
    exact getTransportDispatcher_generic_ok _ _ _ _ _ _ hf hnew hadd hadd'
  · intro r h
    exact getTransportDispatcher_ok_cases _ _ _ _ _ _ _ h
  · intro hf e hnew
    simp [getTransportDispatcher, hf, hnew]
  · intro hf hnew e hadd
    unfold attachedKafkaConsumer at hadd
    simp [getTransportDispatcher, hf, hnew, Manager.Add, hadd]
  · intro hf e hnew
    simp [getTransportDispatcher, hf, hnew]
  · intro hf hnew e hadd
    simp [getTransportDispatcher, hf, hnew, Manager.Add, hadd]
  · intro hf hnew hadd e hadd'
    unfold forwardingDispatcher at hadd'
    simp [getTransportDispatcher, hf, hnew, Manager.Add, hadd, hadd']

theorem getTransportDispatcher_selects_witness :
    (getTransportDispatcher "kafkaMessage" okEnv emptyManager
      (conflationManagerOf kafkaConfig) kafkaConfig (statisticsOf kafkaConfig)).1 =
      Except.ok (BundleRegisterable.kafkaConsumer
        (attachedKafkaConsumer (conflationManagerOf kafkaConfig) kafkaConfig
          (statisticsOf kafkaConfig))) ∧
    (getTransportDispatcher "kafkaMessage" okEnv emptyManager
      (conflationManagerOf cloudeventsConfig) cloudeventsConfig
      (statisticsOf cloudeventsConfig)).1 =
      Except.ok (BundleRegisterable.transportDispatcher
        (forwardingDispatcher (conflationManagerOf cloudeventsConfig) cloudeventsConfig
          (statisticsOf cloudeventsConfig))) ∧
    (getTransportDispatcher "kafkaMessage" kafkaDownEnv emptyManager
      (conflationManagerOf kafkaConfig) kafkaConfig (statisticsOf kafkaConfig)).1 =
      Except.error (InitError.Errorf "failed to create kafka-consumer: %w"
        (InitError.reported { msg := "kafka: client has run out of brokers" })) :=
  ⟨(getTransportDispatcher_selects "kafkaMessage" okEnv emptyManager
      (conflationManagerOf kafkaConfig) kafkaConfig (statisticsOf kafkaConfig)).1.mpr
      ⟨rfl, rfl, rfl⟩,
    (getTransportDispatcher_selects "kafkaMessage" okEnv emptyManager
      (conflationManagerOf cloudeventsConfig) cloudeventsConfig
      (statisticsOf cloudeventsConfig)).2.1.mpr ⟨by decide, rfl, rfl, rfl⟩,
    (getTransportDispatcher_selects "kafkaMessage" kafkaDownEnv emptyManager
      (conflationManagerOf kafkaConfig) kafkaConfig (statisticsOf kafkaConfig)).2.2.2.1 rfl
      { msg := "kafka: client has run out of brokers" } rfl⟩

/-- When no step fails `getTransportDispatcher` returns `registerableOf`. -/
theorem getTransportDispatcher_ok (KafkaMessageFormat : String) (env : InitEnv)
    (mgr : Manager) (managerConfig : ManagerConfig)
    (hadd : ∀ r, env.addError r = none)
    (hkafka : env.newKafkaConsumerError = none)
    (hgeneric : env.newGenericConsumerError = none) :
    (getTransportDispatcher KafkaMessageFormat env mgr (conflationManagerOf managerConfig)
      managerConfig (statisticsOf managerConfig)).1 =
      Except.ok (registerableOf KafkaMessageFormat managerConfig) := by
  unfold registerableOf
  by_cases hf : managerConfig.TransportConfig.TransportFormat = KafkaMessageFormat
  · rw [if_pos hf]
    exact getTransportDispatcher_kafka_ok _ _ _ _ _ _ hf hkafka (hadd _)
  · rw [if_neg hf]
    exact getTransportDispatcher_generic_ok _ _ _ _ _ _ hf hgeneric (hadd _) (hadd _)

/-- What `AddStatusSyncers` returns and registers when no step fails. -/
theorem AddStatusSyncers_ok (KafkaMessageFormat : String) (env : InitEnv)
    (mgr : Manager) (managerConfig : ManagerConfig)
    (hadd : ∀ r, env.addError r = none)
    (hpool : env.newDBWorkerPoolError = none)
    (hkafka : env.newKafkaConsumerError = none)
    (hgeneric : env.newGenericConsumerError = none) :
    (AddStatusSyncers KafkaMessageFormat env mgr managerConfig).result =
      Except.ok (registerableOf KafkaMessageFormat managerConfig) ∧
    (AddStatusSyncers KafkaMessageFormat env mgr managerConfig).registrations =
      registrationsOf
        (if managerConfig.EnableGlobalResource then baseDBSyncers ++ globalResourceDBSyncers
          else baseDBSyncers)
        (registerableOf KafkaMessageFormat managerConfig)
        (conflationManagerOf managerConfig) := by
  have hgt := fun mgr' => getTransportDispatcher_ok KafkaMessageFormat env mgr' managerConfig
    hadd hkafka hgeneric
  simp only [conflationManagerOf, statisticsOf] at hgt
  unfold AddStatusSyncers addStatisticController
  simp only [Manager.Add_ok _ _ _ (hadd _), hpool]
  cases hres : getTransportDispatcher KafkaMessageFormat env
      { runnables := (mgr.runnables ++
          [Runnable.statistics { bundleTypes := statisticsBundleTypes managerConfig }]) ++
          [Runnable.dbWorkerPool] }
      { readyQueue := { stats := { bundleTypes := statisticsBundleTypes managerConfig } }
        stats := { bundleTypes := statisticsBundleTypes managerConfig } }
      managerConfig { bundleTypes := statisticsBundleTypes managerConfig } with
  | mk res mgr3 =>
    have h1 := hgt { runnables := (mgr.runnables ++
          [Runnable.statistics { bundleTypes := statisticsBundleTypes managerConfig }]) ++
          [Runnable.dbWorkerPool] }
    rw [hres] at h1
    simp only at h1
    subst h1
    simp only [Manager.Add_ok _ _ _ (hadd _)]
    exact ⟨trivial, rfl⟩

/-- C13: when every initialisation step succeeds, `AddStatusSyncers` returns
the transport dispatcher and registers exactly the six base DB syncers (hub
heartbeat, hub info, managed clusters, compliances, local policy spec, local
policy event) when `EnableGlobalResource` is false, and those six followed by
the six global-resource syncers (placement rules, placements, placement
decisions, subscription statuses, subscription reports, local spec placement
rule) when it is true: for each syncer in turn one call of
`RegisterCreateBundleFunctions` with the transport dispatcher and one call of
`RegisterBundleHandlerFunctions` with the conflation manager, no call twice,
and no call on a placement, subscription or placement-rule syncer when the flag
is false. -/
theorem AddStatusSyncers_registers (KafkaMessageFormat : String) (env : InitEnv)
    (mgr : Manager) (managerConfig : ManagerConfig)
    (hadd : ∀ r, env.addError r = none)
    (hpool : env.newDBWorkerPoolError = none)
    (hkafka : env.newKafkaConsumerError = none)
    (hgeneric : env.newGenericConsumerError = none) :
    (AddStatusSyncers KafkaMessageFormat env mgr managerConfig).result =
      Except.ok (registerableOf KafkaMessageFormat managerConfig) ∧
    (managerConfig.EnableGlobalResource = false →
      (AddStatusSyncers KafkaMessageFormat env mgr managerConfig).registrations =
        [Registration.RegisterCreateBundleFunctions
           (DBSyncer.NewHubClusterHeartbeatDBSyncer "hub-heartbeat-syncer")
           (registerableOf KafkaMessageFormat managerConfig),
         Registration.RegisterBundleHandlerFunctions
           (DBSyncer.NewHubClusterHeartbeatDBSyncer "hub-heartbeat-syncer")
           (conflationManagerOf managerConfig),
         Registration.RegisterCreateBundleFunctions
           (DBSyncer.NewHubClusterInfoDBSyncer "hub-info-syncer")
           (registerableOf KafkaMessageFormat managerConfig),
         Registration.RegisterBundleHandlerFunctions
           (DBSyncer.NewHubClusterInfoDBSyncer "hub-info-syncer")
           (conflationManagerOf managerConfig),
         Registration.RegisterCreateBundleFunctions
           (DBSyncer.NewManagedClustersDBSyncer "managed-cluster-syncer")
           (registerableOf KafkaMessageFormat managerConfig),
         Registration.RegisterBundleHandlerFunctions
           (DBSyncer.NewManagedClustersDBSyncer "managed-cluster-syncer")
           (conflationManagerOf managerConfig),
         Registration.RegisterCreateBundleFunctions
           (DBSyncer.NewCompliancesDBSyncer "compliances-syncer")
           (registerableOf KafkaMessageFormat managerConfig),
         Registration.RegisterBundleHandlerFunctions
           (DBSyncer.NewCompliancesDBSyncer "compliances-syncer")
           (conflationManagerOf managerConfig),
         Registration.RegisterCreateBundleFunctions
           (DBSyncer.NewLocalPolicySpecSyncer "local-policy-spec-syncer")
           (registerableOf KafkaMessageFormat managerConfig),
         Registration.RegisterBundleHandlerFunctions
           (DBSyncer.NewLocalPolicySpecSyncer "local-policy-spec-syncer")
           (conflationManagerOf managerConfig),
         Registration.RegisterCreateBundleFunctions
           (DBSyncer.NewLocalPolicyEventSyncer "local-policy-event-syncer")
           (registerableOf KafkaMessageFormat managerConfig),
         Registration.RegisterBundleHandlerFunctions
           (DBSyncer.NewLocalPolicyEventSyncer "local-policy-event-syncer")
           (conflationManagerOf managerConfig)]) ∧
    (managerConfig.EnableGlobalResource = true →
      (AddStatusSyncers KafkaMessageFormat env mgr managerConfig).registrations =
        [Registration.RegisterCreateBundleFunctions
           (DBSyncer.NewHubClusterHeartbeatDBSyncer "hub-heartbeat-syncer")
           (registerableOf KafkaMessageFormat managerConfig),
         Registration.RegisterBundleHandlerFunctions
           (DBSyncer.NewHubClusterHeartbeatDBSyncer "hub-heartbeat-syncer")
           (conflationManagerOf managerConfig),
         Registration.RegisterCreateBundleFunctions
           (DBSyncer.NewHubClusterInfoDBSyncer "hub-info-syncer")
           (registerableOf KafkaMessageFormat managerConfig),
         Registration.RegisterBundleHandlerFunctions
           (DBSyncer.NewHubClusterInfoDBSyncer "hub-info-syncer")
           (conflationManagerOf managerConfig),
         Registration.RegisterCreateBundleFunctions
           (DBSyncer.NewManagedClustersDBSyncer "managed-cluster-syncer")
           (registerableOf KafkaMessageFormat managerConfig),
         Registration.RegisterBundleHandlerFunctions
           (DBSyncer.NewManagedClustersDBSyncer "managed-cluster-syncer")
           (conflationManagerOf managerConfig),
         Registration.RegisterCreateBundleFunctions
           (DBSyncer.NewCompliancesDBSyncer "compliances-syncer")
           (registerableOf KafkaMessageFormat managerConfig),
         Registration.RegisterBundleHandlerFunctions
           (DBSyncer.NewCompliancesDBSyncer "compliances-syncer")
           (conflationManagerOf managerConfig),
         Registration.RegisterCreateBundleFunctions
           (DBSyncer.NewLocalPolicySpecSyncer "local-policy-spec-syncer")
           (registerableOf KafkaMessageFormat managerConfig),
         Registration.RegisterBundleHandlerFunctions
           (DBSyncer.NewLocalPolicySpecSyncer "local-policy-spec-syncer")
           (conflationManagerOf managerConfig),
         Registration.RegisterCreateBundleFunctions
           (DBSyncer.NewLocalPolicyEventSyncer "local-policy-event-syncer")
           (registerableOf KafkaMessageFormat managerConfig),
         Registration.RegisterBundleHandlerFunctions
           (DBSyncer.NewLocalPolicyEventSyncer "local-policy-event-syncer")
           (conflationManagerOf managerConfig),
         Registration.RegisterCreateBundleFunctions
           (DBSyncer.NewPlacementRulesDBSyncer "placement-rules-db-syncer")
           (registerableOf KafkaMessageFormat managerConfig),
         Registration.RegisterBundleHandlerFunctions
           (DBSyncer.NewPlacementRulesDBSyncer "placement-rules-db-syncer")
           (conflationManagerOf managerConfig),
         Registration.RegisterCreateBundleFunctions
           (DBSyncer.NewPlacementsDBSyncer "placements-db-syncer")
           (registerableOf KafkaMessageFormat managerConfig),
         Registration.RegisterBundleHandlerFunctions
           (DBSyncer.NewPlacementsDBSyncer "placements-db-syncer")
           (conflationManagerOf managerConfig),
         Registration.RegisterCreateBundleFunctions
           (DBSyncer.NewPlacementDecisionsDBSyncer "placement-decisions-db-syncer")
           (registerableOf KafkaMessageFormat managerConfig),
         Registration.RegisterBundleHandlerFunctions
           (DBSyncer.NewPlacementDecisionsDBSyncer "placement-decisions-db-syncer")
           (conflationManagerOf managerConfig),
         Registration.RegisterCreateBundleFunctions
           (DBSyncer.NewSubscriptionStatusesDBSyncer "subscription-statuses-db-syncer")
           (registerableOf KafkaMessageFormat managerConfig),
         Registration.RegisterBundleHandlerFunctions
           (DBSyncer.NewSubscriptionStatusesDBSyncer "subscription-statuses-db-syncer")
           (conflationManagerOf managerConfig),
         Registration.RegisterCreateBundleFunctions
           (DBSyncer.NewSubscriptionReportsDBSyncer "subscription-reports-db-syncer")
           (registerableOf KafkaMessageFormat managerConfig),
         Registration.RegisterBundleHandlerFunctions
           (DBSyncer.NewSubscriptionReportsDBSyncer "subscription-reports-db-syncer")
           (conflationManagerOf managerConfig),
         Registration.RegisterCreateBundleFunctions
           (DBSyncer.NewLocalSpecPlacementruleSyncer "local-spec-placementrule-syncer")
           (registerableOf KafkaMessageFormat managerConfig),
         Registration.RegisterBundleHandlerFunctions
           (DBSyncer.NewLocalSpecPlacementruleSyncer "local-spec-placementrule-syncer")
           (conflationManagerOf managerConfig)]) ∧
    (AddStatusSyncers KafkaMessageFormat env mgr managerConfig).registrations.Nodup ∧
    (managerConfig.EnableGlobalResource = false →
      ∀ r ∈ (AddStatusSyncers KafkaMessageFormat env mgr managerConfig).registrations,
        r.syncer.isGlobalResource = false) := by
  obtain ⟨hres, hreg⟩ := AddStatusSyncers_ok KafkaMessageFormat env mgr managerConfig
    hadd hpool hkafka hgeneric
  refine ⟨hres, ?_, ?_, ?_, ?_⟩
  · intro hflag
    rw [hreg, hflag]
    rfl
  · intro hflag
    rw [hreg, hflag]
    rfl
  · rw [hreg]
    cases managerConfig.EnableGlobalResource <;>
      simp [registrationsOf, baseDBSyncers, globalResourceDBSyncers]
  · intro hflag r hr
    rw [hreg, hflag] at hr
    simp [registrationsOf, baseDBSyncers] at hr
    rcases hr with h | h | h | h | h | h | h | h | h | h | h | h <;>
      subst h <;> rfl

theorem AddStatusSyncers_registers_witness :
    (AddStatusSyncers "kafkaMessage" okEnv emptyManager kafkaConfig).registrations =
      [Registration.RegisterCreateBundleFunctions
         (DBSyncer.NewHubClusterHeartbeatDBSyncer "hub-heartbeat-syncer")
         (registerableOf "kafkaMessage" kafkaConfig),
       Registration.RegisterBundleHandlerFunctions
         (DBSyncer.NewHubClusterHeartbeatDBSyncer "hub-heartbeat-syncer")
         (conflationManagerOf kafkaConfig),
       Registration.RegisterCreateBundleFunctions
         (DBSyncer.NewHubClusterInfoDBSyncer "hub-info-syncer")
         (registerableOf "kafkaMessage" kafkaConfig),
       Registration.RegisterBundleHandlerFunctions
         (DBSyncer.NewHubClusterInfoDBSyncer "hub-info-syncer")
         (conflationManagerOf kafkaConfig),
       Registration.RegisterCreateBundleFunctions
         (DBSyncer.NewManagedClustersDBSyncer "managed-cluster-syncer")
         (registerableOf "kafkaMessage" kafkaConfig),
       Registration.RegisterBundleHandlerFunctions
         (DBSyncer.NewManagedClustersDBSyncer "managed-cluster-syncer")
         (conflationManagerOf kafkaConfig),
       Registration.RegisterCreateBundleFunctions
         (DBSyncer.NewCompliancesDBSyncer "compliances-syncer")
         (registerableOf "kafkaMessage" kafkaConfig),
       Registration.RegisterBundleHandlerFunctions
         (DBSyncer.NewCompliancesDBSyncer "compliances-syncer")
         (conflationManagerOf kafkaConfig),
       Registration.RegisterCreateBundleFunctions
         (DBSyncer.NewLocalPolicySpecSyncer "local-policy-spec-syncer")
         (registerableOf "kafkaMessage" kafkaConfig),
       Registration.RegisterBundleHandlerFunctions
         (DBSyncer.NewLocalPolicySpecSyncer "local-policy-spec-syncer")
         (conflationManagerOf kafkaConfig),
       Registration.RegisterCreateBundleFunctions
         (DBSyncer.NewLocalPolicyEventSyncer "local-policy-event-syncer")
         (registerableOf "kafkaMessage" kafkaConfig),
       Registration.RegisterBundleHandlerFunctions
         (DBSyncer.NewLocalPolicyEventSyncer "local-policy-event-syncer")
         (conflationManagerOf kafkaConfig)] ∧
    (AddStatusSyncers "kafkaMessage" okEnv emptyManager cloudeventsConfig).registrations =
      [Registration.RegisterCreateBundleFunctions
         (DBSyncer.NewHubClusterHeartbeatDBSyncer "hub-heartbeat-syncer")
         (registerableOf "kafkaMessage" cloudeventsConfig),
       Registration.RegisterBundleHandlerFunctions
         (DBSyncer.NewHubClusterHeartbeatDBSyncer "hub-heartbeat-syncer")
         (conflationManagerOf cloudeventsConfig),
       Registration.RegisterCreateBundleFunctions
         (DBSyncer.NewHubClusterInfoDBSyncer "hub-info-syncer")
         (registerableOf "kafkaMessage" cloudeventsConfig),
       Registration.RegisterBundleHandlerFunctions
         (DBSyncer.NewHubClusterInfoDBSyncer "hub-info-syncer")
         (conflationManagerOf cloudeventsConfig),
       Registration.RegisterCreateBundleFunctions
         (DBSyncer.NewManagedClustersDBSyncer "managed-cluster-syncer")
         (registerableOf "kafkaMessage" cloudeventsConfig),
       Registration.RegisterBundleHandlerFunctions
         (DBSyncer.NewManagedClustersDBSyncer "managed-cluster-syncer")
         (conflationManagerOf cloudeventsConfig),
       Registration.RegisterCreateBundleFunctions
         (DBSyncer.NewCompliancesDBSyncer "compliances-syncer")
         (registerableOf "kafkaMessage" cloudeventsConfig),
       Registration.RegisterBundleHandlerFunctions
         (DBSyncer.NewCompliancesDBSyncer "compliances-syncer")
         (conflationManagerOf cloudeventsConfig),
       Registration.RegisterCreateBundleFunctions
         (DBSyncer.NewLocalPolicySpecSyncer "local-policy-spec-syncer")
         (registerableOf "kafkaMessage" cloudeventsConfig),
       Registration.RegisterBundleHandlerFunctions
         (DBSyncer.NewLocalPolicySpecSyncer "local-policy-spec-syncer")
         (conflationManagerOf cloudeventsConfig),
       Registration.RegisterCreateBundleFunctions
         (DBSyncer.NewLocalPolicyEventSyncer "local-policy-event-syncer")
         (registerableOf "kafkaMessage" cloudeventsConfig),
       Registration.RegisterBundleHandlerFunctions
         (DBSyncer.NewLocalPolicyEventSyncer "local-policy-event-syncer")
         (conflationManagerOf cloudeventsConfig),
       Registration.RegisterCreateBundleFunctions
         (DBSyncer.NewPlacementRulesDBSyncer "placement-rules-db-syncer")
         (registerableOf "kafkaMessage" cloudeventsConfig),
       Registration.RegisterBundleHandlerFunctions
         (DBSyncer.NewPlacementRulesDBSyncer "placement-rules-db-syncer")
         (conflationManagerOf cloudeventsConfig),
       Registration.RegisterCreateBundleFunctions
         (DBSyncer.NewPlacementsDBSyncer "placements-db-syncer")
         (registerableOf "kafkaMessage" cloudeventsConfig),
       Registration.RegisterBundleHandlerFunctions
         (DBSyncer.NewPlacementsDBSyncer "placements-db-syncer")
         (conflationManagerOf cloudeventsConfig),
       Registration.RegisterCreateBundleFunctions
         (DBSyncer.NewPlacementDecisionsDBSyncer "placement-decisions-db-syncer")
         (registerableOf "kafkaMessage" cloudeventsConfig),
       Registration.RegisterBundleHandlerFunctions
         (DBSyncer.NewPlacementDecisionsDBSyncer "placement-decisions-db-syncer")
         (conflationManagerOf cloudeventsConfig),
       Registration.RegisterCreateBundleFunctions
         (DBSyncer.NewSubscriptionStatusesDBSyncer "subscription-statuses-db-syncer")
         (registerableOf "kafkaMessage" cloudeventsConfig),
       Registration.RegisterBundleHandlerFunctions
         (DBSyncer.NewSubscriptionStatusesDBSyncer "subscription-statuses-db-syncer")
         (conflationManagerOf cloudeventsConfig),
       Registration.RegisterCreateBundleFunctions
         (DBSyncer.NewSubscriptionReportsDBSyncer "subscription-reports-db-syncer")
         (registerableOf "kafkaMessage" cloudeventsConfig),
       Registration.RegisterBundleHandlerFunctions
         (DBSyncer.NewSubscriptionReportsDBSyncer "subscription-reports-db-syncer")
         (conflationManagerOf cloudeventsConfig),
       Registration.RegisterCreateBundleFunctions
         (DBSyncer.NewLocalSpecPlacementruleSyncer "local-spec-placementrule-syncer")
         (registerableOf "kafkaMessage" cloudeventsConfig),
       Registration.RegisterBundleHandlerFunctions
         (DBSyncer.NewLocalSpecPlacementruleSyncer "local-spec-placementrule-syncer")
         (conflationManagerOf cloudeventsConfig)] :=
  ⟨(AddStatusSyncers_registers "kafkaMessage" okEnv emptyManager kafkaConfig
      (fun _ => rfl) rfl rfl rfl).2.1 rfl,
    (AddStatusSyncers_registers "kafkaMessage" okEnv emptyManager cloudeventsConfig
      (fun _ => rfl) rfl rfl rfl).2.2.1 rfl⟩

/-- An error wraps the error it was built around by `fmt.Errorf`. -/
theorem InitError.wraps_Errorf (format : String) (err cause : InitError)
    (h : err.wraps cause) : (InitError.Errorf format err).wraps cause := by
  unfold InitError.wraps at *
  simp [InitError.chain, h]

/-- Every error wraps itself. -/
theorem InitError.wraps_self (err : InitError) : err.wraps err := by
  unfold InitError.wraps
  cases err <;> simp [InitError.chain]

/-- `AddStatusSyncers` either returns an error and has registered nothing, or
returns a registerable. -/
theorem AddStatusSyncers_cases (KafkaMessageFormat : String) (env : InitEnv)
    (mgr : Manager) (managerConfig : ManagerConfig) :
    (∃ err, (AddStatusSyncers KafkaMessageFormat env mgr managerConfig).result =
        Except.error err ∧
      (AddStatusSyncers KafkaMessageFormat env mgr managerConfig).registrations = []) ∨
    (∃ td, (AddStatusSyncers KafkaMessageFormat env mgr managerConfig).result =
      Except.ok td) := by
  unfold AddStatusSyncers
  split
  · exact Or.inl ⟨_, rfl, rfl⟩
  · dsimp only
    split
    · exact Or.inl ⟨_, rfl, rfl⟩
    · split
      · exact Or.inl ⟨_, rfl, rfl⟩
      · split
        · exact Or.inl ⟨_, rfl, rfl⟩
        · split
          · exact Or.inl ⟨_, rfl, rfl⟩
          · exact Or.inr ⟨_, rfl⟩

/-- C18: when adding the statistics controller, building or adding the DB
worker pool, building the transport dispatcher, or adding the conflation
dispatcher fails, `AddStatusSyncers` returns an error (and no registerable)
that wraps the cause; and whenever it returns an error it has made no
registration call on any DB syncer. -/
theorem AddStatusSyncers_failure (KafkaMessageFormat : String) (env : InitEnv)
    (mgr : Manager) (managerConfig : ManagerConfig) :
    (∀ err, (AddStatusSyncers KafkaMessageFormat env mgr managerConfig).result =
        Except.error err →
      (AddStatusSyncers KafkaMessageFormat env mgr managerConfig).registrations = []) ∧
    (∀ e, env.addError (Runnable.statistics (statisticsOf managerConfig)) = some e →
      ∃ err, (AddStatusSyncers KafkaMessageFormat env mgr managerConfig).result =
          Except.error err ∧ err.wraps (InitError.reported e)) ∧
    (env.addError (Runnable.statistics (statisticsOf managerConfig)) = none →
      ∀ e, env.newDBWorkerPoolError = some e →
      ∃ err, (AddStatusSyncers KafkaMessageFormat env mgr managerConfig).result =
          Except.error err ∧ err.wraps (InitError.reported e)) ∧
    (env.addError (Runnable.statistics (statisticsOf managerConfig)) = none →
      env.newDBWorkerPoolError = none →
      ∀ e, env.addError Runnable.dbWorkerPool = some e →
      ∃ err, (AddStatusSyncers KafkaMessageFormat env mgr managerConfig).result =
          Except.error err ∧ err.wraps (InitError.reported e)) ∧
    (env.addError (Runnable.statistics (statisticsOf managerConfig)) = none →
      env.newDBWorkerPoolError = none →
      env.addError Runnable.dbWorkerPool = none →
      ∀ cause, (getTransportDispatcher KafkaMessageFormat env
          (managerWithPool mgr managerConfig) (conflationManagerOf managerConfig)
          managerConfig (statisticsOf managerConfig)).1 = Except.error cause →
      ∃ err, (AddStatusSyncers KafkaMessageFormat env mgr managerConfig).result =
          Except.error err ∧ err.wraps cause) ∧
    (env.addError (Runnable.statistics (statisticsOf managerConfig)) = none →
      env.newDBWorkerPoolError = none →
      env.addError Runnable.dbWorkerPool = none →
      ∀ td, (getTransportDispatcher KafkaMessageFormat env
          (managerWithPool mgr managerConfig) (conflationManagerOf managerConfig)
          managerConfig (statisticsOf managerConfig)).1 = Except.ok td →
      ∀ e, env.addError (Runnable.conflationDispatcher "conflation-dispatcher"
          (conflationManagerOf managerConfig).readyQueue) = some e →
      ∃ err, (AddStatusSyncers KafkaMessageFormat env mgr managerConfig).result =
          Except.error err ∧ err.wraps (InitError.reported e)) := by
  refine ⟨?_, ?_, ?_, ?_, ?_, ?_⟩
  · intro err herr
    rcases AddStatusSyncers_cases KafkaMessageFormat env mgr managerConfig with
      ⟨_, _, hreg⟩ | ⟨td, htd⟩
    · exact hreg
    · rw [htd] at herr
      cases herr
  · intro e he
    unfold statisticsOf at he
    refine ⟨InitError.Errorf "failed to add statistics to manager - %w"
      (InitError.Errorf "failed to add statistics to manager - %w" (InitError.reported e)), ?_,
      InitError.wraps_Errorf _ _ _ (InitError.wraps_Errorf _ _ _ (InitError.wraps_self _))⟩
    simp [AddStatusSyncers, addStatisticController, Manager.Add, he]
  · intro hs e he
    unfold statisticsOf at hs
    refine ⟨InitError.Errorf "failed to initialize DBWorkerPool: %w" (InitError.reported e), ?_,
      InitError.wraps_Errorf _ _ _ (InitError.wraps_self _)⟩
    simp [AddStatusSyncers, addStatisticController, Manager.Add, hs, he]
  · intro hs hp e he
    unfold statisticsOf at hs
    refine ⟨InitError.Errorf "failed to add DB worker pool: %w" (InitError.reported e), ?_,
      InitError.wraps_Errorf _ _ _ (InitError.wraps_self _)⟩
    simp [AddStatusSyncers, addStatisticController, Manager.Add, hs, hp, he]
  · intro hs hp ha cause hcause
    unfold statisticsOf at hs
    simp only [managerWithPool, conflationManagerOf, statisticsOf] at hcause
    refine ⟨InitError.Errorf "failed to get transport dispatcher: %w" cause, ?_,
      InitError.wraps_Errorf _ _ _ (InitError.wraps_self _)⟩
    simp only [AddStatusSyncers, addStatisticController, Manager.Add, hs, hp, ha]
    split
    · rename_i heq
      rw [heq] at hcause
      simp only [Except.error.injEq] at hcause
      rw [hcause]
    · rename_i heq
      rw [heq] at hcause
      cases hcause
  · intro hs hp ha td htd e he
    unfold statisticsOf at hs
    simp only [managerWithPool, conflationManagerOf, statisticsOf] at htd he
    refine ⟨InitError.Errorf "failed to add conflation dispatcher to runtime manager: %w"
      (InitError.reported e), ?_, InitError.wraps_Errorf _ _ _ (InitError.wraps_self _)⟩
    simp only [AddStatusSyncers, addStatisticController, Manager.Add, hs, hp, ha]
    split
    · rename_i heq
      rw [heq] at htd
      cases htd
    · simp only [he]

theorem AddStatusSyncers_failure_witness :
    (∃ err, (AddStatusSyncers "kafkaMessage" kafkaDownEnv emptyManager kafkaConfig).result =
        Except.error err ∧
      err.wraps (InitError.Errorf "failed to create kafka-consumer: %w"
        (InitError.reported { msg := "kafka: client has run out of brokers" }))) ∧
    (AddStatusSyncers "kafkaMessage" kafkaDownEnv emptyManager kafkaConfig).registrations = [] := by
  obtain ⟨hreg, _, _, _, htd, _⟩ :=
    AddStatusSyncers_failure "kafkaMessage" kafkaDownEnv emptyManager kafkaConfig
  obtain ⟨err, herr, hwraps⟩ := htd rfl rfl rfl
    (InitError.Errorf "failed to create kafka-consumer: %w"
      (InitError.reported { msg := "kafka: client has run out of brokers" })) rfl
  exact ⟨⟨err, herr, hwraps⟩, hreg err herr⟩

/-! ## The resource deployer of the operator -/

/-- `Deploy` when the lookup reports NotFound. -/
theorem Deploy_notFound (lib : Library) (client : Client) (unsObj : Unstructured)
    (err : DeployError)
    (hget : client.Get unsObj.GroupVersionKind (unsObj.GetNamespace, unsObj.GetName) =
      Except.error err)
    (hnf : IsNotFound err = true) :
    (Deploy lib client unsObj).calls =
      [ClientCall.Get unsObj.GroupVersionKind (unsObj.GetNamespace, unsObj.GetName),
       ClientCall.Create unsObj] ∧
    (Deploy lib client unsObj).outcome = Outcome.returned (client.Create unsObj) := by
  simp [Deploy, hget, hnf]

/-- `Deploy` when the lookup fails with another error. -/
theorem Deploy_getError (lib : Library) (client : Client) (unsObj : Unstructured)
    (err : DeployError)
    (hget : client.Get unsObj.GroupVersionKind (unsObj.GetNamespace, unsObj.GetName) =
      Except.error err)
    (hnf : IsNotFound err = false) :
    (Deploy lib client unsObj).calls =
      [ClientCall.Get unsObj.GroupVersionKind (unsObj.GetNamespace, unsObj.GetName)] ∧
    (Deploy lib client unsObj).outcome = Outcome.returned (some err) := by
  simp [Deploy, hget, hnf]

/-- `Deploy` when the object exists and the annotation check says skip. -/
theorem Deploy_skip (lib : Library) (client : Client) (unsObj foundObj : Unstructured)
    (hget : client.Get unsObj.GroupVersionKind (unsObj.GetNamespace, unsObj.GetName) =
      Except.ok foundObj)
    (hskip : skipCreationIfExist unsObj = SkipCheck.skip) :
    (Deploy lib client unsObj).calls =
      [ClientCall.Get unsObj.GroupVersionKind (unsObj.GetNamespace, unsObj.GetName)] ∧
    (Deploy lib client unsObj).outcome = Outcome.returned none := by
  simp [Deploy, hget, hskip]

/-- C15: `Deploy` is an upsert.  When the lookup of the object reports
NotFound it makes exactly one `Create` call, of the desired object, no
`Update` call, and returns what `Create` returns; when the lookup fails with
another error it returns that error and makes neither a `Create` nor an
`Update` call. -/
theorem Deploy_upsert (lib : Library) (client : Client) (unsObj : Unstructured)
    (err : DeployError)
    (hget : client.Get unsObj.GroupVersionKind (unsObj.GetNamespace, unsObj.GetName) =
      Except.error err) :
    (IsNotFound err = true →
      (Deploy lib client unsObj).calls =
        [ClientCall.Get unsObj.GroupVersionKind (unsObj.GetNamespace, unsObj.GetName),
         ClientCall.Create unsObj] ∧
      (Deploy lib client unsObj).outcome = Outcome.returned (client.Create unsObj)) ∧
    (IsNotFound err = false →
      (Deploy lib client unsObj).calls =
        [ClientCall.Get unsObj.GroupVersionKind (unsObj.GetNamespace, unsObj.GetName)] ∧
      (Deploy lib client unsObj).outcome = Outcome.returned (some err) ∧
      (Deploy lib client unsObj).calls.filter ClientCall.isWrite = []) := by
  refine ⟨Deploy_notFound lib client unsObj err hget, ?_⟩
  intro hnf
  obtain ⟨hc, ho⟩ := Deploy_getError lib client unsObj err hget hnf
  refine ⟨hc, ho, ?_⟩
  rw [hc]
  rfl

theorem Deploy_upsert_witness :
    ((Deploy sampleLibrary emptyClient desiredServiceAccount).calls =
        [ClientCall.Get ("v1", "ServiceAccount") ("hub", "hub-operator"),
         ClientCall.Create desiredServiceAccount] ∧
      (Deploy sampleLibrary emptyClient desiredServiceAccount).outcome =
        Outcome.returned none) ∧
    (Deploy sampleLibrary brokenClient desiredServiceAccount).calls =
      [ClientCall.Get ("v1", "ServiceAccount") ("hub", "hub-operator")] ∧
    (Deploy sampleLibrary brokenClient desiredServiceAccount).outcome =
      Outcome.returned (some { reason := "InternalError", message := "etcd unavailable" }) :=
  ⟨(Deploy_upsert sampleLibrary emptyClient desiredServiceAccount
      { reason := "NotFound", message := "not found" } rfl).1 rfl,
    ((Deploy_upsert sampleLibrary brokenClient desiredServiceAccount
      { reason := "InternalError", message := "etcd unavailable" } rfl).2 rfl).1,
    ((Deploy_upsert sampleLibrary brokenClient desiredServiceAccount
      { reason := "InternalError", message := "etcd unavailable" } rfl).2 rfl).2.1⟩

/-- C17: when the object exists and the manifest carries the annotation
`skip-creation-if-exist` with a string that is "true" in some letter case,
`Deploy` returns nil and makes no `Create` and no `Update` call, whatever the
existing object is; when the lookup reports NotFound the annotation plays no
part and the object is created. -/
theorem Deploy_skip_creation_if_exist (lib : Library) (client : Client)
    (unsObj : Unstructured) :
    (∀ (foundObj : Unstructured) (metadata annotations : List (String × Value)) (s : String),
      client.Get unsObj.GroupVersionKind (unsObj.GetNamespace, unsObj.GetName) =
        Except.ok foundObj →
      unsObj.Object.lookup "metadata" = some (Value.object metadata) →
      metadata.lookup "annotations" = some (Value.object annotations) →
      annotations.lookup "skip-creation-if-exist" = some (Value.string s) →
      ToLower s = "true" →
      (Deploy lib client unsObj).calls =
        [ClientCall.Get unsObj.GroupVersionKind (unsObj.GetNamespace, unsObj.GetName)] ∧
      (Deploy lib client unsObj).outcome = Outcome.returned none) ∧
    (∀ err : DeployError,
      client.Get unsObj.GroupVersionKind (unsObj.GetNamespace, unsObj.GetName) =
        Except.error err →
      IsNotFound err = true →
      (Deploy lib client unsObj).calls =
        [ClientCall.Get unsObj.GroupVersionKind (unsObj.GetNamespace, unsObj.GetName),
         ClientCall.Create unsObj] ∧
      (Deploy lib client unsObj).outcome = Outcome.returned (client.Create unsObj)) := by
  constructor
  · intro foundObj metadata annotations s hget hm ha hs hlow
    apply Deploy_skip lib client unsObj foundObj hget
    simp [skipCreationIfExist, Value.get, hm, ha, hs, hlow]
  · intro err hget hnf
    exact Deploy_notFound lib client unsObj err hget hnf

theorem Deploy_skip_creation_if_exist_witness :
    ToLower "True" = "true" ∧
    ((Deploy sampleLibrary sampleClient skippedServiceAccount).calls =
        [ClientCall.Get ("v1", "ServiceAccount") ("hub", "hub-operator")] ∧
      (Deploy sampleLibrary sampleClient skippedServiceAccount).outcome =
        Outcome.returned none) ∧
    (Deploy sampleLibrary emptyClient skippedServiceAccount).calls =
      [ClientCall.Get ("v1", "ServiceAccount") ("hub", "hub-operator"),
       ClientCall.Create skippedServiceAccount] :=
  ⟨by decide,
    (Deploy_skip_creation_if_exist sampleLibrary sampleClient skippedServiceAccount).1
      existingServiceAccount
      [("name", Value.string "hub-operator"), ("namespace", Value.string "hub"),
       ("annotations", Value.object [("skip-creation-if-exist", Value.string "True")])]
      [("skip-creation-if-exist", Value.string "True")] "True" rfl rfl rfl rfl (by decide),
    ((Deploy_skip_creation_if_exist sampleLibrary emptyClient skippedServiceAccount).2
      { reason := "NotFound", message := "not found" } rfl rfl).1⟩

/-- C16, as stated, fails, in two ways.  The service account manifest differs
from the existing object only in `secrets`, so every field the claim names
(spec, data, rules, subjects, roleRef, labels, annotations) is a derivative of
the existing one, and yet `Deploy` makes an `Update` call:
`deployServiceAccount` compares `secrets` and `imagePullSecrets` as well.  And
the namespace manifest, of a kind without a deploy function of its own, is the
object the cluster holds, so the whole object is a derivative of the existing
one, and yet `Deploy` does not return nil: the annotation
`skip-creation-if-exist` holds a boolean and the type assertion panics. -/
theorem Deploy_idempotent_as_stated_fails :
    (sampleClient.Get desiredServiceAccount.GroupVersionKind
        (desiredServiceAccount.GetNamespace, desiredServiceAccount.GetName) =
        Except.ok existingServiceAccount ∧
      existingServiceAccount.GetKind ∈ dedicatedKinds ∧
      claimedComparedFields.all (fun path =>
        sampleLibrary.DeepDerivative
          ((Value.object desiredServiceAccount.Object).getPath path)
          ((Value.object existingServiceAccount.Object).getPath path)) = true ∧
      (Deploy sampleLibrary sampleClient desiredServiceAccount).calls =
        [ClientCall.Get ("v1", "ServiceAccount") ("hub", "hub-operator"),
         ClientCall.Update (Value.object desiredServiceAccount.Object)] ∧
      ((Deploy sampleLibrary sampleClient desiredServiceAccount).calls.filter
        ClientCall.isWrite).length = 1) ∧
    (namespaceClient.Get boolAnnotatedNamespace.GroupVersionKind
        (boolAnnotatedNamespace.GetNamespace, boolAnnotatedNamespace.GetName) =
        Except.ok boolAnnotatedNamespace ∧
      boolAnnotatedNamespace.GetKind ∉ dedicatedKinds ∧
      sampleLibrary.DeepDerivative (Value.object boolAnnotatedNamespace.Object)
        (Value.object boolAnnotatedNamespace.Object) = true ∧
      (Value.object boolAnnotatedNamespace.Object).getPath
        ["metadata", "annotations", "skip-creation-if-exist"] = Value.bool true ∧
      (Deploy sampleLibrary namespaceClient boolAnnotatedNamespace).outcome =
        Outcome.panicked "interface conversion: interface {} is not string" ∧
      (Deploy sampleLibrary namespaceClient boolAnnotatedNamespace).outcome ≠
        Outcome.returned none) := by
  refine ⟨⟨rfl, by decide, by decide, rfl, by decide⟩,
    ⟨rfl, by decide, by decide, rfl, by decide, by decide⟩⟩

/-- The deploy function of a dedicated kind returns nil without a client call
when both objects decode and every pair it compares is a derivative. -/
theorem deployFuncs_unchanged (lib : Library) (client : Client)
    (unsObj foundObj : Unstructured) (kind : String) (hk : kind ∈ dedicatedKinds)
    (desired existing : Value)
    (hexisting : lib.decode kind foundObj = Except.ok existing)
    (hdesired : lib.decode kind unsObj = Except.ok desired)
    (hpairs : ∀ p ∈ comparedPairs kind desired existing, lib.DeepDerivative p.1 p.2 = true) :
    ∃ deployFunction, deployFuncs lib client kind = some deployFunction ∧
      deployFunction unsObj foundObj = returnNil := by
  simp only [dedicatedKinds, List.mem_cons, List.mem_singleton, List.not_mem_nil, or_false]
    at hk
  rcases hk with h | h | h | h | h | h | h | h | h | h <;> subst h <;>
    simp [comparedPairs] at hpairs <;>
    simp [deployFuncs, deployDeployment, deployStatefulSet, deployService, deployServiceAccount,
      deployConfigMap, deploySecret, deployRole, deployRoleBinding, deployClusterRole,
      deployClusterRoleBinding, decodeBoth, hexisting, hdesired, hpairs]

/-- A kind outside the ten dedicated kinds has no deploy function. -/
theorem deployFuncs_none (lib : Library) (client : Client) (kind : String)
    (hk : kind ∉ dedicatedKinds) : deployFuncs lib client kind = none := by
  simp only [dedicatedKinds, List.mem_cons, List.mem_singleton, List.not_mem_nil, or_false,
    not_or] at hk
  obtain ⟨h1, h2, h3, h4, h5, h6, h7, h8, h9, h10⟩ := hk
  simp [deployFuncs, h1, h2, h3, h4, h5, h6, h7, h8, h9, h10]

/-- The annotation check of `Deploy` does not panic when the annotation
`skip-creation-if-exist` is absent or a string. -/
theorem skipCreationIfExist_of_string (unsObj : Unstructured)
    (hann : (Value.object unsObj.Object).getPath
        ["metadata", "annotations", "skip-creation-if-exist"] = Value.null ∨
      ∃ str, (Value.object unsObj.Object).getPath
        ["metadata", "annotations", "skip-creation-if-exist"] = Value.string str) :
    skipCreationIfExist unsObj ≠ SkipCheck.panicked := by
  unfold skipCreationIfExist
  simp only [Value.getPath] at hann
  generalize (Value.object unsObj.Object).get "metadata" = m at hann
  cases m with
  | object metadata =>
    simp only
    generalize (Value.object metadata).get "annotations" = a at hann
    cases a with
    | object annotations =>
      simp only
      rcases hann with hnull | ⟨str, hstr⟩
      · rw [hnull]
        simp
      · rw [hstr]
        simp only
        split <;> simp
    | _ => simp
  | _ => simp

/-- `Deploy` makes the lookup and nothing else, and returns nil, when the object
exists, the annotation check does not panic, and nothing it compares differs. -/
theorem Deploy_unchanged (lib : Library) (client : Client) (unsObj foundObj : Unstructured)
    (hget : client.Get unsObj.GroupVersionKind (unsObj.GetNamespace, unsObj.GetName) =
      Except.ok foundObj)
    (hann : skipCreationIfExist unsObj ≠ SkipCheck.panicked)
    (hderiv :
      (foundObj.GetKind ∈ dedicatedKinds ∧
        ∃ desired existing : Value,
          lib.decode foundObj.GetKind foundObj = Except.ok existing ∧
          lib.decode foundObj.GetKind unsObj = Except.ok desired ∧
          ∀ p ∈ comparedPairs foundObj.GetKind desired existing,
            lib.DeepDerivative p.1 p.2 = true) ∨
      (foundObj.GetKind ∉ dedicatedKinds ∧
        lib.DeepDerivative (Value.object unsObj.Object) (Value.object foundObj.Object) =
          true)) :
    (Deploy lib client unsObj).calls =
      [ClientCall.Get unsObj.GroupVersionKind (unsObj.GetNamespace, unsObj.GetName)] ∧
    (Deploy lib client unsObj).outcome = Outcome.returned none := by
  cases hcheck : skipCreationIfExist unsObj with
  | panicked => exact absurd hcheck hann
  | skip => exact Deploy_skip lib client unsObj foundObj hget hcheck
  | proceed =>
    rcases hderiv with ⟨hk, desired, existing, hexisting, hdesired, hpairs⟩ | ⟨hk, hwhole⟩
    · obtain ⟨deployFunction, hfun, hnil⟩ := deployFuncs_unchanged lib client unsObj foundObj
        foundObj.GetKind hk desired existing hexisting hdesired hpairs
      simp [Deploy, hget, hcheck, hfun, hnil, returnNil]
    · simp [Deploy, hget, hcheck, deployFuncs_none lib client foundObj.GetKind hk, hwhole]

/-- C16 (amended): `Deploy` is idempotent.  For a desired object that exists in
the cluster (state `s`), whose `skip-creation-if-exist` annotation, if present,
is a string, and whose compared fields are a `DeepDerivative` of the existing
object's (the whole object for a kind without a deploy function of its own; for
the ten dedicated kinds, on the typed objects the two decode into: spec for
Deployment, StatefulSet and Service; secrets and imagePullSecrets for
ServiceAccount; data for ConfigMap; stringData against the existing data, and
data, for Secret; rules for Role; rules and aggregationRule for ClusterRole;
subjects and roleRef for RoleBinding and ClusterRoleBinding; labels and
annotations for all ten), `Deploy` makes the lookup and no `Create` and no
`Update` call and returns nil.  So the deployment leaves the cluster as it is,
and deploying the same manifest twice against the cluster, which nothing else
changes, writes nothing the second time.  The same holds for the second of two
deployments whose first one, whatever it wrote, left the cluster in such a
state `s`. -/
theorem Deploy_idempotent {σ : Type} (lib : Library) (cluster : Cluster σ) (s : σ)
    (unsObj foundObj : Unstructured)
    (hget : (cluster.client s).Get unsObj.GroupVersionKind
      (unsObj.GetNamespace, unsObj.GetName) = Except.ok foundObj)
    (hann : (Value.object unsObj.Object).getPath
        ["metadata", "annotations", "skip-creation-if-exist"] = Value.null ∨
      ∃ str, (Value.object unsObj.Object).getPath
        ["metadata", "annotations", "skip-creation-if-exist"] = Value.string str)
    (hderiv :
      (foundObj.GetKind ∈ dedicatedKinds ∧
        ∃ desired existing : Value,
          lib.decode foundObj.GetKind foundObj = Except.ok existing ∧
          lib.decode foundObj.GetKind unsObj = Except.ok desired ∧
          ∀ p ∈ comparedPairs foundObj.GetKind desired existing,
            lib.DeepDerivative p.1 p.2 = true) ∨
      (foundObj.GetKind ∉ dedicatedKinds ∧
        lib.DeepDerivative (Value.object unsObj.Object) (Value.object foundObj.Object) =
          true)) :
    (Deploy lib (cluster.client s) unsObj).calls =
      [ClientCall.Get unsObj.GroupVersionKind (unsObj.GetNamespace, unsObj.GetName)] ∧
    (Deploy lib (cluster.client s) unsObj).outcome = Outcome.returned none ∧
    cluster.after s (Deploy lib (cluster.client s) unsObj).calls = s ∧
    (deployTwice lib cluster s unsObj).2.calls =
      [ClientCall.Get unsObj.GroupVersionKind (unsObj.GetNamespace, unsObj.GetName)] ∧
    (deployTwice lib cluster s unsObj).2.outcome = Outcome.returned none ∧
    (∀ s0 : σ, cluster.after s0 (Deploy lib (cluster.client s0) unsObj).calls = s →
      (deployTwice lib cluster s0 unsObj).2.calls =
        [ClientCall.Get unsObj.GroupVersionKind (unsObj.GetNamespace, unsObj.GetName)] ∧
      (deployTwice lib cluster s0 unsObj).2.outcome = Outcome.returned none) := by
  have hone := Deploy_unchanged lib (cluster.client s) unsObj foundObj hget
    (skipCreationIfExist_of_string unsObj hann) hderiv
  have hafter : cluster.after s (Deploy lib (cluster.client s) unsObj).calls = s := by
    rw [hone.1]
    rfl
  refine ⟨hone.1, hone.2, hafter, ?_, ?_, ?_⟩
  · simp only [deployTwice]
    rw [hafter]
    exact hone.1
  · simp only [deployTwice]
    rw [hafter]
    exact hone.2
  · intro s0 h0
    simp only [deployTwice]
    rw [h0]
    exact hone

theorem Deploy_idempotent_witness :
    ((deployTwice sampleLibrary storingCluster (some existingServiceAccount)
        existingServiceAccount).1.calls =
        [ClientCall.Get ("v1", "ServiceAccount") ("hub", "hub-operator")] ∧
      (deployTwice sampleLibrary storingCluster (some existingServiceAccount)
        existingServiceAccount).2.calls =
        [ClientCall.Get ("v1", "ServiceAccount") ("hub", "hub-operator")] ∧
      (deployTwice sampleLibrary storingCluster (some existingServiceAccount)
        existingServiceAccount).2.outcome = Outcome.returned none) ∧
    ((deployTwice sampleLibrary storingCluster none desiredServiceAccount).1.calls =
        [ClientCall.Get ("v1", "ServiceAccount") ("hub", "hub-operator"),
         ClientCall.Create desiredServiceAccount] ∧
      (deployTwice sampleLibrary storingCluster none desiredServiceAccount).2.calls =
        [ClientCall.Get ("v1", "ServiceAccount") ("hub", "hub-operator")] ∧
      (deployTwice sampleLibrary storingCluster none desiredServiceAccount).2.outcome =
        Outcome.returned none) :=
  ⟨⟨(Deploy_idempotent sampleLibrary storingCluster (some existingServiceAccount)
        existingServiceAccount existingServiceAccount rfl (Or.inl rfl)
        (Or.inl ⟨by decide, Value.object existingServiceAccount.Object,
          Value.object existingServiceAccount.Object, rfl, rfl, by decide⟩)).1,
      (Deploy_idempotent sampleLibrary storingCluster (some existingServiceAccount)
        existingServiceAccount existingServiceAccount rfl (Or.inl rfl)
        (Or.inl ⟨by decide, Value.object existingServiceAccount.Object,
          Value.object existingServiceAccount.Object, rfl, rfl, by decide⟩)).2.2.2.1,
      (Deploy_idempotent sampleLibrary storingCluster (some existingServiceAccount)
        existingServiceAccount existingServiceAccount rfl (Or.inl rfl)
        (Or.inl ⟨by decide, Value.object existingServiceAccount.Object,
          Value.object existingServiceAccount.Object, rfl, rfl, by decide⟩)).2.2.2.2.1⟩,
    ⟨rfl,
      ((Deploy_idempotent sampleLibrary storingCluster (some desiredServiceAccount)
        desiredServiceAccount desiredServiceAccount rfl (Or.inl rfl)
        (Or.inl ⟨by decide, Value.object desiredServiceAccount.Object,
          Value.object desiredServiceAccount.Object, rfl, rfl, by decide⟩)).2.2.2.2.2
        none rfl).1,
      ((Deploy_idempotent sampleLibrary storingCluster (some desiredServiceAccount)
        desiredServiceAccount desiredServiceAccount rfl (Or.inl rfl)
        (Or.inl ⟨by decide, Value.object desiredServiceAccount.Object,
          Value.object desiredServiceAccount.Object, rfl, rfl, by decide⟩)).2.2.2.2.2
        none rfl).2⟩⟩

/-! ## The hub cluster claim of the agent -/

/-- The result of `getMCH` in terms of what exists; it writes nothing. -/
theorem getMCH_found (client : HubClient) (namespacedName : NamespacedName) :
    (getMCH client namespacedName).1 =
      (match foundMultiClusterHub client namespacedName with
        | Found.object mch => (some mch, none)
        | Found.nothing => (none, none)
        | Found.failed err => (none, some err)) ∧
    writeCalls (getMCH client namespacedName).2 = [] := by
  unfold getMCH foundMultiClusterHub
  by_cases hn : namespacedName.Name = "" ∨ namespacedName.Namespace = ""
  · simp only [hn, if_true]
    unfold listMCH
    cases hl : client.ListMultiClusterHub with
    | error err =>
      cases hnf : err.isNotFound <;> cases hnm : err.isNoMatch <;>
        simp [foundOrNoMatch, lookupError, errorsIsNotFound, metaIsNoMatchError, hnf, hnm,
          writeCalls, HubCall.isWrite]
    | ok items =>
      cases items <;>
        simp [foundOrNoMatch, lookupError, errorsIsNotFound, metaIsNoMatchError, writeCalls,
          HubCall.isWrite]
  · simp only [hn, if_false]
    cases hg : client.GetMultiClusterHub namespacedName with
    | error err =>
      cases hnf : err.isNotFound <;> cases hnm : err.isNoMatch <;>
        simp [foundOrNoMatch, lookupError, errorsIsNotFound, metaIsNoMatchError, hnf, hnm,
          writeCalls, HubCall.isWrite]
    | ok mch =>
      simp [foundOrNoMatch, lookupError, errorsIsNotFound, metaIsNoMatchError, writeCalls,
          HubCall.isWrite]

/-- The result of `getClusterManager` in terms of what exists; it writes nothing. -/
theorem getClusterManager_found (client : HubClient) :
    (getClusterManager client).1 =
      (match foundClusterManager client with
        | Found.object clusterManager => (some clusterManager, none)
        | Found.nothing => (none, none)
        | Found.failed err => (none, some err)) ∧
    writeCalls (getClusterManager client).2 = [] := by
  unfold getClusterManager foundClusterManager
  cases hg : client.GetClusterManager { Namespace := "", Name := "cluster-manager" } with
  | error err =>
    cases hnf : err.isNotFound <;> cases hnm : err.isNoMatch <;>
      simp [foundOrNoMatch, lookupError, errorsIsNotFound, metaIsNoMatchError, hg, hnf, hnm,
        writeCalls, HubCall.isWrite]
  | ok clusterManager =>
    simp [foundOrNoMatch, lookupError, errorsIsNotFound, metaIsNoMatchError, hg, writeCalls,
      HubCall.isWrite]

/-- The result and the write calls of `updateClusterClaim` in terms of what
exists as cluster claim: an Update of the claim found with the value set, a
Create of a new claim with the two labels when nothing is found, and no write
when the lookup fails. -/
theorem updateClusterClaim_found (c : Constants) (client : HubClient) (name value : String) :
    (updateClusterClaim c client name value).1 =
      (match foundClusterClaim client name with
        | Found.object claim => client.Update { claim with Value := value }
        | Found.nothing =>
          client.Create
            { Name := name
              Labels := [("velero.io/exclude-from-backup", "true"),
                (c.GlobalHubOwnerLabelKey, c.GHAgentOwnerLabelValue)]
              Value := value }
        | Found.failed err => some err) ∧
    writeCalls (updateClusterClaim c client name value).2 =
      (match foundClusterClaim client name with
        | Found.object claim => [HubCall.Update { claim with Value := value }]
        | Found.nothing =>
          [HubCall.Create
            { Name := name
              Labels := [("velero.io/exclude-from-backup", "true"),
                (c.GlobalHubOwnerLabelKey, c.GHAgentOwnerLabelValue)]
              Value := value }]
        | Found.failed _ => []) := by
  unfold updateClusterClaim getClusterClaim foundClusterClaim
  cases hg : client.GetClusterClaim name with
  | error err =>
    cases hnf : err.isNotFound <;>
      simp [lookupError, errorsIsNotFound, hnf, writeCalls, HubCall.isWrite, newClusterClaim]
  | ok claim =>
    simp [lookupError, errorsIsNotFound, writeCalls, HubCall.isWrite]

theorem writeCalls_append (xs ys : List HubCall) :
    writeCalls (xs ++ ys) = writeCalls xs ++ writeCalls ys := by
  simp [writeCalls]

/-- `updateHubClusterClaim` when a MultiClusterHub exists. -/
theorem updateHubClusterClaim_hub (c : Constants) (client : HubClient)
    (namespacedName : NamespacedName) (mch : MultiClusterHub)
    (h : foundMultiClusterHub client namespacedName = Found.object mch) :
    (updateHubClusterClaim c client namespacedName).1 =
      (some mch, (updateClusterClaim c client c.HubClusterClaimName
        (hubValueFor c (some mch) none)).1.map HubClaimError.passed) ∧
    writeCalls (updateHubClusterClaim c client namespacedName).2 =
      writeCalls (updateClusterClaim c client c.HubClusterClaimName
        (hubValueFor c (some mch) none)).2 := by
  obtain ⟨hres, hw⟩ := getMCH_found client namespacedName
  rw [h] at hres
  rcases hg : getMCH client namespacedName with ⟨⟨m, e⟩, calls⟩
  rw [hg] at hres hw
  simp only [Prod.mk.injEq] at hres
  obtain ⟨rfl, rfl⟩ := hres
  simp only at hw
  unfold updateHubClusterClaim
  rw [hg]
  simp only [writeCalls_append, hw, List.nil_append, hubValueFor]
  exact ⟨trivial, trivial⟩

/-- `updateHubClusterClaim` when the lookup of the MultiClusterHub fails. -/
theorem updateHubClusterClaim_hubFailed (c : Constants) (client : HubClient)
    (namespacedName : NamespacedName) (err : ClusterError)
    (h : foundMultiClusterHub client namespacedName = Found.failed err) :
    (updateHubClusterClaim c client namespacedName).1 =
      (none, some (HubClaimError.Errorf "failed to get MCH instance. err = %v" err)) ∧
    writeCalls (updateHubClusterClaim c client namespacedName).2 = [] := by
  obtain ⟨hres, hw⟩ := getMCH_found client namespacedName
  rw [h] at hres
  rcases hg : getMCH client namespacedName with ⟨⟨m, e⟩, calls⟩
  rw [hg] at hres hw
  simp only [Prod.mk.injEq] at hres
  obtain ⟨rfl, rfl⟩ := hres
  simp only at hw
  unfold updateHubClusterClaim
  rw [hg]
  exact ⟨rfl, hw⟩

/-- `updateHubClusterClaim` when no MultiClusterHub exists and the lookup of
the ClusterManager answers: `clusterManager` is what it finds. -/
theorem updateHubClusterClaim_noHub (c : Constants) (client : HubClient)
    (namespacedName : NamespacedName) (clusterManager : Option ClusterManager)
    (h : foundMultiClusterHub client namespacedName = Found.nothing)
    (hcm : foundClusterManager client =
      (match clusterManager with
        | some cm => Found.object cm
        | none => Found.nothing)) :
    (updateHubClusterClaim c client namespacedName).1 =
      (none, (updateClusterClaim c client c.HubClusterClaimName
        (hubValueFor c none clusterManager)).1.map HubClaimError.passed) ∧
    writeCalls (updateHubClusterClaim c client namespacedName).2 =
      writeCalls (updateClusterClaim c client c.HubClusterClaimName
        (hubValueFor c none clusterManager)).2 := by
  obtain ⟨hres, hw⟩ := getMCH_found client namespacedName
  rw [h] at hres
  rcases hg : getMCH client namespacedName with ⟨⟨m, e⟩, calls⟩
  rw [hg] at hres hw
  simp only [Prod.mk.injEq] at hres
  obtain ⟨rfl, rfl⟩ := hres
  simp only at hw
  obtain ⟨hres', hw'⟩ := getClusterManager_found client
  rw [hcm] at hres'
  rcases hg' : getClusterManager client with ⟨⟨m', e'⟩, calls'⟩
  rw [hg'] at hres' hw'
  simp only at hw'
  unfold updateHubClusterClaim
  rw [hg]
  simp only
  rw [hg']
  cases clusterManager with
  | none =>
    simp only [Prod.mk.injEq] at hres'
    obtain ⟨rfl, rfl⟩ := hres'
    simp [writeCalls_append, hw, hw', hubValueFor]
  | some cm =>
    simp only [Prod.mk.injEq] at hres'
    obtain ⟨rfl, rfl⟩ := hres'
    simp [writeCalls_append, hw, hw', hubValueFor]

/-- `updateHubClusterClaim` when no MultiClusterHub exists and the lookup of
the ClusterManager fails. -/
theorem updateHubClusterClaim_managerFailed (c : Constants) (client : HubClient)
    (namespacedName : NamespacedName) (err : ClusterError)
    (h : foundMultiClusterHub client namespacedName = Found.nothing)
    (hcm : foundClusterManager client = Found.failed err) :
    (updateHubClusterClaim c client namespacedName).1 =
      (none, some (HubClaimError.Errorf "failed to get clusterManager instance. err = %v" err)) ∧
    writeCalls (updateHubClusterClaim c client namespacedName).2 = [] := by
  obtain ⟨hres, hw⟩ := getMCH_found client namespacedName
  rw [h] at hres
  rcases hg : getMCH client namespacedName with ⟨⟨m, e⟩, calls⟩
  rw [hg] at hres hw
  simp only [Prod.mk.injEq] at hres
  obtain ⟨rfl, rfl⟩ := hres
  simp only at hw
  obtain ⟨hres', hw'⟩ := getClusterManager_found client
  rw [hcm] at hres'
  rcases hg' : getClusterManager client with ⟨⟨m', e'⟩, calls'⟩
  rw [hg'] at hres' hw'
  simp only [Prod.mk.injEq] at hres'
  obtain ⟨rfl, rfl⟩ := hres'
  simp only at hw'
  unfold updateHubClusterClaim
  rw [hg]
  simp only
  rw [hg']
  simp [writeCalls_append, hw, hw']

/-- The annotation check of `Deploy` ends in a panic exactly on a value that is
neither nil nor a string. -/
theorem skipCreationIfExist_panicked (unsObj : Unstructured)
    (metadata annotations : List (String × Value)) (v : Value)
    (hm : unsObj.Object.lookup "metadata" = some (Value.object metadata))
    (ha : metadata.lookup "annotations" = some (Value.object annotations))
    (hv : annotations.lookup "skip-creation-if-exist" = some v) :
    skipCreationIfExist unsObj = SkipCheck.panicked ↔
      (v ≠ Value.null ∧ ∀ s, v ≠ Value.string s) := by
  cases v <;> simp [skipCreationIfExist, Value.get, hm, ha, hv]
  split <;> simp

/-- `Deploy` panics when the object exists and the annotation check panics. -/
theorem Deploy_panicked (lib : Library) (client : Client) (unsObj foundObj : Unstructured)
    (hget : client.Get unsObj.GroupVersionKind (unsObj.GetNamespace, unsObj.GetName) =
      Except.ok foundObj)
    (hcheck : skipCreationIfExist unsObj = SkipCheck.panicked) :
    (Deploy lib client unsObj).outcome =
      Outcome.panicked "interface conversion: interface {} is not string" := by
  simp [Deploy, hget, hcheck]

/-- C21 fails on the code: for the service account manifest whose annotation
`skip-creation-if-exist` is the boolean `true`, deployed to a cluster that
holds the service account, `Deploy` makes the lookup and then terminates with a
runtime panic in the type assertion `.(string)` instead of returning. -/
theorem Deploy_bool_annotation_panics :
    sampleClient.Get boolAnnotatedServiceAccount.GroupVersionKind
      (boolAnnotatedServiceAccount.GetNamespace, boolAnnotatedServiceAccount.GetName) =
      Except.ok existingServiceAccount ∧
    (Value.object boolAnnotatedServiceAccount.Object).getPath
      ["metadata", "annotations", "skip-creation-if-exist"] = Value.bool true ∧
    (Deploy sampleLibrary sampleClient boolAnnotatedServiceAccount).outcome =
      Outcome.panicked "interface conversion: interface {} is not string" ∧
    ¬ ∃ err, (Deploy sampleLibrary sampleClient boolAnnotatedServiceAccount).outcome =
      Outcome.returned err := by
  have h : (Deploy sampleLibrary sampleClient boolAnnotatedServiceAccount).outcome =
      Outcome.panicked "interface conversion: interface {} is not string" := by decide
  refine ⟨rfl, rfl, h, ?_⟩
  rintro ⟨err, herr⟩
  rw [h] at herr
  cases herr

/-- What `updateHubClusterClaim` returns and writes once the value is chosen,
by what exists as hub cluster claim. -/
theorem updateHubClusterClaim_writes (c : Constants) (client : HubClient)
    (namespacedName : NamespacedName) (hub : Option MultiClusterHub) (value : String)
    (h : (updateHubClusterClaim c client namespacedName).1 =
        (hub, (updateClusterClaim c client c.HubClusterClaimName value).1.map
          HubClaimError.passed) ∧
      writeCalls (updateHubClusterClaim c client namespacedName).2 =
        writeCalls (updateClusterClaim c client c.HubClusterClaimName value).2) :
    (∀ old, foundClusterClaim client c.HubClusterClaimName = Found.object old →
      (updateHubClusterClaim c client namespacedName).1 =
        (hub, (client.Update { Name := old.Name, Labels := old.Labels, Value := value }).map
          HubClaimError.passed) ∧
      writeCalls (updateHubClusterClaim c client namespacedName).2 =
        [HubCall.Update { Name := old.Name, Labels := old.Labels, Value := value }]) ∧
    (foundClusterClaim client c.HubClusterClaimName = Found.nothing →
      (updateHubClusterClaim c client namespacedName).1 =
        (hub, (client.Create
          { Name := c.HubClusterClaimName
            Labels := [("velero.io/exclude-from-backup", "true"),
              (c.GlobalHubOwnerLabelKey, c.GHAgentOwnerLabelValue)]
            Value := value }).map HubClaimError.passed) ∧
      writeCalls (updateHubClusterClaim c client namespacedName).2 =
        [HubCall.Create
          { Name := c.HubClusterClaimName
            Labels := [("velero.io/exclude-from-backup", "true"),
              (c.GlobalHubOwnerLabelKey, c.GHAgentOwnerLabelValue)]
            Value := value }]) ∧
    (∀ err, foundClusterClaim client c.HubClusterClaimName = Found.failed err →
      (updateHubClusterClaim c client namespacedName).1 =
        (hub, some (HubClaimError.passed err)) ∧
      writeCalls (updateHubClusterClaim c client namespacedName).2 = []) := by
  obtain ⟨hres, hw⟩ := h
  obtain ⟨h1, h2⟩ := updateClusterClaim_found c client c.HubClusterClaimName value
  rw [hres, hw, h1, h2]
  refine ⟨?_, ?_, ?_⟩
  · intro old hold
    rw [hold]
    exact ⟨rfl, rfl⟩
  · intro hnothing
    rw [hnothing]
    exact ⟨rfl, rfl⟩
  · intro err herr
    rw [herr]
    exact ⟨rfl, rfl⟩

/-- C22, as stated, fails: the cluster holds a MultiClusterHub whose owner
label has the global-hub value, but the lookup of the cluster claim fails with
a server error; `updateHubClusterClaim` then makes the two lookups and no other
call, returns that error, and neither creates nor updates the claim. -/
theorem updateHubClusterClaim_claim_lookup_fails :
    foundMultiClusterHub claimLookupDownClient hubName = Found.object ownedHub ∧
    ownedHub.label sampleConstants.GlobalHubOwnerLabelKey =
      sampleConstants.GlobalHubOwnerLabelVal ∧
    (updateHubClusterClaim sampleConstants claimLookupDownClient hubName).1 =
      (some ownedHub, some (HubClaimError.passed serverError)) ∧
    (updateHubClusterClaim sampleConstants claimLookupDownClient hubName).2 =
      [HubCall.GetMultiClusterHub hubName,
       HubCall.GetClusterClaim "hub.open-cluster-management.io"] ∧
    (∀ claim,
      HubCall.Create claim ∉
        (updateHubClusterClaim sampleConstants claimLookupDownClient hubName).2 ∧
      HubCall.Update claim ∉
        (updateHubClusterClaim sampleConstants claimLookupDownClient hubName).2) := by
  have hcalls : (updateHubClusterClaim sampleConstants claimLookupDownClient hubName).2 =
      [HubCall.GetMultiClusterHub hubName,
       HubCall.GetClusterClaim "hub.open-cluster-management.io"] := by decide
  refine ⟨rfl, by decide, by decide, hcalls, ?_⟩
  intro claim
  rw [hcalls]
  simp

/-- C22 (amended): `updateHubClusterClaim` writes to the hub cluster claim a
value determined by what exists in the cluster, with one call: an Update of the
claim found, with the value set and name and labels kept, when the claim
exists; a Create of a claim of the name HubClusterClaimName with the velero
label and the agent owner label when the lookup of the claim reports NotFound.
The value is HubInstalledByGlobalHub when a MultiClusterHub exists and its
global-hub owner label has the global-hub owner value; HubInstalledByUser when
a MultiClusterHub exists without that label value, or when none exists but the
ClusterManager named cluster-manager exists; HubNotInstalled when neither
exists.  The error returned is the result of that one write.  When the lookup
of the MultiClusterHub or of the ClusterManager fails with an error other than
NotFound and NoMatch, or the lookup of the claim fails with an error other than
NotFound, it returns an error and makes neither a Create nor an Update call. -/
theorem updateHubClusterClaim_spec (c : Constants) (client : HubClient)
    (namespacedName : NamespacedName) :
    (∀ mch, foundMultiClusterHub client namespacedName = Found.object mch →
      mch.label c.GlobalHubOwnerLabelKey = c.GlobalHubOwnerLabelVal →
      (∀ old, foundClusterClaim client c.HubClusterClaimName = Found.object old →
        (updateHubClusterClaim c client namespacedName).1 =
          (some mch, (client.Update
            { Name := old.Name, Labels := old.Labels,
              Value := c.HubInstalledByGlobalHub }).map HubClaimError.passed) ∧
        (updateHubClusterClaim c client namespacedName).2.filter HubCall.isWrite =
          [HubCall.Update
            { Name := old.Name, Labels := old.Labels,
              Value := c.HubInstalledByGlobalHub }]) ∧
      (foundClusterClaim client c.HubClusterClaimName = Found.nothing →
        (updateHubClusterClaim c client namespacedName).1 =
          (some mch, (client.Create
            { Name := c.HubClusterClaimName
              Labels := [("velero.io/exclude-from-backup", "true"),
                (c.GlobalHubOwnerLabelKey, c.GHAgentOwnerLabelValue)]
              Value := c.HubInstalledByGlobalHub }).map HubClaimError.passed) ∧
        (updateHubClusterClaim c client namespacedName).2.filter HubCall.isWrite =
          [HubCall.Create
            { Name := c.HubClusterClaimName
              Labels := [("velero.io/exclude-from-backup", "true"),
                (c.GlobalHubOwnerLabelKey, c.GHAgentOwnerLabelValue)]
              Value := c.HubInstalledByGlobalHub }])) ∧
    (∀ mch, foundMultiClusterHub client namespacedName = Found.object mch →
      mch.label c.GlobalHubOwnerLabelKey ≠ c.GlobalHubOwnerLabelVal →
      (∀ old, foundClusterClaim client c.HubClusterClaimName = Found.object old →
        (updateHubClusterClaim c client namespacedName).1 =
          (some mch, (client.Update
            { Name := old.Name, Labels := old.Labels,
              Value := c.HubInstalledByUser }).map HubClaimError.passed) ∧
        (updateHubClusterClaim c client namespacedName).2.filter HubCall.isWrite =
          [HubCall.Update
            { Name := old.Name, Labels := old.Labels, Value := c.HubInstalledByUser }]) ∧
      (foundClusterClaim client c.HubClusterClaimName = Found.nothing →
        (updateHubClusterClaim c client namespacedName).1 =
          (some mch, (client.Create
            { Name := c.HubClusterClaimName
              Labels := [("velero.io/exclude-from-backup", "true"),
                (c.GlobalHubOwnerLabelKey, c.GHAgentOwnerLabelValue)]
              Value := c.HubInstalledByUser }).map HubClaimError.passed) ∧
        (updateHubClusterClaim c client namespacedName).2.filter HubCall.isWrite =
          [HubCall.Create
            { Name := c.HubClusterClaimName
              Labels := [("velero.io/exclude-from-backup", "true"),
                (c.GlobalHubOwnerLabelKey, c.GHAgentOwnerLabelValue)]
              Value := c.HubInstalledByUser }])) ∧
    (foundMultiClusterHub client namespacedName = Found.nothing →
      ∀ clusterManager, foundClusterManager client = Found.object clusterManager →
      (∀ old, foundClusterClaim client c.HubClusterClaimName = Found.object old →
        (updateHubClusterClaim c client namespacedName).1 =
          (none, (client.Update
            { Name := old.Name, Labels := old.Labels,
              Value := c.HubInstalledByUser }).map HubClaimError.passed) ∧
        (updateHubClusterClaim c client namespacedName).2.filter HubCall.isWrite =
          [HubCall.Update
            { Name := old.Name, Labels := old.Labels, Value := c.HubInstalledByUser }]) ∧
      (foundClusterClaim client c.HubClusterClaimName = Found.nothing →
        (updateHubClusterClaim c client namespacedName).1 =
          (none, (client.Create
            { Name := c.HubClusterClaimName
              Labels := [("velero.io/exclude-from-backup", "true"),
                (c.GlobalHubOwnerLabelKey, c.GHAgentOwnerLabelValue)]
              Value := c.HubInstalledByUser }).map HubClaimError.passed) ∧
        (updateHubClusterClaim c client namespacedName).2.filter HubCall.isWrite =
          [HubCall.Create
            { Name := c.HubClusterClaimName
              Labels := [("velero.io/exclude-from-backup", "true"),
                (c.GlobalHubOwnerLabelKey, c.GHAgentOwnerLabelValue)]
              Value := c.HubInstalledByUser }])) ∧
    (foundMultiClusterHub client namespacedName = Found.nothing →
      foundClusterManager client = Found.nothing →
      (∀ old, foundClusterClaim client c.HubClusterClaimName = Found.object old →
        (updateHubClusterClaim c client namespacedName).1 =
          (none, (client.Update
            { Name := old.Name, Labels := old.Labels,
              Value := c.HubNotInstalled }).map HubClaimError.passed) ∧
        (updateHubClusterClaim c client namespacedName).2.filter HubCall.isWrite =
          [HubCall.Update
            { Name := old.Name, Labels := old.Labels, Value := c.HubNotInstalled }]) ∧
      (foundClusterClaim client c.HubClusterClaimName = Found.nothing →
        (updateHubClusterClaim c client namespacedName).1 =
          (none, (client.Create
            { Name := c.HubClusterClaimName
              Labels := [("velero.io/exclude-from-backup", "true"),
                (c.GlobalHubOwnerLabelKey, c.GHAgentOwnerLabelValue)]
              Value := c.HubNotInstalled }).map HubClaimError.passed) ∧
        (updateHubClusterClaim c client namespacedName).2.filter HubCall.isWrite =
          [HubCall.Create
            { Name := c.HubClusterClaimName
              Labels := [("velero.io/exclude-from-backup", "true"),
                (c.GlobalHubOwnerLabelKey, c.GHAgentOwnerLabelValue)]
              Value := c.HubNotInstalled }])) ∧
    (∀ err, foundMultiClusterHub client namespacedName = Found.failed err →
      (updateHubClusterClaim c client namespacedName).1 =
        (none, some (HubClaimError.Errorf "failed to get MCH instance. err = %v" err)) ∧
      (updateHubClusterClaim c client namespacedName).2.filter HubCall.isWrite = []) ∧
    (foundMultiClusterHub client namespacedName = Found.nothing →
      ∀ err, foundClusterManager client = Found.failed err →
      (updateHubClusterClaim c client namespacedName).1 =
        (none, some (HubClaimError.Errorf
          "failed to get clusterManager instance. err = %v" err)) ∧
      (updateHubClusterClaim c client namespacedName).2.filter HubCall.isWrite = []) ∧
    (∀ err, foundClusterClaim client c.HubClusterClaimName = Found.failed err →
      (updateHubClusterClaim c client namespacedName).1.2 ≠ none ∧
      (updateHubClusterClaim c client namespacedName).2.filter HubCall.isWrite = [] ∧
      (∀ mch, foundMultiClusterHub client namespacedName = Found.object mch →
        (updateHubClusterClaim c client namespacedName).1 =
          (some mch, some (HubClaimError.passed err))) ∧
      (foundMultiClusterHub client namespacedName = Found.nothing →
        (∀ e, foundClusterManager client ≠ Found.failed e) →
        (updateHubClusterClaim c client namespacedName).1 =
          (none, some (HubClaimError.passed err)))) := by
  have hub := fun mch h => updateHubClusterClaim_writes c client namespacedName (some mch)
    (hubValueFor c (some mch) none) (updateHubClusterClaim_hub c client namespacedName mch h)
  have noHub := fun cm h hcm => updateHubClusterClaim_writes c client namespacedName none
    (hubValueFor c none cm) (updateHubClusterClaim_noHub c client namespacedName cm h hcm)
  refine ⟨?_, ?_, ?_, ?_, ?_, ?_, ?_⟩
  · intro mch h hlabel
    have hw := hub mch h
    simp only [hubValueFor, hlabel, if_true] at hw
    exact ⟨hw.1, hw.2.1⟩
  · intro mch h hlabel
    have hw := hub mch h
    simp only [hubValueFor, hlabel, if_false] at hw
    exact ⟨hw.1, hw.2.1⟩
  · intro h clusterManager hcm
    have hw := noHub (some clusterManager) h hcm
    exact ⟨hw.1, hw.2.1⟩
  · intro h hcm
    have hw := noHub none h hcm
    exact ⟨hw.1, hw.2.1⟩
  · intro err h
    exact updateHubClusterClaim_hubFailed c client namespacedName err h
  · intro h err hcm
    exact updateHubClusterClaim_managerFailed c client namespacedName err h hcm
  · intro err hclaim
    cases hf : foundMultiClusterHub client namespacedName with
    | object mch =>
      obtain ⟨hres, hw⟩ := (hub mch hf).2.2 err hclaim
      refine ⟨by rw [hres]; simp, hw, ?_, ?_⟩
      · intro mch' hmch
        cases hmch
        exact hres
      · intro hno
        cases hno
    | failed e =>
      obtain ⟨hres, hw⟩ := updateHubClusterClaim_hubFailed c client namespacedName e hf
      refine ⟨by rw [hres]; simp, hw, ?_, ?_⟩
      · intro mch' hmch
        cases hmch
      · intro hno
        cases hno
    | nothing =>
      refine ⟨?_, ?_, ?_, ?_⟩
      · cases hcm : foundClusterManager client with
        | object cm =>
          rw [((noHub (some cm) hf hcm).2.2 err hclaim).1]
          simp
        | nothing =>
          rw [((noHub none hf hcm).2.2 err hclaim).1]
          simp
        | failed e =>
          rw [(updateHubClusterClaim_managerFailed c client namespacedName e hf hcm).1]
          simp
      · cases hcm : foundClusterManager client with
        | object cm => exact ((noHub (some cm) hf hcm).2.2 err hclaim).2
        | nothing => exact ((noHub none hf hcm).2.2 err hclaim).2
        | failed e =>
          exact (updateHubClusterClaim_managerFailed c client namespacedName e hf hcm).2
      · intro mch' hmch
        cases hmch
      · intro _ hnot
        cases hcm : foundClusterManager client with
        | object cm => exact ((noHub (some cm) hf hcm).2.2 err hclaim).1
        | nothing => exact ((noHub none hf hcm).2.2 err hclaim).1
        | failed e => exact absurd hcm (hnot e)

theorem updateHubClusterClaim_spec_witness :
    (updateHubClusterClaim sampleConstants ownedHubClient hubName).2.filter HubCall.isWrite =
      [HubCall.Create
        { Name := "hub.open-cluster-management.io"
          Labels := [("velero.io/exclude-from-backup", "true"),
            ("global-hub.open-cluster-management.io/managed-by", "global-hub-agent")]
          Value := "InstalledByGlobalHub" }] ∧
    (updateHubClusterClaim sampleConstants claimedHubClient hubName).2.filter HubCall.isWrite =
      [HubCall.Update
        { Name := "hub.open-cluster-management.io"
          Labels := [("velero.io/exclude-from-backup", "true")]
          Value := "InstalledByGlobalHub" }] ∧
    (updateHubClusterClaim sampleConstants bareClient hubName).2.filter HubCall.isWrite =
      [HubCall.Create
        { Name := "hub.open-cluster-management.io"
          Labels := [("velero.io/exclude-from-backup", "true"),
            ("global-hub.open-cluster-management.io/managed-by", "global-hub-agent")]
          Value := "NotInstalled" }] ∧
    (updateHubClusterClaim sampleConstants claimLookupDownClient hubName).2.filter
      HubCall.isWrite = [] :=
  ⟨(((updateHubClusterClaim_spec sampleConstants ownedHubClient hubName).1
      ownedHub rfl (by decide)).2 rfl).2,
    (((updateHubClusterClaim_spec sampleConstants claimedHubClient hubName).1
      ownedHub rfl (by decide)).1 staleClaim rfl).2,
    (((updateHubClusterClaim_spec sampleConstants bareClient hubName).2.2.2.1
      rfl rfl).2 rfl).2,
    ((updateHubClusterClaim_spec sampleConstants claimLookupDownClient hubName).2.2.2.2.2.2
      serverError rfl).2.1⟩

end GlobalHub
